import Mathlib

/-!
Verification of the remote-lifecycle orchestrator of the backuper
repository (`src/orchestrator/app/__init__.py`).  Python string values are
modelled by `String` (a sequence of code points, like Python `str`); the
subprocess/filesystem/database world is modelled by explicit oracle
structures; `None` becomes `Option`, raised exceptions become explicit
error values.  The deployment platform is POSIX (Linux containers), so
`os.sep = '/'`, `os.altsep = None` and `os.path.normcase` is the identity.
-/

set_option autoImplicit false

namespace Backuper

/-! ### Python string primitives

Models of the `str` methods the orchestrator uses, working on the
character list underlying a `String`.  `pyWsChar` is the ASCII whitespace
set stripped by `str.strip()`. -/

def pyWsChar (c : Char) : Bool :=
  c = ' ' || c = '\t' || c = '\n' || c = '\r' || c = '\x0b' || c = '\x0c'

def dropEdges (p : Char → Bool) (l : List Char) : List Char :=
  ((l.dropWhile p).reverse.dropWhile p).reverse

/-- Python `s.strip()` (ASCII whitespace at both ends). -/
def pyStrip (s : String) : String := ⟨dropEdges pyWsChar s.data⟩

/-- Python `s.strip(c)` for a one-character strip set. -/
def pyStripChar (c : Char) (s : String) : String := ⟨dropEdges (fun x => x = c) s.data⟩

/-- Python `s.rstrip(c)` for a one-character strip set. -/
def pyRstrip (c : Char) (s : String) : String :=
  ⟨(s.data.reverse.dropWhile (fun x => x = c)).reverse⟩

/-- Python `s.lstrip(c)` for a one-character strip set. -/
def pyLstrip (c : Char) (s : String) : String := ⟨s.data.dropWhile (fun x => x = c)⟩

/-- Python `s.replace(old, new)` for one-character `old`/`new`. -/
def replaceChar (a b : Char) (s : String) : String :=
  ⟨s.data.map (fun c => if c = a then b else c)⟩

/-- Python `s.startswith(p)`. -/
def strStarts (s p : String) : Bool := p.data.isPrefixOf s.data

/-- Python `s.endswith(c)` for a one-character suffix. -/
def strEndsChar (s : String) (c : Char) : Bool := s.data.getLast? = some c

/-- Python `c in s` for a single character. -/
def strHasChar (c : Char) (s : String) : Bool := s.data.contains c

/-- Python `s.lower()` (ASCII letters; the orchestrator only compares
ASCII keywords such as `"local"`). -/
def pyLower (s : String) : String := ⟨s.data.map Char.toLower⟩

/-- Python `s.split(c)` for a one-character separator. -/
def splitChar (c : Char) : List Char → List (List Char)
  | [] => [[]]
  | x :: xs =>
      if x = c then [] :: splitChar c xs
      else
        match splitChar c xs with
        | [] => [[x]]
        | h :: t => (x :: h) :: t

def pySplit (c : Char) (s : String) : List String :=
  (splitChar c s.data).map (fun l => ⟨l⟩)

/-- Python `needle in hay` for substrings. -/
def isSub : List Char → List Char → Bool
  | needle, [] => needle.isPrefixOf ([] : List Char)
  | needle, h :: t => needle.isPrefixOf (h :: t) || isSub needle t

def strHasSub (needle hay : String) : Bool := isSub needle.data hay.data

/-! ### The `while "//" in candidate` loop

`_normalize_sftp_base_path` collapses double slashes with a loop
`while "//" in candidate: candidate = candidate.replace("//", "/")`.
`replaceDSOnce` is one pass of Python `replace` (left-to-right,
non-overlapping); the loop runs until no double slash remains, and each
pass strictly shrinks the string, so `length` steps of fuel suffice. -/

def hasDoubleSlash : List Char → Bool
  | [] => false
  | [_] => false
  | c :: d :: rest => (c = '/' && d = '/') || hasDoubleSlash (d :: rest)

def replaceDSOnce : List Char → List Char
  | [] => []
  | [c] => [c]
  | c :: d :: rest =>
      if c = '/' then
        if d = '/' then '/' :: replaceDSOnce rest
        else c :: replaceDSOnce (d :: rest)
      else c :: replaceDSOnce (d :: rest)

def collapseFuel : Nat → List Char → List Char
  | 0, l => l
  | Nat.succ n, l => if hasDoubleSlash l then collapseFuel n (replaceDSOnce l) else l

def collapseSlashes (s : String) : String := ⟨collapseFuel s.data.length s.data⟩

/-- The slash-fixing pipeline of `_normalize_sftp_base_path` (lines
328-335): replace backslashes, ensure a leading slash, collapse double
slashes, drop trailing slashes, and fall back to `"/"` when empty. -/
def sftpPipe (candidate : String) : String :=
  let c1 := replaceChar '\\' '/' candidate
  let c2 := if strStarts c1 "/" then c1 else "/" ++ c1
  let c3 := collapseSlashes c2
  let c4 := if 1 < c3.length && strEndsChar c3 '/' then pyRstrip '/' c3 else c3
  if c4 = "" then "/" else c4

/-- `_normalize_sftp_base_path` (src/orchestrator/app/`__init__`.py,
lines 324-335).  `value or "/"` maps `None` and `""` to `"/"`. -/
def normalizeSftpBasePath (value : Option String) : String :=
  let raw := value.getD ""
  let candidate := pyStrip (if raw = "" then "/" else raw)
  if candidate = "" ∨ candidate = "." ∨ candidate = "./" then "/"
  else sftpPipe candidate

/-- `_join_sftp_folder` (lines 337-344).  Python raises `ValueError` when
the cleaned folder name is empty; that is modelled as `none`. -/
def joinSftpFolder (basePath : String) (folder : Option String) : Option String :=
  let safeFolder := pyStripChar '/' (pyStrip (folder.getD ""))
  if safeFolder = "" then none
  else
    let normalizedBase := normalizeSftpBasePath (some basePath)
    if normalizedBase = "/" then some ("/" ++ safeFolder)
    else some (normalizedBase ++ "/" ++ safeFolder)

/-! ### POSIX path functions

Models of the `posixpath` operations used by the Path Guard:
`os.path.normpath`, `os.path.join`, `os.path.abspath`,
`os.path.commonpath` (restricted to two paths), `os.path.dirname` and
`os.path.expanduser`.  On POSIX `os.path.normcase` is the identity and is
modelled as such. -/

def mkSlashes : Nat → String
  | 0 => ""
  | 1 => "/"
  | _ => "//"

/-- The `initial_slashes` count of `posixpath.normpath`: POSIX keeps
exactly two leading slashes special. -/
def leadSlashCount (p : String) : Nat :=
  if strStarts p "/" = true then
    if strStarts p "//" = true ∧ ¬ strStarts p "///" = true then 2 else 1
  else 0

/-- One step of the component loop of `posixpath.normpath`. -/
def normStep (slashes : Nat) (acc : List String) (comp : String) : List String :=
  if comp = "" ∨ comp = "." then acc
  else if comp ≠ ".." ∨ (slashes = 0 ∧ acc = []) ∨ (acc ≠ [] ∧ acc.getLast? = some "..") then
    acc ++ [comp]
  else if acc ≠ [] then acc.dropLast
  else acc

/-- The component loop of `posixpath.normpath`. -/
def normpathComps (slashes : Nat) (comps : List String) : List String :=
  comps.foldl (normStep slashes) []

/-- A clean path component: non-empty, not a dot entry, no separator. -/
def goodComp (comp : String) : Prop :=
  comp ≠ "" ∧ comp ≠ "." ∧ comp ≠ ".." ∧ '/' ∉ comp.data

def goodComps (comps : List String) : Prop := ∀ x ∈ comps, goodComp x

/-- `"/".join(components)` (structurally recursive). -/
def joinComps : List String → String
  | [] => ""
  | [c] => c
  | c :: rest => c ++ "/" ++ joinComps rest

/-- `posixpath.normpath`. -/
def normpath (p : String) : String :=
  if p = "" then "."
  else
    let slashes := leadSlashCount p
    let newComps := normpathComps slashes (pySplit '/' p)
    let joined := joinComps newComps
    let out := mkSlashes slashes ++ joined
    if out = "" then "." else out

/-- `posixpath.join` for two arguments. -/
def pjoin (a b : String) : String :=
  if strStarts b "/" = true then b
  else if a = "" ∨ strEndsChar a '/' = true then a ++ b
  else a ++ "/" ++ b

/-- Index of the first `'/'` in a character list. -/
def idxOfSlash : List Char → Option Nat
  | [] => none
  | c :: t => if c = '/' then some 0 else (idxOfSlash t).map (· + 1)

/-- `posixpath.expanduser`.  The `HOME`/`pwd` lookups are an oracle from
user name (`""` for the current user) to home directory; `none` models a
failed lookup, after which Python returns the path unchanged. -/
def expanduser (userhome : String → Option String) (path : String) : String :=
  if strStarts path "~" = false then path
  else
    let i := match idxOfSlash (path.data.drop 1) with
      | some k => k + 1
      | none => path.length
    let name : String := ⟨(path.data.drop 1).take (i - 1)⟩
    match userhome name with
    | none => path
    | some uh =>
        let res := pyRstrip '/' uh ++ (⟨path.data.drop i⟩ : String)
        if res = "" then "/" else res

/-- `posixpath.abspath`, with the working directory supplied. -/
def abspath (cwd : String) (path : String) : String :=
  if strStarts path "/" = true then normpath path
  else normpath (pjoin cwd path)

/-- Characters after the last `'/'` of a path. -/
def afterLastSlash (l : List Char) : List Char :=
  (l.reverse.takeWhile (fun c => c ≠ '/')).reverse

/-- `posixpath.dirname`. -/
def dirnameP (p : String) : String :=
  let head : List Char := p.data.take (p.data.length - (afterLastSlash p.data).length)
  if head ≠ [] ∧ ¬ head.all (fun c => c = '/') then
    ⟨(head.reverse.dropWhile (fun c => c = '/')).reverse⟩
  else ⟨head⟩

def commonPref : List String → List String → List String
  | a :: as2, b :: bs => if a = b then a :: commonPref as2 bs else []
  | _, _ => []

/-- `posixpath.commonpath` restricted to two paths.  Python raises
`ValueError` when one path is absolute and the other is not; that is
`none`.  For two paths the `min`/`max` trick of CPython computes the
longest common prefix of the filtered component lists. -/
def commonpath2 (a b : String) : Option String :=
  let aAbs := strStarts a "/"
  let bAbs := strStarts b "/"
  if aAbs ≠ bAbs then none
  else
    let fa := (pySplit '/' a).filter (fun c => ¬(c = "" ∨ c = "."))
    let fb := (pySplit '/' b).filter (fun c => ¬(c = "" ∨ c = "."))
    let common := commonPref fa fb
    let pre := if aAbs = true then "/" else ""
    some (pre ++ String.intercalate "/" common)

/-! ### Configured local directories and the Path Guard -/

/-- `strip_enclosing_quotes` (src/orchestrator/local_dirs.py).
`Char.ofNat 39` is the single-quote character. -/
def stripEnclosingQuotes (value : Option String) : String :=
  match value with
  | none => ""
  | some v =>
      let text := pyStrip v
      if 2 ≤ text.length ∧ text.data.head? = text.data.getLast? ∧
          (text.data.head? = some '"' ∨ text.data.head? = some (Char.ofNat 39)) then
        pyStrip ⟨(text.data.drop 1).dropLast⟩
      else text

structure DirEntry where
  label : String
  path : String
  deriving DecidableEq, Repr

/-- Splitting on any of a set of separator characters.  `re.split` with a
`+`-quantified class differs only by empty pieces around separator runs,
and `parse_local_directory_config` drops empty pieces. -/
def splitOnPred (p : Char → Bool) : List Char → List (List Char)
  | [] => [[]]
  | x :: xs =>
      if p x then [] :: splitOnPred p xs
      else
        match splitOnPred p xs with
        | [] => [[x]]
        | h :: t => (x :: h) :: t

/-- Python `s.partition(c)`: pieces before and after the first occurrence
of `c`, or `none` when `c` does not occur. -/
def partitionChar (c : Char) : List Char → Option (List Char × List Char)
  | [] => none
  | x :: xs =>
      if x = c then some ([], xs)
      else (partitionChar c xs).map (fun pr => (x :: pr.1, pr.2))

/-- One entry of `parse_local_directory_config` (src/orchestrator/local_dirs.py). -/
def parseLocalDirEntry (raw : List Char) : Option DirEntry :=
  let item := pyStrip ⟨raw⟩
  if item = "" then none
  else
    match partitionChar '|' item.data with
    | some (lab, pathPart) =>
        let cleanedPath := stripEnclosingQuotes (some ⟨pathPart⟩)
        let lab2 := stripEnclosingQuotes (some ⟨lab⟩)
        let cleanedLabel := if lab2 = "" then cleanedPath else lab2
        if cleanedPath = "" then none
        else some ⟨if cleanedLabel = "" then cleanedPath else cleanedLabel, cleanedPath⟩
    | none =>
        let cleanedPath := stripEnclosingQuotes (some item)
        if cleanedPath = "" then none
        else some ⟨cleanedPath, cleanedPath⟩

/-- `parse_local_directory_config` (src/orchestrator/local_dirs.py). -/
def parseLocalDirectoryConfig (value : String) : List DirEntry :=
  (splitOnPred (fun c => c = ';' ∨ c = ',' ∨ c = '\n') value.data).filterMap
    parseLocalDirEntry

/-- Environment for path resolution: the process working directory and
the home-directory lookup used by `expanduser`. -/
structure PathEnv where
  cwd : String
  userhome : String → Option String

/-- `_ensure_absolute_path` (src/orchestrator/app/`__init__`.py,
lines 112-121). -/
def ensureAbsolutePath (pe : PathEnv) (value : Option String) : Option String :=
  match value with
  | none => none
  | some v =>
      let candidate := stripEnclosingQuotes (some v)
      if candidate = "" then none
      else
        let expanded := expanduser pe.userhome candidate
        if expanded = "" then none
        else some (abspath pe.cwd expanded)

/-- `_normalize_filesystem_path` (lines 123-129); `os.path.normcase` is
the identity on POSIX. -/
def normalizeFilesystemPath (pe : PathEnv) (path : Option String) : String :=
  match ensureAbsolutePath pe path with
  | none => ""
  | some candidate =>
      if candidate = "" then ""
      else if candidate ≠ "/" then pyRstrip '/' candidate
      else candidate

/-! ### Remote plans and errors -/

/-- `RemoteOperationError(message, status_code)` (default 400). -/
structure RemoteErr where
  message : String
  status : Nat := 400
  deriving DecidableEq, Repr

/-- `RemotePlan` (lines 80-96).  The `error_translator` is an optional
message-rewriting function. -/
structure RemotePlan where
  command : List String := []
  preCommands : List (List String) := []
  postCommands : List (List String) := []
  cleanupOnError : Bool := false
  errorTranslator : Option (String → String) := none
  driveMode : Option String := none
  driveRemotePath : Option String := none
  driveCurrentPath : Option String := none
  driveRequiresCreation : Bool := false
  shareUrl : Option String := none
  localTargetPath : Option String := none
  localSourcePath : Option String := none
  localBasePath : Option String := none
  localMoveMode : Option String := none
  configSnapshot : Option (List (String × String)) := none

/-- Exceptions crossing helper boundaries: `RemoteOperationError`,
`subprocess.CalledProcessError`, `RuntimeError` (missing rclone binary),
and `uncaught` for exceptions outside that taxonomy (such as the
`AttributeError` on `payload.get` when a configuration dump parses to a
non-object). -/
inductive ExcE where
  | op (message : String) (status : Nat)
  | cpe (stderr stdout : String)
  | runtime
  | uncaught
  deriving DecidableEq, Repr

/-- Outcome of one rclone invocation (`subprocess.run` with
`check=True`). -/
inductive ToolOutcome where
  | ok (stdout : String)
  | err (stderr stdout : String)
  | missing
  deriving DecidableEq, Repr

/-- Attempted subprocess invocations and filesystem mutations, in
order.  `rclone args` records the argument list passed to `run_rclone`
(the shared `--config` prefix of `run_rclone` is implicit). -/
inductive Event where
  | rclone (args : List String)
  | makedirs (path : String)
  | move (src dst : String)
  | rmtree (path : String)
  | unlink (path : String)
  deriving DecidableEq, Repr

/-- The `OSError` kinds distinguished by `_format_local_error`. -/
inductive OsErr where
  | fileExists
  | fileNotFound
  | permission
  | other (detail : String)
  deriving DecidableEq, Repr

/-- JSON values as returned by `json.loads`. -/
inductive JVal where
  | null
  | bool (b : Bool)
  | num (z : Int)
  | str (s : String)
  | arr (elems : List JVal)
  | obj (fields : List (String × JVal))

/-- Python truthiness of a JSON value. -/
def jTruthy : JVal → Bool
  | .null => false
  | .bool b => b
  | .num z => z ≠ 0
  | .str s => s ≠ ""
  | .arr l => !l.isEmpty
  | .obj l => !l.isEmpty

/-- Python `str()` of a JSON value.  The orchestrator only stores scalar
configuration fields; the rendering of containers is abbreviated. -/
def jStr : JVal → String
  | .null => "None"
  | .bool true => "True"
  | .bool false => "False"
  | .num z => toString z
  | .str s => s
  | .arr _ => "[...]"
  | .obj _ => "\x7bobject\x7d"

/-- Python `dict.get` on parsed JSON object fields. -/
def jGet (fields : List (String × JVal)) (k : String) : Option JVal :=
  (fields.find? (fun kv => kv.1 == k)).map (fun kv => kv.2)

/-- The `for key, value in payload.items()` loops of
`_load_remote_configuration` and `restore_persisted_remotes`: skip `None`
values, stringify the rest. -/
def configOfFields (fields : List (String × JVal)) : List (String × String) :=
  fields.filterMap (fun kv =>
    match kv.2 with
    | .null => none
    | v => some (kv.1, jStr v))

/-- Persisted `rclone_remotes` row (`RcloneRemote` model). -/
structure RemoteRow where
  rowId : Nat
  name : String
  rtype : Option String
  route : Option String
  shareUrl : Option String
  config : Option String
  deriving DecidableEq, Repr

/-- Persisted `apps` row (`App` model), restricted to the fields the
remote lifecycle touches. -/
structure AppRow where
  appId : Nat
  rcloneRemote : Option String
  deriving DecidableEq, Repr

/-- The persisted metadata store. -/
structure DB where
  remotes : List RemoteRow
  apps : List AppRow
  nextId : Nat
  deriving DecidableEq, Repr

/-- A JSON HTTP response: body fields and status code. -/
structure Resp where
  body : List (String × String)
  status : Nat
  deriving DecidableEq, Repr

def errResp (msg : String) (status : Nat) : Resp := ⟨[("error", msg)], status⟩

/-- An exception escaping a route handler (the framework turns it into a
500 response). -/
def uncaughtResp : Resp := ⟨[("uncaught", "exception")], 500⟩

/-- Oracle for the external world.  `run` is the outcome of an rclone
invocation with the given argument list (deterministic per arguments);
the `os`/`shutil` oracles return `none` on success and the raised
`OSError` otherwise; `parseJson` models `json.loads` (`none` =
`JSONDecodeError`); `freshA`/`freshB` are the `uuid.uuid4().hex[:8]`
draws; `tempName` the `NamedTemporaryFile` name; `rcloneRemoteEnv` the
`os.getenv("RCLONE_REMOTE", "gdrive")` result; `localDirsRaw` the
`RCLONE_LOCAL_DIRECTORIES` value. -/
structure Env where
  run : List String → ToolOutcome
  makedirsX : String → Option OsErr
  moveX : String → String → Option OsErr
  rmtreeX : String → Option OsErr
  unlinkX : String → Option OsErr
  isdirX : String → Bool
  existsX : String → Bool
  listdirX : String → List String
  parseJson : String → Option JVal
  rcloneRemoteEnv : String
  localDirsRaw : String
  pathEnv : PathEnv
  freshA : String
  freshB : String
  tempName : String
  driveClientIdEnv : String
  driveClientSecretEnv : String
  driveScopeEnv : String

/-- Python `(exc.stderr or exc.stdout or "").strip()`. -/
def errDetail (stderr stdout : String) : String :=
  pyStrip (if stderr ≠ "" then stderr else stdout)

/-- Modelled from the spec: `_normalize_remote` is imported from
`orchestrator.services.client`, whose definition is not under `src/`.
Per the data model (§3: `AppLink.rcloneRemote` holds values like
`"foo:"`), the testable property `updating remote "foo" to "bar" must
update every AppLink.rcloneRemote == "foo:"` (§8), and the repository
tests (registering an app with remote `"gdrive"` stores `"gdrive:"`), it
renders a remote name with exactly one trailing colon. -/
def normalizeRemote (s : String) : String :=
  pyRstrip ':' (pyStrip s) ++ ":"

/-- `_normalize_remote_name` (lines 192-196). -/
def normalizeRemoteName (value : Option String) : String :=
  let cleaned := pyStrip (value.getD "")
  if cleaned = "" then "" else pyRstrip ':' (normalizeRemote cleaned)

/-- `_normalize_drive_path` (lines 206-222). -/
def normalizeDrivePath (env : Env) (path : Option String) : String :=
  let candidate := pyStrip (path.getD "")
  if candidate = "" then ""
  else
    let candidate := replaceChar '\\' '/' candidate
    match partitionChar ':' candidate.data with
    | none =>
        let baseRemote := normalizeRemote env.rcloneRemoteEnv
        let cleanedSuffix := pyStripChar '/' candidate
        if cleanedSuffix ≠ "" then baseRemote ++ cleanedSuffix else baseRemote
    | some (remote, suffix) =>
        let normalizedRemote := normalizeRemote ⟨remote⟩
        let cleanedSuffix := pyStripChar '/' (pyStrip ⟨suffix⟩)
        if cleanedSuffix ≠ "" then normalizedRemote ++ cleanedSuffix else normalizedRemote

/-- `_build_drive_temp_path` (lines 265-271); the `ValueError` on a
colon-free normalized path is `none` (unreachable from the routes). -/
def buildDriveTempPath (env : Env) (path : String) : Option String :=
  let normalized := normalizeDrivePath env (some path)
  match partitionChar ':' normalized.data with
  | none => none
  | some (remote, _) => some (normalizeRemote ⟨remote⟩ ++ "__rollback__" ++ env.freshB)

/-- `_move_drive_path` (lines 273-287). -/
def moveDrivePath (env : Env) (source target : String) :
    Except ExcE Unit × List Event :=
  let ev := [Event.rclone ["moveto", source, target]]
  match env.run ["moveto", source, target] with
  | .ok _ => (.ok (), ev)
  | .err a b =>
      let detail := errDetail a b
      (.error (.op (if detail ≠ "" then detail
        else "No se pudo actualizar la carpeta en Google Drive. Intentá con otro nombre.") 400), ev)
  | .missing => (.error .runtime, ev)

/-- `_restore_drive_path` (lines 289-306): returns the failure detail, or
`none` on success; only the missing binary escapes as an exception. -/
def restoreDrivePath (env : Env) (source target : String) :
    Except ExcE (Option String) × List Event :=
  let ev := [Event.rclone ["moveto", source, target]]
  match env.run ["moveto", source, target] with
  | .ok _ => (.ok none, ev)
  | .err a b =>
      let detail := errDetail a b
      (.ok (some (if detail ≠ "" then detail
        else "No se pudo restaurar la carpeta original en Google Drive.")), ev)
  | .missing => (.error .runtime, ev)

/-- `_purge_drive_path` (lines 308-322). -/
def purgeDrivePath (env : Env) (target : String) : Except ExcE Unit × List Event :=
  let ev := [Event.rclone ["purge", target]]
  match env.run ["purge", target] with
  | .ok _ => (.ok (), ev)
  | .err a b =>
      let detail := errDetail a b
      (.error (.op (if detail ≠ "" then detail
        else "No se pudo eliminar la carpeta de Google Drive asociada al remote.") 400), ev)
  | .missing => (.error .runtime, ev)

/-- `fetch_configured_remotes` (lines 926-932): `listremotes` output,
split into lines, stripped, trailing colons removed.  `splitlines` is
modelled as splitting on newline. -/
def fetchConfiguredRemotes (env : Env) : Except ExcE (List String) × List Event :=
  let ev := [Event.rclone ["listremotes"]]
  match env.run ["listremotes"] with
  | .ok out =>
      (.ok ((((pySplit '\n' out).map pyStrip).filter (fun r => r ≠ "")).map (pyRstrip ':')), ev)
  | .err a b => (.error (.cpe a b), ev)
  | .missing => (.error .runtime, ev)

/-- `_delete_remote_safely` (lines 681-690): best effort, all failures
swallowed; the attempt is always made. -/
def deleteRemoteSafely (remoteName : String) : List Event :=
  [Event.rclone ["config", "delete", remoteName]]

/-- `_obscure_rclone_secret` (lines 864-889). -/
def obscureRcloneSecret (env : Env) (secret : String) (configPath : Option String) :
    Except ExcE String × List Event :=
  let args := match configPath with
    | some cp => ["--config", cp, "obscure", secret]
    | none => ["obscure", secret]
  let ev := [Event.rclone args]
  match env.run args with
  | .missing => (.error (.op "rclone is not installed" 500), ev)
  | .err _ _ =>
      (.error (.op "No se pudo cifrar la contraseña para rclone. Reintentá más tarde." 500), ev)
  | .ok out =>
      let obscured := pyStrip out
      if obscured = "" then
        (.error (.op "No se pudo cifrar la contraseña para rclone. Reintentá más tarde." 500), ev)
      else (.ok obscured, ev)

/-- Non-empty stripped output lines (`_generate_drive_share_link`). -/
def outputLines (out : String) : List String :=
  ((pySplit '\n' out).map pyStrip).filter (fun l => l ≠ "")

/-- Result of `_generate_drive_share_link`: a url, a
`DriveShareLinkError`, or a missing binary. -/
inductive ShareLinkResult where
  | ok (url : String)
  | shareError (message : String)
  | runtime
  deriving DecidableEq, Repr

/-- `_generate_drive_share_link` (lines 891-924), with the two-command
loop unrolled: retry without `--create-link` only when the first command
fails with an `unknown flag` error. -/
def generateDriveShareLink (env : Env) (target : String) :
    ShareLinkResult × List Event :=
  let cmd1 : List String := ["link", target, "--create-link"]
  let cmd2 : List String := ["link", target]
  let defaultMsg := "No se pudo generar el enlace compartido de Google Drive."
  match env.run cmd1 with
  | .missing => (.runtime, [.rclone cmd1])
  | .err a b =>
      let lowered := pyLower (if a ≠ "" then a else b)
      if strHasSub "unknown flag" lowered then
        match env.run cmd2 with
        | .missing => (.runtime, [.rclone cmd1, .rclone cmd2])
        | .err a2 b2 =>
            let d2 := errDetail a2 b2
            (.shareError (if d2 ≠ "" then d2 else defaultMsg), [.rclone cmd1, .rclone cmd2])
        | .ok out2 =>
            match outputLines out2 with
            | line :: _ => (.ok line, [.rclone cmd1, .rclone cmd2])
            | [] =>
                let d1 := errDetail a b
                (.shareError (if d1 ≠ "" then d1 else defaultMsg), [.rclone cmd1, .rclone cmd2])
      else
        let d1 := errDetail a b
        (.shareError (if d1 ≠ "" then d1 else defaultMsg), [.rclone cmd1])
  | .ok out =>
      match outputLines out with
      | line :: _ => (.ok line, [.rclone cmd1])
      | [] =>
          match env.run cmd2 with
          | .missing => (.runtime, [.rclone cmd1, .rclone cmd2])
          | .err a2 b2 =>
              let d2 := errDetail a2 b2
              (.shareError (if d2 ≠ "" then d2 else defaultMsg), [.rclone cmd1, .rclone cmd2])
          | .ok out2 =>
              match outputLines out2 with
              | line :: _ => (.ok line, [.rclone cmd1, .rclone cmd2])
              | [] => (.shareError defaultMsg, [.rclone cmd1, .rclone cmd2])

/-- Applying a plan translator to a message. -/
def translateMsg (tr : Option (String → String)) (msg : String) : String :=
  match tr with
  | some f => f msg
  | none => msg

/-- The `for extra in plan.pre_commands` loop of `_execute_remote_plan`
(lines 602-607): any failure aborts with the translated-free message. -/
def runPre (env : Env) : List (List String) → Except ExcE Unit × List Event
  | [] => (.ok (), [])
  | c :: rest =>
      match env.run c with
      | .ok _ =>
          let (r, evs) := runPre env rest
          (r, Event.rclone c :: evs)
      | .err a b =>
          let d := errDetail a b
          (.error (.op (if d ≠ "" then d else "failed to prepare remote") 400), [Event.rclone c])
      | .missing => (.error .runtime, [Event.rclone c])

/-- The `for extra in plan.post_commands` loop of `_execute_remote_plan`
(lines 617-634): on failure, best-effort delete of the entry when
`cleanup_on_error`, then the translated error. -/
def runPost (env : Env) (name : String) (plan : RemotePlan) :
    List (List String) → Except ExcE Unit × List Event
  | [] => (.ok (), [])
  | c :: rest =>
      match env.run c with
      | .ok _ =>
          let (r, evs) := runPost env name plan rest
          (r, Event.rclone c :: evs)
      | .err a b =>
          let cleanupEvs := if plan.cleanupOnError then deleteRemoteSafely name else []
          let d := errDetail a b
          (.error (.op (translateMsg plan.errorTranslator
              (if d ≠ "" then d else "failed to create remote")) 400),
            Event.rclone c :: cleanupEvs)
      | .missing => (.error .runtime, [Event.rclone c])

/-- `_execute_remote_plan` (lines 601-654). -/
def executeRemotePlan (env : Env) (name : String) (plan : RemotePlan) :
    Except ExcE (Option String) × List Event :=
  match runPre env plan.preCommands with
  | (.error e, evs) => (.error e, evs)
  | (.ok _, evs1) =>
      match env.run plan.command with
      | .missing => (.error .runtime, evs1 ++ [Event.rclone plan.command])
      | .err a b =>
          let d := errDetail a b
          (.error (.op (translateMsg plan.errorTranslator
              (if d ≠ "" then d else "failed to create remote")) 400),
            evs1 ++ [Event.rclone plan.command])
      | .ok _ =>
          match runPost env name plan plan.postCommands with
          | (.error e, evs2) => (.error e, evs1 ++ [Event.rclone plan.command] ++ evs2)
          | (.ok _, evs2) =>
              if plan.driveMode = some "shared" ∧ plan.driveRemotePath.getD "" ≠ "" then
                match generateDriveShareLink env (plan.driveRemotePath.getD "") with
                | (.ok url, evs3) =>
                    (.ok (some url), evs1 ++ [Event.rclone plan.command] ++ evs2 ++ evs3)
                | (.shareError m, evs3) =>
                    let cleanupEvs := if plan.cleanupOnError then deleteRemoteSafely name else []
                    (.error (.op m 500),
                      evs1 ++ [Event.rclone plan.command] ++ evs2 ++ evs3 ++ cleanupEvs)
                | (.runtime, evs3) =>
                    (.error .runtime, evs1 ++ [Event.rclone plan.command] ++ evs2 ++ evs3)
              else (.ok plan.shareUrl, evs1 ++ [Event.rclone plan.command] ++ evs2)

/-- `_load_remote_configuration` (lines 692-747).  A `None` JSON entry is
`payload.get(name) is None`, hence `.ok none`; a non-object parsed dump
raises `AttributeError` on `.get`, hence `.error .uncaught`. -/
def loadRemoteConfiguration (env : Env) (db : DB) (remoteName : String) :
    Except ExcE (Option (List (String × String))) × List Event :=
  let normalizedName := pyStrip remoteName
  if normalizedName = "" then (.ok none, [])
  else
    let stored := db.remotes.find? (fun r => r.name == normalizedName)
    let dbHit : Option (List (String × String)) :=
      match stored with
      | some row =>
          if pyStrip (row.config.getD "") ≠ "" then
            match env.parseJson (row.config.getD "") with
            | some (.obj fields) =>
                if (jGet fields "type").elim false jTruthy then some (configOfFields fields)
                else none
            | _ => none
          else none
      | none => none
    match dbHit with
    | some config => (.ok (some config), [])
    | none =>
        let ev := [Event.rclone ["config", "dump"]]
        match env.run ["config", "dump"] with
        | .missing => (.error .runtime, ev)
        | .err a b =>
            let d := errDetail a b
            (.error (.op (if d ≠ "" then d else "No se pudo leer la configuración de rclone.") 500), ev)
        | .ok out =>
            let rawOutput := pyStrip out
            match env.parseJson (if rawOutput = "" then "\x7b\x7d" else rawOutput) with
            | none => (.error (.op "No se pudo interpretar la configuración de rclone." 500), ev)
            | some (.obj fields) =>
                match jGet fields normalizedName with
                | none => (.ok none, ev)
                | some .null => (.ok none, ev)
                | some (.obj entryFields) => (.ok (some (configOfFields entryFields)), ev)
                | some _ =>
                    (.error (.op "La configuración del remote tiene un formato desconocido." 500), ev)
            | some _ => (.error .uncaught, ev)

/-- `_apply_remote_configuration` (lines 749-767). -/
def applyRemoteConfiguration (env : Env) (remoteName : String)
    (config : List (String × String)) : Except ExcE Unit × List Event :=
  let remoteType := pyStrip (((config.find? (fun kv => kv.1 == "type")).map (fun kv => kv.2)).getD "")
  if remoteType = "" then
    (.error (.op "No se pudo determinar el tipo del remote en la copia de seguridad." 500), [])
  else
    let args := ["config", "create", "--non-interactive", remoteName, remoteType] ++
      (config.filter (fun kv => ¬(kv.1 = "type" ∨ kv.1 = "name"))).foldr
        (fun kv acc => kv.1 :: kv.2 :: acc) []
    match env.run args with
    | .ok _ => (.ok (), [Event.rclone args])
    | .err a b => (.error (.cpe a b), [Event.rclone args])
    | .missing => (.error .runtime, [Event.rclone args])

/-- `_clone_remote_configuration` (lines 769-780). -/
def cloneRemoteConfiguration (env : Env) (db : DB) (sourceName targetName : String)
    (errorMessage : Option String) : Except ExcE Unit × List Event :=
  match loadRemoteConfiguration env db sourceName with
  | (.error e, evs) => (.error e, evs)
  | (.ok none, evs) =>
      (.error (.op (errorMessage.getD "No se pudo replicar la configuración del remote.") 400), evs)
  | (.ok (some config), evs) =>
      let (r, evs2) := applyRemoteConfiguration env targetName config
      (r, evs ++ evs2)

/-- `_restore_remote_backup` (lines 656-679).  `if not backup_config`
covers both `None` and the empty map; a `CalledProcessError` of the
intermediate delete is ignored; the only exception that can escape is the
`AttributeError` surfaced by `_load_remote_configuration` as
`.error .uncaught`. -/
def restoreRemoteBackup (env : Env) (db : DB) (remoteName backupName : String) :
    Except ExcE Bool × List Event :=
  match loadRemoteConfiguration env db backupName with
  | (.error .uncaught, evs) => (.error .uncaught, evs)
  | (.error _, evs) => (.ok false, evs)
  | (.ok backupConfig, evs) =>
      match backupConfig with
      | none => (.ok false, evs)
      | some cfg =>
          if cfg = [] then (.ok false, evs)
          else
            let delEv := Event.rclone ["config", "delete", remoteName]
            match env.run ["config", "delete", remoteName] with
            | .missing => (.ok false, evs ++ [delEv])
            | _ =>
                match applyRemoteConfiguration env remoteName cfg with
                | (.ok _, evs2) => (.ok true, evs ++ [delEv] ++ evs2)
                | (.error _, evs2) => (.ok false, evs ++ [delEv] ++ evs2)

/-- `_format_local_error` (lines 131-144). -/
def formatLocalError (action path : String) (exc : OsErr) : String :=
  let base := "No se pudo " ++ action ++ " la carpeta \"" ++ path ++ "\"."
  match exc with
  | .fileExists => base ++ " Ya existe un archivo o carpeta con ese nombre."
  | .fileNotFound => base ++ " No se encontró la ruta especificada."
  | .permission => base ++ " El sistema denegó el acceso. Verificá los permisos en el servidor."
  | .other detail =>
      let d := pyStrip detail
      if d ≠ "" then base ++ " " ++ d else base ++ " Revisá los permisos en el servidor."

/-- `_get_local_directory_roots` (lines 146-156); the `set` is a list
used only for membership. -/
def getLocalDirectoryRoots (env : Env) : List String :=
  (parseLocalDirectoryConfig env.localDirsRaw).filterMap (fun entry =>
    match ensureAbsolutePath env.pathEnv (some entry.path) with
    | none => none
    | some candidate =>
        let normalized := normalizeFilesystemPath env.pathEnv (some candidate)
        if normalized = "" then none else some normalized)

/-- The per-entry loop of `_rollback_local_changes` (lines 171-178). -/
def rollbackMoveLoop (env : Env) (targetPath sourcePath : String) :
    List String → List String × List Event
  | [] => ([], [])
  | entry :: rest =>
      let src := pjoin targetPath entry
      let dst := pjoin sourcePath entry
      let cur : List String := match env.moveX src dst with
        | none => []
        | some e => [formatLocalError "restaurar" dst e]
      let (errs, evs) := rollbackMoveLoop env targetPath sourcePath rest
      (cur ++ errs, Event.move src dst :: evs)

/-- `_rollback_local_changes` (lines 158-190). -/
def rollbackLocalChanges (env : Env) (moveMode : Option String)
    (targetPath sourcePath : Option String) (movedEntries : List String)
    (createdPath : Option String) : List String × List Event :=
  let tp := targetPath.getD ""
  let sp := sourcePath.getD ""
  let step1 : List String × List Event × Option String :=
    if moveMode = some "rename" ∧ tp ≠ "" ∧ sp ≠ "" then
      match env.moveX tp sp with
      | none => ([], [Event.move tp sp], createdPath)
      | some e => ([formatLocalError "restaurar" sp e], [Event.move tp sp], createdPath)
    else if moveMode = some "move_contents" ∧ tp ≠ "" ∧ sp ≠ "" then
      let (errs, evs) := rollbackMoveLoop env tp sp movedEntries
      match createdPath with
      | some cp =>
          (match env.rmtreeX cp with
           | none => (errs, evs ++ [Event.rmtree cp], none)
           | some e => (errs ++ [formatLocalError "eliminar" cp e], evs ++ [Event.rmtree cp], none))
      | none => (errs, evs, none)
    else ([], [], createdPath)
  match step1 with
  | (errs1, evs1, created2) =>
      match created2 with
      | some cp =>
          if moveMode ≠ some "move_contents" then
            match env.rmtreeX cp with
            | none => (errs1, evs1 ++ [Event.rmtree cp])
            | some e => (errs1 ++ [formatLocalError "eliminar" cp e], evs1 ++ [Event.rmtree cp])
          else (errs1, evs1)
      | none => (errs1, evs1)

/-- Python `a or b or ...` over optional strings: the first truthy
(present and non-empty) value. -/
def firstTruthy : List (Option String) → Option String
  | [] => none
  | x :: rest => if x.getD "" ≠ "" then x else firstTruthy rest

/-- Minimal `json.dumps` string escaping (quotes and backslashes). -/
def jsonEscape (s : String) : String :=
  ⟨s.data.foldr (fun c acc => if c = '"' ∨ c = '\\' then '\\' :: c :: acc else c :: acc) []⟩

/-- `json.dumps` of a string-to-string map (`ensure_ascii=False`). -/
def jsonDumpsStr (m : List (String × String)) : String :=
  "\x7b" ++ String.intercalate ", "
      (m.map (fun kv => "\"" ++ jsonEscape kv.1 ++ "\": \"" ++ jsonEscape kv.2 ++ "\"")) ++
    "\x7d"

/-- `_translate_sftp_error` (lines 355-371). -/
def translateSftpError (message : String) : String :=
  let text := pyStrip message
  if text = "" then "No se pudo completar la operación con el servidor SFTP."
  else
    let lowered := pyLower text
    if strHasSub "permission denied" lowered then
      "El usuario SFTP no tiene permisos suficientes en esa carpeta. Probá con otra ubicación o ajustá los permisos en el servidor."
    else if strHasSub "authentication" lowered ∨ strHasSub "access denied" lowered ∨
        strHasSub "auth failed" lowered then
      "No se pudo autenticar en el servidor SFTP. Verificá el usuario y la contraseña."
    else if strHasSub "no such host" lowered ∨ strHasSub "name or service not known" lowered ∨
        strHasSub "could not resolve" lowered then
      "No se pudo resolver el host del servidor SFTP. Revisá la dirección ingresada."
    else if strHasSub "connection refused" lowered ∨ strHasSub "connection timed out" lowered ∨
        strHasSub "network is unreachable" lowered then
      "No fue posible conectarse al servidor SFTP. Asegurate de que esté en línea y accesible."
    else text

/-- `_parent_sftp_path` (lines 346-353). -/
def parentSftpPath (path : Option String) : String :=
  let normalized := normalizeSftpBasePath path
  if normalized = "/" then "/"
  else
    let parent := dirnameP normalized
    if parent = "" then "/" else parent

/-- The settings map of a local-directory request (`settings.get("path")`;
a non-string value stringifies and is then quote-stripped, so it is
carried as the resulting string). -/
structure LocalSettings where
  path : Option String
  deriving DecidableEq, Repr

/-- The validation prefix of the `local` branch of `_build_remote_plan`
(lines 459-507): configured-directory checks, name checks, target
resolution and common-path containment.  Returns the resolved base and
target paths. -/
def localBaseAndTarget (env : Env) (name : String) (settings : LocalSettings) :
    Except RemoteErr (String × String) :=
  let directoryEntries := parseLocalDirectoryConfig env.localDirsRaw
  if directoryEntries.isEmpty then
    .error ⟨"no local directories configured", 500⟩
  else
    let path := stripEnclosingQuotes settings.path
    if path = "" then
      .error ⟨"Seleccioná la carpeta local donde guardar los respaldos.", 400⟩
    else
      let availablePaths := directoryEntries.map (fun e => stripEnclosingQuotes (some e.path))
      if path ∉ availablePaths then .error ⟨"invalid path", 400⟩
      else
        match ensureAbsolutePath env.pathEnv (some path) with
        | none =>
            .error ⟨"La carpeta seleccionada no existe o no es accesible desde el servidor.", 400⟩
        | some basePath =>
            if ¬ env.isdirX basePath then
              .error ⟨"La carpeta seleccionada no existe o no es accesible desde el servidor.", 400⟩
            else
              let safeName := pyStrip name
              if safeName = "" then
                .error ⟨"El nombre del remote no es válido para crear la carpeta local.", 400⟩
              else if strHasChar '/' safeName then
                .error ⟨"El nombre del remote no puede contener separadores de carpeta.", 400⟩
              else if safeName = "." ∨ safeName = ".." then
                .error ⟨"Elegí otro nombre para la carpeta del remote.", 400⟩
              else
                let targetPath := abspath env.pathEnv.cwd (pjoin basePath safeName)
                match commonpath2 basePath targetPath with
                | none =>
                    .error ⟨"El nombre del remote genera una ruta inválida dentro de la carpeta seleccionada.", 400⟩
                | some commonRoot =>
                    if commonRoot ≠ basePath then
                      .error ⟨"El nombre del remote genera una ruta inválida dentro de la carpeta seleccionada.", 400⟩
                    else .ok (basePath, targetPath)

/-- The `existing_path` / `move_mode` selection of the local branch
(lines 510-523). -/
def localExistingAndMode (pe : PathEnv) (currentRemoteType currentRemoteRoute : Option String)
    (normalizedTarget normalizedBase : String) : Option String × Option String :=
  if pyLower (pyStrip (currentRemoteType.getD "")) = "local" ∧
      currentRemoteRoute.getD "" ≠ "" then
    match ensureAbsolutePath pe (some (currentRemoteRoute.getD "")) with
    | some candidateExisting =>
        let normalizedExisting := normalizeFilesystemPath pe (some candidateExisting)
        if normalizedExisting = normalizedTarget then (some candidateExisting, none)
        else if normalizedExisting = normalizedBase then
          (some candidateExisting, some "move_contents")
        else (some candidateExisting, some "rename")
    | none => (none, none)
  else (none, none)

/-- The `local` branch of `_build_remote_plan` (lines 459-538, with the
shared `base_args` of line 381 and the final `plan.command` guard of
lines 596-597 subsumed because the branch always sets a command). -/
def buildRemotePlanLocal (env : Env) (name : String) (settings : LocalSettings)
    (currentRemoteType currentRemoteRoute : Option String) :
    Except RemoteErr RemotePlan :=
  match localBaseAndTarget env name settings with
  | .error e => .error e
  | .ok (basePath, targetPath) =>
      let normalizedTarget := normalizeFilesystemPath env.pathEnv (some targetPath)
      let normalizedBase := normalizeFilesystemPath env.pathEnv (some basePath)
      let st := localExistingAndMode env.pathEnv currentRemoteType currentRemoteRoute
        normalizedTarget normalizedBase
      if env.existsX targetPath ∧
          (match st.1 with
            | some e => normalizeFilesystemPath env.pathEnv (some e)
            | none => "") ≠ normalizedTarget then
        .error ⟨"Ya existe una carpeta con ese nombre en la ruta seleccionada. Elegí otro nombre.", 400⟩
      else
        .ok { command := ["config", "create", "--non-interactive", name] ++ ["alias", "remote", targetPath]
              shareUrl := some targetPath
              localTargetPath := some targetPath
              localSourcePath := st.1
              localBasePath := some basePath
              localMoveMode := st.2
              configSnapshot := some [("type", "alias"), ("remote", targetPath)] }

/-! ### The create route -/

/-- `POST /rclone/remotes` request payload. -/
structure CreatePayload where
  name : Option String
  rtype : Option String
  settings : LocalSettings
  deriving DecidableEq, Repr

/-- A plan builder as the routes see `_build_remote_plan`: from the
requested name, type, settings and update context to a plan or an error,
plus the probe commands the builder itself may issue (Drive listing,
secret obscuring).  Only the local-directory settings shape is carried;
the local branch is `buildRemotePlanLocal`. -/
def BuilderFn : Type :=
  String → String → LocalSettings → Option String → Option String →
    Except RemoteErr RemotePlan × List Event

/-- The local branch wrapped as a `BuilderFn` (it issues no commands). -/
def localBuilder (env : Env) : BuilderFn :=
  fun name rtype settings ct cr =>
    if rtype = "local" then (buildRemotePlanLocal env name settings ct cr, [])
    else (.error ⟨"unsupported remote type", 400⟩, [])

/-- `create_rclone_remote` (lines 1252-1346, `POST /rclone/remotes`).
Returns the response, the resulting store, and the event trace.
`plan.share_url` is read after `_execute_remote_plan` has reassigned it
to its return value, so the returned `shareUrl` is used in its place in
the `route_value` chain. -/
def createRcloneRemote (env : Env) (builder : BuilderFn) (db : DB)
    (payload : CreatePayload) : Resp × DB × List Event :=
  let name := normalizeRemoteName payload.name
  let remoteType := pyLower (pyStrip (payload.rtype.getD ""))
  if name = "" ∨ remoteType = "" then (errResp "invalid payload" 400, db, [])
  else if ¬(remoteType = "drive" ∨ remoteType = "onedrive" ∨ remoteType = "sftp" ∨
      remoteType = "local") then
    (errResp "unsupported remote type" 400, db, [])
  else
    match fetchConfiguredRemotes env with
    | (.error .runtime, evs) => (errResp "rclone is not installed" 500, db, evs)
    | (.error _, evs) => (uncaughtResp, db, evs)
    | (.ok configured, evs0) =>
        if name ∈ configured then
          (errResp "Ya existe un remote con ese nombre." 400, db, evs0)
        else if (db.remotes.find? (fun r => r.name == name)).isSome then
          (errResp "Ya existe un remote con ese nombre." 400, db, evs0)
        else
          match builder name remoteType payload.settings none none with
          | (.error e, evsB) => (errResp e.message e.status, db, evs0 ++ evsB)
          | (.ok plan, evsB) =>
              let evs1 := evs0 ++ evsB
              let mkRes : Option (Option OsErr × String) :=
                match plan.localTargetPath with
                | some t =>
                    if t ≠ "" ∧ plan.localSourcePath.getD "" = "" then
                      some (env.makedirsX t, t)
                    else none
                | none => none
              match mkRes with
              | some (some e, t) =>
                  (errResp (formatLocalError "crear" t e) 400, db, evs1 ++ [Event.makedirs t])
              | _ =>
                  let mkEvs : List Event := match mkRes with
                    | some (none, t) => [Event.makedirs t]
                    | _ => []
                  let localCreated : Option String := match mkRes with
                    | some (none, t) => some t
                    | _ => none
                  let rmEvs : List Event := match localCreated with
                    | some t => [Event.rmtree t]
                    | none => []
                  match executeRemotePlan env name plan with
                  | (.error (.op m st), evsE) =>
                      (errResp m st, db, evs1 ++ mkEvs ++ evsE ++ rmEvs)
                  | (.error .runtime, evsE) =>
                      (errResp "rclone is not installed" 500, db, evs1 ++ mkEvs ++ evsE ++ rmEvs)
                  | (.error _, evsE) => (uncaughtResp, db, evs1 ++ mkEvs ++ evsE)
                  | (.ok shareUrl, evsE) =>
                      let snapshot := plan.configSnapshot.getD []
                      let typeVal :=
                        (((snapshot.find? (fun kv => kv.1 == "type")).map (fun kv => kv.2)).getD "")
                      if snapshot.isEmpty ∨ typeVal = "" then
                        (errResp "No se pudo guardar la configuración del remote." 500, db,
                          evs1 ++ mkEvs ++ evsE ++ deleteRemoteSafely name ++ rmEvs)
                      else
                        let configPayload := jsonDumpsStr snapshot
                        let routeValue := firstTruthy
                          [plan.driveRemotePath, plan.localTargetPath, plan.shareUrl, shareUrl]
                        let newRow : RemoteRow :=
                          ⟨db.nextId, name, some remoteType, routeValue,
                            (if shareUrl.getD "" ≠ "" then shareUrl else none),
                            some configPayload⟩
                        let db2 : DB := ⟨db.remotes ++ [newRow], db.apps, db.nextId + 1⟩
                        let body := [("status", "ok"), ("name", name), ("id", toString db.nextId)] ++
                          (match routeValue with
                            | some r => [("route", r)]
                            | none => []) ++
                          (if shareUrl.getD "" ≠ "" then [("share_url", shareUrl.getD "")] else [])
                        (⟨body, 201⟩, db2, evs1 ++ mkEvs ++ evsE)

/-! ### The update route -/

/-- The persistence transaction of `update_rclone_remote` (lines
1690-1718): rewrite the descriptor row (deleting a stale row under the
target name first), and, when the name changed, cascade the normalized
remote reference to every matching app row — all inside one commit. -/
def updatePersist (db : DB) (normalizedName targetName remoteType : String)
    (routeValue shareUrl configPayload : Option String) : DB :=
  let existing := db.remotes.find? (fun r => r.name == normalizedName)
  let conflict := if targetName ≠ normalizedName then
      db.remotes.find? (fun r => r.name == targetName)
    else none
  let remotes1 := match conflict, existing with
    | some c, some e =>
        if c.rowId ≠ e.rowId then db.remotes.filter (fun r => r.rowId ≠ c.rowId) else db.remotes
    | some c, none => db.remotes.filter (fun r => r.rowId ≠ c.rowId)
    | none, _ => db.remotes
  let remotes2 := match existing with
    | some e => remotes1.map (fun r =>
        if r.rowId = e.rowId then
          { r with name := targetName, rtype := some remoteType, route := routeValue, shareUrl := shareUrl, config := configPayload }
        else r)
    | none => remotes1 ++
        [⟨db.nextId, targetName, some remoteType,
          (if routeValue.getD "" ≠ "" then routeValue else none),
          (if shareUrl.getD "" ≠ "" then shareUrl else none), configPayload⟩]
  let nextId2 := match existing with
    | some _ => db.nextId
    | none => db.nextId + 1
  let apps2 := if targetName ≠ normalizedName then
      db.apps.map (fun a =>
        if a.rcloneRemote = some (normalizeRemote normalizedName) then
          { a with rcloneRemote := some (normalizeRemote targetName) }
        else a)
    else db.apps
  ⟨remotes2, apps2, nextId2⟩

/-- State tracked across the physical-move phase of the update (lines
1410-1413). -/
structure LocalMoveState where
  createdLocalPath : Option String := none
  renamedSourcePath : Option String := none
  moveContentsSource : Option String := none
  movedEntries : List String := []
  deriving DecidableEq, Repr

/-- The `shutil.move` loop of the merge case (lines 1464-1482), tracking
entries that actually moved; on failure, the failing target entry and its
error. -/
def moveEntriesLoop (env : Env) (sourcePath targetPath : String) :
    List String → List String × List Event × Option (String × OsErr)
  | [] => ([], [], none)
  | entry :: rest =>
      let sourceEntry := pjoin sourcePath entry
      let targetEntry := pjoin targetPath entry
      match env.moveX sourceEntry targetEntry with
      | some e => ([], [Event.move sourceEntry targetEntry], some (targetEntry, e))
      | none =>
          match moveEntriesLoop env sourcePath targetPath rest with
          | (moved, evs, fail) =>
              (entry :: moved, Event.move sourceEntry targetEntry :: evs, fail)

/-- Python `f"{m} {' '.join(errs)}"` when the error list is non-empty. -/
def appendRevertErrors (message : String) (errs : List String) : String :=
  if errs.isEmpty then message else message ++ " " ++ String.intercalate " " errs

/-- The local physical-move phase of the update (lines 1450-1501).
`os.listdir` (line 1464) is modelled as the total oracle `Env.listdirX`:
the `OSError` it can raise in Python is an uncaught exit path of the
update that this model does not represent. -/
def updateLocalMovePhase (env : Env) (backupName : String)
    (localTargetPath localSourcePath : Option String) (moveMode : Option String) :
    Except (Resp × List Event) (LocalMoveState × List Event) :=
  match localTargetPath with
  | none => .ok ({}, [])
  | some t =>
      if t = "" then .ok ({}, [])
      else if moveMode = some "move_contents" then
        let s := localSourcePath.getD ""
        if s = "" ∨ ¬ env.isdirX s then
          .error (errResp "No encontramos la carpeta actual del remote en el servidor. Verificá que siga existiendo." 400,
            deleteRemoteSafely backupName)
        else
          match env.makedirsX t with
          | some e =>
              .error (errResp (formatLocalError "crear" t e) 400,
                Event.makedirs t :: deleteRemoteSafely backupName)
          | none =>
              match moveEntriesLoop env s t (env.listdirX s) with
              | (moved, evs, some (targetEntry, e)) =>
                  match rollbackLocalChanges env (some "move_contents") (some t) (some s)
                      moved (some t) with
                  | (revertErrors, revertEvs) =>
                      .error (errResp (appendRevertErrors (formatLocalError "mover" targetEntry e)
                          revertErrors) 400,
                        Event.makedirs t :: evs ++ revertEvs ++ deleteRemoteSafely backupName)
              | (moved, evs, none) =>
                  .ok ({ createdLocalPath := some t, moveContentsSource := some s, movedEntries := moved }, Event.makedirs t :: evs)
      else if moveMode = some "rename" then
        let s := localSourcePath.getD ""
        if s = "" ∨ ¬ env.existsX s then
          .error (errResp "No se encontró la carpeta actual del remote. Verificá que siga existiendo." 400,
            deleteRemoteSafely backupName)
        else
          match env.moveX s t with
          | some e =>
              .error (errResp (formatLocalError "mover" t e) 400,
                Event.move s t :: deleteRemoteSafely backupName)
          | none => .ok ({ renamedSourcePath := some s }, [Event.move s t])
      else if localSourcePath.getD "" = "" then
        match env.makedirsX t with
        | some e =>
            .error (errResp (formatLocalError "crear" t e) 400,
              Event.makedirs t :: deleteRemoteSafely backupName)
        | none => .ok ({ createdLocalPath := some t }, [Event.makedirs t])
      else .ok ({}, [])

/-- The source argument `_rollback_local_changes` receives in the update
error handlers (`move_contents_source if move_mode == "move_contents"
else renamed_source_path`). -/
def rollbackSourceArg (moveMode : Option String) (lms : LocalMoveState) : Option String :=
  if moveMode = some "move_contents" then lms.moveContentsSource else lms.renamedSourcePath

/-- The Drive rename phase of the update (lines 1503-1563).  On success:
the plan with the target `mkdir` pre-command filtered out, the
`drive_renamed` flag, and the updated current path. -/
def updateDrivePhase (env : Env) (backupName : String) (remoteType : String)
    (plan : RemotePlan) (driveTargetPath driveCurrentPath0 : String)
    (moveMode : Option String) (localTargetPath : Option String)
    (lms : LocalMoveState) :
    Except (Resp × List Event) (RemotePlan × Bool × String × List Event) :=
  if remoteType = "drive" ∧ plan.driveMode = some "shared" then
    if driveTargetPath = "" then
      match rollbackLocalChanges env moveMode localTargetPath
          (rollbackSourceArg moveMode lms) lms.movedEntries lms.createdLocalPath with
      | (revertErrors, revertEvs) =>
          .error (errResp (appendRevertErrors
              "No se pudo determinar la carpeta destino en Google Drive para actualizar el remote."
              revertErrors) 400,
            revertEvs ++ deleteRemoteSafely backupName)
    else if driveCurrentPath0 = "" then
      match rollbackLocalChanges env moveMode localTargetPath
          (rollbackSourceArg moveMode lms) lms.movedEntries lms.createdLocalPath with
      | (revertErrors, revertEvs) =>
          .error (errResp (appendRevertErrors
              "No se encontró la carpeta actual del remote en Google Drive. Verificá que siga existiendo antes de cambiar el nombre."
              revertErrors) 400,
            revertEvs ++ deleteRemoteSafely backupName)
    else
      let normalizedTarget := normalizeDrivePath env (some driveTargetPath)
      let normalizedCurrent := normalizeDrivePath env (some driveCurrentPath0)
      if normalizedTarget ≠ "" ∧ normalizedCurrent ≠ "" ∧ normalizedTarget ≠ normalizedCurrent then
        let plan2 := { plan with preCommands := plan.preCommands.filter (fun cmd =>
          ¬(2 ≤ cmd.length ∧ cmd.head? = some "mkdir" ∧
            normalizeDrivePath env (some (cmd.getD 1 "")) = normalizedTarget)) }
        match moveDrivePath env normalizedCurrent normalizedTarget with
        | (.error (.op m _), evsM) =>
            match rollbackLocalChanges env moveMode localTargetPath
                (rollbackSourceArg moveMode lms) lms.movedEntries lms.createdLocalPath with
            | (revertErrors, revertEvs) =>
                .error (errResp (appendRevertErrors m revertErrors) 400,
                  evsM ++ revertEvs ++ deleteRemoteSafely backupName)
        | (.error _, evsM) =>
            match rollbackLocalChanges env moveMode localTargetPath
                (rollbackSourceArg moveMode lms) lms.movedEntries lms.createdLocalPath with
            | (revertErrors, revertEvs) =>
                .error (errResp (appendRevertErrors "rclone is not installed" revertErrors) 500,
                  evsM ++ revertEvs ++ deleteRemoteSafely backupName)
        | (.ok _, evsM) => .ok (plan2, true, normalizedTarget, evsM)
      else .ok (plan, false, driveCurrentPath0, [])
  else .ok (plan, false, driveCurrentPath0, [])

/-- Deletion of the old external entry during the update (lines
1565-1612): on `RuntimeError` or `CalledProcessError`, local rollback,
backup delete, and — when the Drive folder had been renamed — a
best-effort move back whose failure detail joins the message. -/
def updateDeleteOldPhase (env : Env) (backupName normalizedName : String)
    (moveMode : Option String) (localTargetPath : Option String) (lms : LocalMoveState)
    (driveRenamed : Bool) (driveCurrentPath : String)
    (driveOriginalPathForRollback : Option String) :
    Except (Resp × List Event) (List Event) :=
  let ev := [Event.rclone ["config", "delete", normalizedName]]
  match env.run ["config", "delete", normalizedName] with
  | .ok _ => .ok ev
  | .missing =>
      match rollbackLocalChanges env moveMode localTargetPath
          (rollbackSourceArg moveMode lms) lms.movedEntries lms.createdLocalPath with
      | (revertErrors, revertEvs) =>
          let delEvs := deleteRemoteSafely backupName
          match (if driveRenamed ∧ driveCurrentPath ≠ "" ∧
              driveOriginalPathForRollback.getD "" ≠ "" then
              some (restoreDrivePath env driveCurrentPath (driveOriginalPathForRollback.getD ""))
            else none) with
          | some (.error _, evsR) => .error (uncaughtResp, ev ++ revertEvs ++ delEvs ++ evsR)
          | some (.ok restoreError, evsR) =>
              let message := match restoreError with
                | some re => pyStrip ("rclone is not installed" ++ " " ++ re)
                | none => "rclone is not installed"
              .error (errResp (appendRevertErrors message revertErrors) 500,
                ev ++ revertEvs ++ delEvs ++ evsR)
          | none =>
              .error (errResp (appendRevertErrors "rclone is not installed" revertErrors) 500,
                ev ++ revertEvs ++ delEvs)
  | .err a b =>
      match rollbackLocalChanges env moveMode localTargetPath
          (rollbackSourceArg moveMode lms) lms.movedEntries lms.createdLocalPath with
      | (revertErrors, revertEvs) =>
          let delEvs := deleteRemoteSafely backupName
          let base := let d := errDetail a b
            if d ≠ "" then d else "No se pudo reemplazar el remote."
          match (if driveRenamed ∧ driveCurrentPath ≠ "" ∧
              driveOriginalPathForRollback.getD "" ≠ "" then
              some (restoreDrivePath env driveCurrentPath (driveOriginalPathForRollback.getD ""))
            else none) with
          | some (.error _, evsR) => .error (uncaughtResp, ev ++ revertEvs ++ delEvs ++ evsR)
          | some (.ok restoreError, evsR) =>
              let message := match restoreError with
                | some re => pyStrip (base ++ " " ++ re)
                | none => base
              .error (errResp (appendRevertErrors message revertErrors) 400,
                ev ++ revertEvs ++ delEvs ++ evsR)
          | none =>
              .error (errResp (appendRevertErrors base revertErrors) 400,
                ev ++ revertEvs ++ delEvs)

/-- The failure recovery shared by the plan-execution handlers of the
update (lines 1625-1678): local rollback, Drive restore when renamed,
configuration restore from the backup, backup delete, message assembly;
500 when the configuration restore failed. -/
def updateFailureRecovery (env : Env) (db : DB) (normalizedName backupName : String)
    (moveMode : Option String) (localTargetPath : Option String) (lms : LocalMoveState)
    (driveRenamed : Bool) (driveCurrentPath : String)
    (driveOriginalPathForRollback : Option String)
    (baseMessage : String) (status : Nat) (notRestoredMsg : String) :
    Resp × List Event :=
  match rollbackLocalChanges env moveMode localTargetPath
      (rollbackSourceArg moveMode lms) lms.movedEntries lms.createdLocalPath with
  | (revertErrors, revertEvs) =>
      match (if driveRenamed ∧ driveCurrentPath ≠ "" ∧
          driveOriginalPathForRollback.getD "" ≠ "" then
          some (restoreDrivePath env driveCurrentPath (driveOriginalPathForRollback.getD ""))
        else none) with
      | some (.error _, evsR) => (uncaughtResp, revertEvs ++ evsR)
      | driveRes =>
          let driveRestoreError : Option String := match driveRes with
            | some (.ok e, _) => e
            | _ => none
          let evsR : List Event := match driveRes with
            | some (_, evs) => evs
            | none => []
          match restoreRemoteBackup env db normalizedName backupName with
          | (.error _, evsB) => (uncaughtResp, revertEvs ++ evsR ++ evsB)
          | (.ok restored, evsB) =>
              let delEvs := deleteRemoteSafely backupName
              let message := match driveRestoreError with
                | some re => pyStrip (baseMessage ++ " " ++ re)
                | none => baseMessage
              let message := appendRevertErrors message revertErrors
              if restored then
                (errResp message status, revertEvs ++ evsR ++ evsB ++ delEvs)
              else
                (errResp (message ++ notRestoredMsg) 500, revertEvs ++ evsR ++ evsB ++ delEvs)

/-- Plan execution and the success path of the update (lines 1614-1725). -/
def updateExecutePhase (env : Env) (db : DB)
    (normalizedName targetName remoteType backupName : String)
    (plan2 : RemotePlan) (moveMode : Option String) (localTargetPath : Option String)
    (lms : LocalMoveState) (driveRenamed : Bool) (driveCurrentPath : String)
    (driveOriginalPathForRollback : Option String) (evsPre : List Event) :
    Resp × DB × List Event :=
  match executeRemotePlan env targetName plan2 with
  | (.error (.op m st), evsE) =>
      match updateFailureRecovery env db normalizedName backupName moveMode localTargetPath
          lms driveRenamed driveCurrentPath driveOriginalPathForRollback m st
          " No se pudo restaurar la configuración original." with
      | (r, evs) => (r, db, evsPre ++ evsE ++ evs)
  | (.error .runtime, evsE) =>
      match updateFailureRecovery env db normalizedName backupName moveMode localTargetPath
          lms driveRenamed driveCurrentPath driveOriginalPathForRollback
          "rclone is not installed" 500
          ". No se pudo restaurar la configuración original." with
      | (r, evs) => (r, db, evsPre ++ evsE ++ evs)
  | (.error _, evsE) => (uncaughtResp, db, evsPre ++ evsE)
  | (.ok shareUrl, evsE) =>
      let snapshot := plan2.configSnapshot.getD []
      let typeVal := (((snapshot.find? (fun kv => kv.1 == "type")).map (fun kv => kv.2)).getD "")
      if snapshot.isEmpty ∨ typeVal = "" then
        match updateFailureRecovery env db normalizedName backupName moveMode localTargetPath
            lms driveRenamed driveCurrentPath driveOriginalPathForRollback
            "No se pudo guardar la configuración del remote." 500
            " No se pudo restaurar la configuración original." with
        | (r, evs) => (r, db, evsPre ++ evsE ++ evs)
      else
        let configPayload := jsonDumpsStr snapshot
        let delEvs := deleteRemoteSafely backupName
        let routeValue := firstTruthy
          [plan2.driveRemotePath, plan2.localTargetPath, plan2.shareUrl, shareUrl]
        let db2 := updatePersist db normalizedName targetName remoteType routeValue shareUrl
          (some configPayload)
        let body := [("status", "ok"), ("name", targetName)] ++
          (match routeValue with
            | some r => [("route", r)]
            | none => []) ++
          (if shareUrl.getD "" ≠ "" then [("share_url", shareUrl.getD "")] else [])
        (⟨body, 200⟩, db2, evsPre ++ evsE ++ delEvs)

/-- `update_rclone_remote` from the containment checks through the final
commit (lines 1400-1725), given the already-built plan.  The route
prelude (payload validation, existence and conflict checks, plan
building, lines 1348-1398) issues no mutations beyond `listremotes`. -/
def updateCore (env : Env) (db : DB) (normalizedName targetName remoteType : String)
    (storedRoute : Option String) (plan : RemotePlan) : Resp × DB × List Event :=
  let driveCurrentPath0 := normalizeDrivePath env storedRoute
  let driveTargetPath := normalizeDrivePath env plan.driveRemotePath
  let driveOriginalPathForRollback :=
    if driveCurrentPath0 ≠ "" then some driveCurrentPath0 else none
  let allowedRoots := getLocalDirectoryRoots env
  let localTargetPath := plan.localTargetPath
  let localSourcePath := plan.localSourcePath
  let moveMode := plan.localMoveMode
  let containmentError : Option Resp :=
    match localTargetPath with
    | none => none
    | some t =>
        if t = "" then none
        else
          let targetParent := normalizeFilesystemPath env.pathEnv
            (some (let d := dirnameP (pyRstrip '/' t); if d = "" then "/" else d))
          if targetParent ≠ "" ∧ targetParent ∉ allowedRoots then
            some (errResp "La carpeta seleccionada no forma parte de las rutas permitidas." 400)
          else if moveMode = some "rename" ∧ localSourcePath.getD "" ≠ "" then
            let s := localSourcePath.getD ""
            let sourceParent := normalizeFilesystemPath env.pathEnv
              (some (let d := dirnameP (pyRstrip '/' s); if d = "" then "/" else d))
            if sourceParent ≠ "" ∧ sourceParent ∉ allowedRoots then
              some (errResp "La carpeta actual del remote no forma parte de las rutas permitidas." 400)
            else none
          else if moveMode = some "move_contents" ∧ localSourcePath.getD "" ≠ "" then
            let sourceBase := normalizeFilesystemPath env.pathEnv localSourcePath
            if sourceBase ≠ "" ∧ sourceBase ∉ allowedRoots then
              some (errResp "La carpeta actual del remote no forma parte de las rutas permitidas." 400)
            else none
          else none
  match containmentError with
  | some r => (r, db, [])
  | none =>
      let backupName := "__backup__" ++ env.freshA
      match cloneRemoteConfiguration env db normalizedName backupName
          (some "No se pudo preparar la edición del remote.") with
      | (.error .runtime, evsC) => (errResp "rclone is not installed" 500, db, evsC)
      | (.error (.op m st), evsC) =>
          (errResp m st, db, evsC ++ deleteRemoteSafely backupName)
      | (.error (.cpe a b), evsC) =>
          let d := errDetail a b
          (errResp (if d ≠ "" then d else "No se pudo preparar la edición del remote.") 400,
            db, evsC ++ deleteRemoteSafely backupName)
      | (.error .uncaught, evsC) => (uncaughtResp, db, evsC)
      | (.ok _, evsC) =>
          match updateLocalMovePhase env backupName localTargetPath localSourcePath moveMode with
          | .error (r, evs) => (r, db, evsC ++ evs)
          | .ok (lms, evsL) =>
              match updateDrivePhase env backupName remoteType plan driveTargetPath
                  driveCurrentPath0 moveMode localTargetPath lms with
              | .error (r, evs) => (r, db, evsC ++ evsL ++ evs)
              | .ok (plan2, driveRenamed, driveCurrentPath, evsD) =>
                  match updateDeleteOldPhase env backupName normalizedName moveMode
                      localTargetPath lms driveRenamed driveCurrentPath
                      driveOriginalPathForRollback with
                  | .error (r, evs) => (r, db, evsC ++ evsL ++ evsD ++ evs)
                  | .ok evsX =>
                      updateExecutePhase env db normalizedName targetName remoteType backupName
                        plan2 moveMode localTargetPath lms driveRenamed driveCurrentPath
                        driveOriginalPathForRollback (evsC ++ evsL ++ evsD ++ evsX)

/-! ### The delete route -/

/-- The final stage of `delete_rclone_remote` (lines 1868-1905): local
directory removal with restore-on-failure, then row deletion and the
nulling of matching app references. -/
def deleteLocalAndFinish (env : Env) (db : DB) (normalizedName : String)
    (localPathToRemove : Option String) (backupName : Option String)
    (evsPre : List Event) : Resp × DB × List Event :=
  let removal : Option String × List Event :=
    match localPathToRemove with
    | some p =>
        if env.existsX p then
          match env.rmtreeX p with
          | some e => (some (formatLocalError "eliminar" p e), [Event.rmtree p])
          | none => (none, [Event.rmtree p])
        else (none, [])
    | none => (none, [])
  match removal with
  | (some removalError, evsRm) =>
      (match backupName with
        | some b =>
            match restoreRemoteBackup env db normalizedName b with
            | (.error _, evsB) => (uncaughtResp, db, evsPre ++ evsRm ++ evsB)
            | (.ok restored, evsB) =>
                let bEvs := deleteRemoteSafely b
                if restored then
                  (errResp (removalError ++ " La configuración original del remote se restauró.") 400,
                    db, evsPre ++ evsRm ++ evsB ++ bEvs)
                else
                  (errResp (removalError ++ " No se pudo restaurar la configuración original.") 500,
                    db, evsPre ++ evsRm ++ evsB ++ bEvs)
        | none =>
            (errResp (removalError ++ " No se pudo restaurar la configuración original.") 500,
              db, evsPre ++ evsRm))
  | (none, evsRm) =>
      let bEvs := match backupName with
        | some b => deleteRemoteSafely b
        | none => []
      let normalizedRemoteValue := normalizeRemote normalizedName
      let db2 : DB := ⟨db.remotes.filter (fun r => ¬(r.name == normalizedName)),
        db.apps.map (fun a =>
          if a.rcloneRemote = some normalizedRemoteValue then { a with rcloneRemote := none }
          else a),
        db.nextId⟩
      let body := [("status", "ok")] ++
        (match localPathToRemove with
          | some p => [("removed_path", p)]
          | none => [])
      (⟨body, 200⟩, db2, evsPre ++ evsRm ++ bEvs)

/-- The quarantine purge stage of `delete_rclone_remote` (lines
1841-1866): on purge failure, move the quarantined folder back, attempt
the configuration restore, and report whether it succeeded (400 when
restored, 500 when not). -/
def deletePurgeAndFinish (env : Env) (db : DB) (normalizedName : String)
    (driveRenamed : Bool) (driveTempPath : Option String) (driveCurrentPath : String)
    (localPathToRemove : Option String) (backupName : Option String)
    (evsPre : List Event) : Resp × DB × List Event :=
  if driveRenamed ∧ driveTempPath.getD "" ≠ "" ∧ driveCurrentPath ≠ "" then
    match purgeDrivePath env (driveTempPath.getD "") with
    | (.error (.op purgeError _), evsP) =>
        (match restoreDrivePath env (driveTempPath.getD "") driveCurrentPath with
          | (.error _, evsR) => (uncaughtResp, db, evsPre ++ evsP ++ evsR)
          | (.ok restoreError, evsR) =>
              let message := match restoreError with
                | some re => pyStrip (purgeError ++ " " ++ re)
                | none => purgeError
              match backupName with
              | some b =>
                  (match restoreRemoteBackup env db normalizedName b with
                    | (.error _, evsB) => (uncaughtResp, db, evsPre ++ evsP ++ evsR ++ evsB)
                    | (.ok restoredConfig, evsB) =>
                        let bEvs := deleteRemoteSafely b
                        if restoredConfig then
                          (errResp (message ++ " La configuración original del remote se restauró.") 400,
                            db, evsPre ++ evsP ++ evsR ++ evsB ++ bEvs)
                        else
                          (errResp (message ++ " No se pudo restaurar la configuración original.") 500,
                            db, evsPre ++ evsP ++ evsR ++ evsB ++ bEvs))
              | none =>
                  (errResp (message ++ " No se pudo restaurar la configuración original.") 500,
                    db, evsPre ++ evsP ++ evsR))
    | (.error _, evsP) => (uncaughtResp, db, evsPre ++ evsP)
    | (.ok _, evsP) =>
        deleteLocalAndFinish env db normalizedName localPathToRemove backupName (evsPre ++ evsP)
  else deleteLocalAndFinish env db normalizedName localPathToRemove backupName evsPre

/-- Quarantine move and external-entry deletion of `delete_rclone_remote`
(lines 1804-1839). -/
def deleteMainPhase (env : Env) (db : DB) (normalizedName : String)
    (storedType : Option String) (driveCurrentPath : String)
    (localPathToRemove : Option String) (backupName : Option String)
    (evsPre : List Event) : Resp × DB × List Event :=
  let driveStep : Except (Resp × List Event) (Option String × Bool × List Event) :=
    if storedType = some "drive" ∧ driveCurrentPath ≠ "" then
      match buildDriveTempPath env driveCurrentPath with
      | none => .error (uncaughtResp, [])
      | some tempPath =>
          match moveDrivePath env driveCurrentPath tempPath with
          | (.error (.op m _), evsM) =>
              .error (errResp m 400,
                evsM ++ (match backupName with
                  | some b => deleteRemoteSafely b
                  | none => []))
          | (.error _, evsM) =>
              .error (errResp "rclone is not installed" 500,
                evsM ++ (match backupName with
                  | some b => deleteRemoteSafely b
                  | none => []))
          | (.ok _, evsM) => .ok (some tempPath, true, evsM)
    else .ok (none, false, [])
  match driveStep with
  | .error (r, evs) => (r, db, evsPre ++ evs)
  | .ok (driveTempPath, driveRenamed, evsM) =>
      let delEv := [Event.rclone ["config", "delete", normalizedName]]
      match env.run ["config", "delete", normalizedName] with
      | .missing =>
          (match (if driveRenamed ∧ driveTempPath.getD "" ≠ "" ∧ driveCurrentPath ≠ "" then
              some (restoreDrivePath env (driveTempPath.getD "") driveCurrentPath)
            else none) with
            | some (.error _, evsR) => (uncaughtResp, db, evsPre ++ evsM ++ delEv ++ evsR)
            | some (.ok restoreError, evsR) =>
                let bEvs := match backupName with
                  | some b => deleteRemoteSafely b
                  | none => []
                let message := match restoreError with
                  | some re => pyStrip ("rclone is not installed" ++ " " ++ re)
                  | none => "rclone is not installed"
                (errResp message 500, db, evsPre ++ evsM ++ delEv ++ evsR ++ bEvs)
            | none =>
                let bEvs := match backupName with
                  | some b => deleteRemoteSafely b
                  | none => []
                (errResp "rclone is not installed" 500, db, evsPre ++ evsM ++ delEv ++ bEvs))
      | .err a b =>
          let base := let d := errDetail a b
            if d ≠ "" then d else "failed to delete remote"
          (match (if driveRenamed ∧ driveTempPath.getD "" ≠ "" ∧ driveCurrentPath ≠ "" then
              some (restoreDrivePath env (driveTempPath.getD "") driveCurrentPath)
            else none) with
            | some (.error _, evsR) => (uncaughtResp, db, evsPre ++ evsM ++ delEv ++ evsR)
            | some (.ok restoreError, evsR) =>
                let bEvs := match backupName with
                  | some b => deleteRemoteSafely b
                  | none => []
                let message := match restoreError with
                  | some re => pyStrip (base ++ " " ++ re)
                  | none => base
                (errResp message 400, db, evsPre ++ evsM ++ delEv ++ evsR ++ bEvs)
            | none =>
                let bEvs := match backupName with
                  | some b => deleteRemoteSafely b
                  | none => []
                (errResp base 400, db, evsPre ++ evsM ++ delEv ++ bEvs))
      | .ok _ =>
          deletePurgeAndFinish env db normalizedName driveRenamed driveTempPath
            driveCurrentPath localPathToRemove backupName (evsPre ++ evsM ++ delEv)

/-- `delete_rclone_remote` (lines 1727-1905, `DELETE
/rclone/remotes/name`). -/
def deleteRcloneRemote (env : Env) (db : DB) (remoteName : String) :
    Resp × DB × List Event :=
  let normalizedName := normalizeRemoteName (some remoteName)
  if normalizedName = "" then (errResp "remote not found" 404, db, [])
  else
    let storedRow := db.remotes.find? (fun r => r.name == normalizedName)
    let storedType : Option String := match storedRow with
      | some row =>
          let t := pyLower (pyStrip (row.rtype.getD ""))
          if t ≠ "" then some t else none
      | none => none
    let storedRoute : Option String := match storedRow with
      | some row =>
          let r := pyStrip (row.route.getD "")
          if r ≠ "" then some r else none
      | none => none
    let driveCurrentPath := if storedType = some "drive" then normalizeDrivePath env storedRoute
      else ""
    match fetchConfiguredRemotes env with
    | (.error .runtime, evs) => (errResp "rclone is not installed" 500, db, evs)
    | (.error _, evs) => (uncaughtResp, db, evs)
    | (.ok configured, evs0) =>
        if normalizedName ∉ configured then (errResp "remote not found" 404, db, evs0)
        else
          let allowedRoots := getLocalDirectoryRoots env
          if storedType = some "drive" ∧ driveCurrentPath = "" then
            (errResp "No se pudo identificar la carpeta de Google Drive asociada al remote. Actualizalo antes de eliminarlo o contactá al administrador." 400,
              db, evs0)
          else
            let localDecision : Except Resp (Option String) :=
              if storedType = some "local" ∧ storedRoute.getD "" ≠ "" then
                match ensureAbsolutePath env.pathEnv storedRoute with
                | none => .ok none
                | some candidate =>
                    let parentPath :=
                      let d := dirnameP (pyRstrip '/' candidate); if d = "" then "/" else d
                    let normalizedParent := normalizeFilesystemPath env.pathEnv (some parentPath)
                    let normalizedCandidate := normalizeFilesystemPath env.pathEnv (some candidate)
                    if normalizedParent ≠ "" ∧ normalizedParent ∈ allowedRoots ∧
                        normalizedCandidate ≠ "" ∧ normalizedCandidate ≠ normalizedParent then
                      .ok (some candidate)
                    else
                      .error (errResp "No se pudo identificar la carpeta asociada al remote. Actualizalo antes de eliminarlo o contactá al administrador." 400)
              else .ok none
            match localDecision with
            | .error r => (r, db, evs0)
            | .ok localPathToRemove =>
                let requiresBackup := localPathToRemove.isSome ∨
                  (storedType = some "drive" ∧ driveCurrentPath ≠ "")
                if requiresBackup then
                  let backupName := "__delete__" ++ env.freshA
                  match cloneRemoteConfiguration env db normalizedName backupName
                      (some "No se pudo preparar la eliminación del remote.") with
                  | (.error .runtime, evsC) =>
                      (errResp "rclone is not installed" 500, db, evs0 ++ evsC)
                  | (.error (.op m st), evsC) =>
                      (errResp m st, db, evs0 ++ evsC ++ deleteRemoteSafely backupName)
                  | (.error (.cpe a b), evsC) =>
                      let d := errDetail a b
                      (errResp (if d ≠ "" then d else "No se pudo preparar la eliminación del remote.") 400,
                        db, evs0 ++ evsC ++ deleteRemoteSafely backupName)
                  | (.error .uncaught, evsC) => (uncaughtResp, db, evs0 ++ evsC)
                  | (.ok _, evsC) =>
                      deleteMainPhase env db normalizedName storedType driveCurrentPath
                        localPathToRemove (some backupName) (evs0 ++ evsC)
                else
                  deleteMainPhase env db normalizedName storedType driveCurrentPath
                    localPathToRemove none evs0

/-! ### SFTP directory browsing and Drive token validation -/

/-- `POST /rclone/remotes/sftp/browse` request payload. -/
structure SftpBrowsePayload where
  host : Option String
  username : Option String
  user : Option String
  password : Option String
  port : Option String
  path : Option String
  deriving DecidableEq, Repr

/-- One entry of the `lsjson` listing loop (lines 1177-1186).  Outer
`none` is an uncaught `AttributeError` (`entry.get` on a non-dict, or
`.strip()` on a truthy non-string name); `some none` a skipped entry. -/
def sftpDirOfItem (normalizedPath : String) (item : JVal) :
    Option (Option (String × String)) :=
  match item with
  | .obj fields =>
      match jGet fields "Name" with
      | none => some none
      | some .null => some none
      | some (.str s) =>
          let name := pyStrip s
          if name = "" then some none
          else
            match joinSftpFolder normalizedPath (some name) with
            | some p => some (some (name, p))
            | none => some none
      | some v => if jTruthy v then none else some none
  | _ => none

def sftpDirsOfItems (normalizedPath : String) : List JVal →
    Option (List (String × String))
  | [] => some []
  | item :: rest =>
      match sftpDirOfItem normalizedPath item with
      | none => none
      | some none => sftpDirsOfItems normalizedPath rest
      | some (some d) => (sftpDirsOfItems normalizedPath rest).map (fun ds => d :: ds)

/-- Rendering of the directory list for the JSON response body. -/
def renderDirs (ds : List (String × String)) : String :=
  "[" ++ String.intercalate ", "
      (ds.map (fun d => "\x7b\"name\": \"" ++ jsonEscape d.1 ++ "\", \"path\": \"" ++
        jsonEscape d.2 ++ "\"\x7d")) ++
    "]"

/-- Python `s.isdigit()` restricted to ASCII digits. -/
def pyIsDigit (s : String) : Bool := !s.data.isEmpty && s.data.all Char.isDigit

/-- The `finally` clause of the probe routes: unlink the temporary
configuration file when it still exists. -/
def probeUnlinkEvs (env : Env) (tempPath : String) : List Event :=
  if env.existsX tempPath then [Event.unlink tempPath] else []

/-- `browse_sftp_directories` (lines 1097-1196).  The temporary probe
configuration file is created under `env.tempName` and removed in the
`finally` clause on every exit path. -/
def browseSftpDirectories (env : Env) (payload : SftpBrowsePayload) :
    Resp × List Event :=
  let host := pyStrip (payload.host.getD "")
  let username := pyStrip ((if payload.username.getD "" ≠ "" then payload.username
    else payload.user).getD "")
  let password := pyStrip (payload.password.getD "")
  let port := pyStrip (payload.port.getD "")
  if host = "" then (errResp "El host del servidor SFTP es obligatorio." 400, [])
  else if username = "" then (errResp "Indicá el usuario del servidor SFTP." 400, [])
  else if password = "" then
    (errResp "Ingresá la contraseña para conectarte por SFTP." 400, [])
  else if port ≠ "" ∧ ¬ pyIsDigit port then
    (errResp "El puerto SFTP debe ser un número válido." 400, [])
  else
    let normalizedPath := normalizeSftpBasePath payload.path
    let tempPath := env.tempName
    match obscureRcloneSecret env password (some tempPath) with
    | (.error (.op m st), evsO) => (errResp m st, evsO ++ probeUnlinkEvs env tempPath)
    | (.error _, evsO) => (uncaughtResp, evsO ++ probeUnlinkEvs env tempPath)
    | (.ok obscuredPassword, evsO) =>
        let args := ["--config", tempPath, "config", "create", "--non-interactive",
            "__probe__", "sftp", "host", host, "user", username] ++
          (if port ≠ "" then ["port", port] else []) ++ ["pass", obscuredPassword]
        match env.run args with
        | .missing =>
            (errResp "rclone is not installed" 500,
              evsO ++ [Event.rclone args] ++ probeUnlinkEvs env tempPath)
        | .err a b =>
            (errResp (translateSftpError (errDetail a b)) 400,
              evsO ++ [Event.rclone args] ++ probeUnlinkEvs env tempPath)
        | .ok _ =>
            let target := if normalizedPath ≠ "/" then "__probe__:" ++ pyLstrip '/' normalizedPath
              else "__probe__:"
            let lsArgs := ["--config", tempPath, "lsjson", target, "--dirs-only"]
            let evsRun := evsO ++ [Event.rclone args, Event.rclone lsArgs]
            match env.run lsArgs with
            | .missing =>
                (errResp "rclone is not installed" 500, evsRun ++ probeUnlinkEvs env tempPath)
            | .err a b =>
                (errResp (translateSftpError (errDetail a b)) 400,
                  evsRun ++ probeUnlinkEvs env tempPath)
            | .ok out =>
                let evsAll := evsRun ++ probeUnlinkEvs env tempPath
                match env.parseJson (if out = "" then "[]" else out) with
                | none =>
                    (errResp "No se pudieron interpretar las carpetas devueltas por el servidor SFTP." 502,
                      evsAll)
                | some (.arr items) =>
                    match sftpDirsOfItems normalizedPath items with
                    | none => (uncaughtResp, evsAll)
                    | some dirs =>
                        let sorted := dirs.mergeSort
                          (fun x y => decide (pyLower x.2 ≤ pyLower y.2))
                        (⟨[("current_path", normalizedPath),
                            ("parent_path", parentSftpPath (some normalizedPath)),
                            ("directories", renderDirs sorted)], 200⟩, evsAll)
                | some (.obj []) =>
                    (⟨[("current_path", normalizedPath),
                        ("parent_path", parentSftpPath (some normalizedPath)),
                        ("directories", renderDirs [])], 200⟩, evsAll)
                | some (.str "") =>
                    (⟨[("current_path", normalizedPath),
                        ("parent_path", parentSftpPath (some normalizedPath)),
                        ("directories", renderDirs [])], 200⟩, evsAll)
                | some _ => (uncaughtResp, evsAll)

/-- `POST /rclone/remotes/drive/validate` request payload. -/
structure DriveValidatePayload where
  token : Option String
  clientId : Option String
  clientSecret : Option String
  deriving DecidableEq, Repr

/-- `validate_drive_token` (lines 1198-1250). -/
def validateDriveToken (env : Env) (payload : DriveValidatePayload) :
    Resp × List Event :=
  let token := pyStrip (payload.token.getD "")
  if token = "" then (errResp "token is required" 400, [])
  else
    let clientId := pyStrip (if payload.clientId.getD "" ≠ "" then payload.clientId.getD ""
      else env.driveClientIdEnv)
    let clientSecret := pyStrip (if payload.clientSecret.getD "" ≠ "" then
        payload.clientSecret.getD ""
      else env.driveClientSecretEnv)
    let tempPath := env.tempName
    let args := ["--config", tempPath, "config", "create", "__validate__", "drive",
        "token", token, "scope", env.driveScopeEnv, "--no-auto-auth", "--non-interactive"] ++
      (if clientId ≠ "" then ["client_id", clientId] else []) ++
      (if clientSecret ≠ "" then ["client_secret", clientSecret] else [])
    match env.run args with
    | .missing =>
        (errResp "rclone is not installed" 500,
          [Event.rclone args] ++ probeUnlinkEvs env tempPath)
    | .err a b =>
        let d := errDetail a b
        (errResp (if d ≠ "" then d else "failed to validate token") 400,
          [Event.rclone args] ++ probeUnlinkEvs env tempPath)
    | .ok _ =>
        (⟨[("status", "ok")], 200⟩, [Event.rclone args] ++ probeUnlinkEvs env tempPath)

/-! ### Helpers for concrete evaluation -/

/-- The move mode of a successfully built plan, for concrete
evaluation. -/
def planMoveMode (e : Except RemoteErr RemotePlan) : Option (Option String) :=
  match e with
  | .ok p => some p.localMoveMode
  | .error _ => none

/-- The payload of a successful `Except`, with a fallback. -/
def exceptOkD {ε α : Type} (e : Except ε α) (d : α) : α :=
  match e with
  | .ok a => a
  | .error _ => d

/-- A concrete environment for evaluating the embedded routes on small
inputs: one configured local directory `/data`, a clean filesystem,
successful subprocesses, and fixed oracle draws. -/
def testEnv : Env where
  run := fun _ => .ok ""
  makedirsX := fun _ => none
  moveX := fun _ _ => none
  rmtreeX := fun _ => none
  unlinkX := fun _ => none
  isdirX := fun p => p = "/data"
  existsX := fun _ => false
  listdirX := fun _ => []
  parseJson := fun _ => none
  rcloneRemoteEnv := "gdrive"
  localDirsRaw := "/data"
  pathEnv := ⟨"/", fun _ => none⟩
  freshA := "aaaaaaaa"
  freshB := "bbbbbbbb"
  tempName := "/tmp/probe"
  driveClientIdEnv := ""
  driveClientSecretEnv := ""
  driveScopeEnv := "drive"

/-- An environment whose every subprocess invocation fails with a
`CalledProcessError` carrying empty output. -/
def mainFailEnv : Env :=
  { testEnv with run := fun _ => .err "" "" }

/-- An environment where exactly the `["post"]` invocation fails. -/
def postFailEnv : Env :=
  { testEnv with run := fun args => if args = ["post"] then .err "boom" "" else .ok "" }

/-- An environment whose `config dump` output parses to a JSON array,
triggering the `payload.get` `AttributeError` path of
`_load_remote_configuration`. -/
def arrDumpEnv : Env :=
  { testEnv with run := fun _ => .ok "[]", parseJson := fun s => if s = "[]" then some (JVal.arr []) else none }

/-- An environment for the configuration-snapshot preference: the stored
snapshot `cfg-empty-type` parses to an object whose `type` is the empty
string, `cfg-local` to a complete `local` entry, and the tool dump
`dump-out` to an empty object. -/
def snapEnv : Env :=
  { testEnv with run := fun _ => .ok "dump-out", parseJson := fun s => if s = "cfg-empty-type" then some (JVal.obj [("type", JVal.str "")]) else if s = "cfg-local" then some (JVal.obj [("type", JVal.str "local"), ("remote", JVal.str "/x")]) else if s = "dump-out" then some (JVal.obj []) else none }

/-- `snapEnv` with a failing `config delete` for remote `r`. -/
def delFailEnv : Env :=
  { snapEnv with run := fun args => if args = ["config", "delete", "r"] then .err "x" "" else .ok "dump-out" }

/-- A store for the rename cascade: remote `foo` with a valid snapshot,
and app rows pointing at `foo:` and at `x:`. -/
def renameDb : DB :=
  ⟨[⟨1, "foo", some "local", some "/data/foo", none, some "cfg-local"⟩],
    [⟨1, some "foo:"⟩, ⟨2, some "x:"⟩], 2⟩

/-- A built plan renaming `foo` to the local folder remote `bar`. -/
def renamePlan : RemotePlan :=
  { command := ["config", "create", "--non-interactive", "bar", "alias", "remote", "/data/bar"]
    localTargetPath := some "/data/bar"
    configSnapshot := some [("type", "alias"), ("remote", "/data/bar")] }

/-- An environment whose `listremotes` reports an existing remote
`dup`. -/
def dupEnv : Env :=
  { testEnv with run := fun args => if args = ["listremotes"] then .ok "dup:\n" else .ok "" }

/-- `snapEnv` with every `purge` invocation failing. -/
def purgeFailEnv : Env :=
  { snapEnv with run := fun args => if args.head? = some "purge" then .err "purge boom" "" else .ok "dump-out" }

/-- A store holding a pre-delete backup entry with a valid snapshot. -/
def backupDb : DB :=
  ⟨[⟨1, "__delete__x", some "local", none, none, some "cfg-local"⟩], [], 2⟩

/-- A store with two remotes carrying the snapshots of `snapEnv`. -/
def snapDb : DB :=
  ⟨[⟨1, "r", some "local", none, none, some "cfg-empty-type"⟩,
    ⟨2, "s", some "local", none, none, some "cfg-local"⟩], [], 3⟩

/-- Trace observation: the event is the `config delete` of the given
entry name. -/
def deletesEntry (name : String) : Event → Bool
  | .rclone args => decide (args = ["config", "delete", name])
  | _ => false

/-- Trace observation: the event is a `config create` of the given entry
name whose invocation succeeded in the given environment. -/
def createdEntry (env : Env) (name : String) : Event → Bool
  | .rclone args =>
      decide (args.take 4 = ["config", "create", "--non-interactive", name]) &&
        (match env.run args with | .ok _ => true | _ => false)
  | _ => false

/-- An environment whose purge fails and whose `config dump` output
parses to a JSON array, so that the post-purge backup restore raises the
uncaught `AttributeError`. -/
def leakEnv : Env :=
  { snapEnv with run := fun args => if args.head? = some "purge" then .err "pb" "" else if args = ["listremotes"] then .ok "nn:\n" else if args = ["config", "dump"] then .ok "arr" else .ok "", parseJson := fun s => if s = "cfg-local" then some (JVal.obj [("type", JVal.str "local"), ("remote", JVal.str "/x")]) else if s = "arr" then some (JVal.arr []) else none }

/-- A store with the drive remote `nn` whose deletion is attempted in the
counterexample. -/
def leakDb : DB :=
  ⟨[⟨1, "nn", some "drive", some "gdrive:folder", none, some "cfg-local"⟩], [], 2⟩

/-! ### Lemmas about the double-slash loop and edge stripping -/

theorem replaceDSOnce_length_le (l : List Char) : (replaceDSOnce l).length ≤ l.length := by
  induction l using replaceDSOnce.induct with
  | case1 => simp [replaceDSOnce]
  | case2 c => simp [replaceDSOnce]
  | case3 rest ih => simp [replaceDSOnce]; omega
  | case4 d rest hd ih =>
      simp [replaceDSOnce, hd] at ih ⊢; omega
  | case5 c d rest hc ih =>
      simp [replaceDSOnce, hc] at ih ⊢; omega

theorem replaceDSOnce_length_lt (l : List Char) (h : hasDoubleSlash l = true) :
    (replaceDSOnce l).length < l.length := by
  induction l using replaceDSOnce.induct with
  | case1 => simp [hasDoubleSlash] at h
  | case2 c => simp [hasDoubleSlash] at h
  | case3 rest ih =>
      have hle := replaceDSOnce_length_le rest
      simp [replaceDSOnce]; omega
  | case4 d rest hd ih =>
      simp only [hasDoubleSlash, Bool.or_eq_true, Bool.and_eq_true, decide_eq_true_eq] at h
      rcases h with ⟨-, h2⟩ | h
      · exact absurd h2 hd
      · have hlt := ih (by simpa [hasDoubleSlash] using h)
        simp only [List.length_cons] at hlt
        simp [replaceDSOnce, hd]; omega
  | case5 c d rest hc ih =>
      simp only [hasDoubleSlash, Bool.or_eq_true, Bool.and_eq_true, decide_eq_true_eq] at h
      rcases h with ⟨h1, -⟩ | h
      · exact absurd h1 hc
      · have hlt := ih (by simpa [hasDoubleSlash] using h)
        simp only [List.length_cons] at hlt
        simp [replaceDSOnce, hc]; omega

theorem collapseFuel_no_ds : ∀ (n : Nat) (l : List Char), l.length ≤ n →
    hasDoubleSlash (collapseFuel n l) = false := by
  intro n
  induction n with
  | zero =>
      intro l h
      have : l = [] := List.eq_nil_of_length_eq_zero (Nat.le_zero.mp h)
      subst this; rfl
  | succ n ih =>
      intro l h
      by_cases hds : hasDoubleSlash l = true
      · rw [collapseFuel, if_pos hds]
        exact ih _ (by have := replaceDSOnce_length_lt l hds; omega)
      · rw [collapseFuel, if_neg hds]
        exact Bool.not_eq_true _ ▸ (Bool.eq_false_iff.mpr hds)

theorem collapseFuel_eq_of_no_ds (n : Nat) (l : List Char)
    (h : hasDoubleSlash l = false) : collapseFuel n l = l := by
  cases n <;> simp [collapseFuel, h]

theorem replaceDSOnce_head? (l : List Char) : (replaceDSOnce l).head? = l.head? := by
  induction l using replaceDSOnce.induct with
  | case1 => rfl
  | case2 c => rfl
  | case3 rest ih => simp [replaceDSOnce]
  | case4 d rest hd ih => simp [replaceDSOnce, hd]
  | case5 c d rest hc ih => simp [replaceDSOnce, hc]

theorem collapseFuel_head? (n : Nat) : ∀ l : List Char,
    (collapseFuel n l).head? = l.head? := by
  induction n with
  | zero => intro l; rfl
  | succ n ih =>
      intro l
      rw [collapseFuel]
      by_cases hds : hasDoubleSlash l = true
      · rw [if_pos hds, ih, replaceDSOnce_head?]
      · rw [if_neg hds]

theorem mem_replaceDSOnce (c : Char) : ∀ l : List Char, c ∈ replaceDSOnce l → c ∈ l := by
  intro l
  induction l using replaceDSOnce.induct with
  | case1 => simp [replaceDSOnce]
  | case2 x => simp [replaceDSOnce]
  | case3 rest ih =>
      simp only [replaceDSOnce, if_pos rfl]
      intro hmem
      rcases List.mem_cons.mp hmem with rfl | h
      · simp
      · simp [ih h]
  | case4 d rest hd ih =>
      simp only [replaceDSOnce, if_pos rfl, if_neg hd]
      intro hmem
      rcases List.mem_cons.mp hmem with rfl | h
      · simp
      · rcases List.mem_cons.mp (ih h) with rfl | h2
        · simp
        · simp [h2]
  | case5 x d rest hc ih =>
      simp only [replaceDSOnce, if_neg hc]
      intro hmem
      rcases List.mem_cons.mp hmem with rfl | h
      · simp
      · rcases List.mem_cons.mp (ih h) with rfl | h2
        · simp
        · simp [h2]

theorem mem_collapseFuel (c : Char) : ∀ (n : Nat) (l : List Char),
    c ∈ collapseFuel n l → c ∈ l := by
  intro n
  induction n with
  | zero => intro l h; exact h
  | succ n ih =>
      intro l h
      rw [collapseFuel] at h
      by_cases hds : hasDoubleSlash l = true
      · rw [if_pos hds] at h; exact mem_replaceDSOnce c l (ih _ h)
      · rwa [if_neg hds] at h

theorem hasDS_append_left (l r : List Char) (h : hasDoubleSlash l = true) :
    hasDoubleSlash (l ++ r) = true := by
  induction l using hasDoubleSlash.induct with
  | case1 => simp [hasDoubleSlash] at h
  | case2 x => simp [hasDoubleSlash] at h
  | case3 c d rest ih =>
      simp only [hasDoubleSlash, Bool.or_eq_true] at h
      simp only [List.cons_append, hasDoubleSlash, Bool.or_eq_true]
      rcases h with h | h
      · exact Or.inl h
      · exact Or.inr (by simpa using ih h)

theorem head?_dropWhile_not (p : Char → Bool) : ∀ (l : List Char) (x : Char),
    (l.dropWhile p).head? = some x → p x = false := by
  intro l
  induction l with
  | nil => intro x h; simp [List.dropWhile] at h
  | cons a t ih =>
      intro x h
      by_cases hp : p a = true
      · rw [List.dropWhile_cons, if_pos hp] at h
        exact ih x h
      · rw [List.dropWhile_cons, if_neg hp] at h
        simp only [List.head?_cons, Option.some.injEq] at h
        subst h
        exact Bool.eq_false_iff.mpr hp

theorem pyRstrip_data_isPre (c : Char) (s : String) : (pyRstrip c s).data <+: s.data := by
  show (s.data.reverse.dropWhile _).reverse <+: s.data
  conv_rhs => rw [← List.reverse_reverse s.data]
  exact List.reverse_prefix.mpr (List.dropWhile_suffix _)

theorem pyRstrip_getLast? (c : Char) (s : String) (x : Char)
    (h : (pyRstrip c s).data.getLast? = some x) : x ≠ c := by
  have he : (pyRstrip c s).data.getLast? =
      (s.data.reverse.dropWhile (fun y => y = c)).head? := by
    show ((s.data.reverse.dropWhile _).reverse).getLast? = _
    rw [← List.head?_reverse, List.reverse_reverse]
  rw [he] at h
  have := head?_dropWhile_not _ _ _ h
  simpa using this

theorem dropWhile_eq_self_of_not (p : Char → Bool) (l : List Char)
    (h : ∀ x ∈ l, p x = false) : l.dropWhile p = l := by
  cases l with
  | nil => rfl
  | cons a t =>
      rw [List.dropWhile_cons, if_neg (by simp [h a (by simp)])]

theorem dropEdges_eq_self (p : Char → Bool) (l : List Char)
    (h : ∀ x ∈ l, p x = false) : dropEdges p l = l := by
  unfold dropEdges
  rw [dropWhile_eq_self_of_not p l h,
    dropWhile_eq_self_of_not p l.reverse (by intro x hx; exact h x (by simpa using hx))]
  exact List.reverse_reverse l

theorem mem_dropEdges (p : Char → Bool) (l : List Char) (x : Char)
    (h : x ∈ dropEdges p l) : x ∈ l := by
  unfold dropEdges at h
  rw [List.mem_reverse] at h
  have h2 := (List.dropWhile_suffix (l := (l.dropWhile p).reverse) p).subset h
  rw [List.mem_reverse] at h2
  exact (List.dropWhile_suffix p).subset h2

theorem map_replace_eq_self (a b : Char) (l : List Char) (h : a ∉ l) :
    l.map (fun c => if c = a then b else c) = l := by
  induction l with
  | nil => rfl
  | cons x t ih =>
      simp only [List.map_cons]
      have hx : x ≠ a := by rintro rfl; exact h (by simp)
      rw [if_neg hx, ih (fun hm => h (by simp [hm]))]

theorem isPrefixOf_slash_iff (l : List Char) :
    (['/'] : List Char).isPrefixOf l = true ↔ l.head? = some '/' := by
  cases l with
  | nil => simp [List.isPrefixOf]
  | cons a t =>
      simp only [List.isPrefixOf, List.head?_cons, Option.some.injEq, Bool.and_eq_true,
        beq_iff_eq]
      constructor
      · rintro ⟨rfl, -⟩; rfl
      · rintro rfl
        exact ⟨rfl, by simp [List.isPrefixOf]⟩

theorem strStarts_slash_iff (s : String) :
    strStarts s "/" = true ↔ s.data.head? = some '/' := by
  have hd : ("/" : String).data = ['/'] := rfl
  unfold strStarts
  rw [hd]
  exact isPrefixOf_slash_iff s.data

theorem head?_of_isPre {r l : List Char} (h : r <+: l) (hne : r ≠ []) :
    r.head? = l.head? := by
  obtain ⟨t, rfl⟩ := h
  cases r with
  | nil => exact absurd rfl hne
  | cons a s => rfl

theorem no_ds_of_isPre {r l : List Char} (h : r <+: l)
    (hl : hasDoubleSlash l = false) : hasDoubleSlash r = false := by
  obtain ⟨t, rfl⟩ := h
  by_cases hr : hasDoubleSlash r = true
  · rw [hasDS_append_left r t hr] at hl; exact absurd hl (by simp)
  · simpa using hr

theorem data_ne_nil_of_ne_empty {s : String} (h : s ≠ "") : s.data ≠ [] := by
  intro hd
  exact h (String.ext hd)

theorem mem_replaceChar (a b : Char) (s : String) (x : Char)
    (h : x ∈ (replaceChar a b s).data) : x ∈ s.data ∨ x = b := by
  simp only [replaceChar, List.mem_map] at h
  obtain ⟨y, hy, he⟩ := h
  by_cases hya : y = a
  · rw [if_pos hya] at he; exact Or.inr he.symm
  · rw [if_neg hya] at he; exact Or.inl (he ▸ hy)

theorem replaceChar_not_mem (candidate : String) :
    '\\' ∉ (replaceChar '\\' '/' candidate).data := by
  intro h
  simp only [replaceChar, List.mem_map] at h
  obtain ⟨y, hy, he⟩ := h
  by_cases hya : y = '\\'
  · rw [if_pos hya] at he; exact absurd he (by decide)
  · rw [if_neg hya] at he; exact hya he

theorem sftpPipe_c2_head (c1 : String) :
    (if strStarts c1 "/" then c1 else "/" ++ c1).data.head? = some '/' := by
  by_cases h : strStarts c1 "/" = true
  · rw [if_pos h]; exact (strStarts_slash_iff c1).mp h
  · rw [if_neg h, String.data_append]
    rfl

theorem collapseSlashes_data (s : String) :
    (collapseSlashes s).data = collapseFuel s.data.length s.data := rfl

theorem sftpPipe_starts (candidate : String) :
    strStarts (sftpPipe candidate) "/" = true := by
  simp only [sftpPipe]
  set c1 := replaceChar '\\' '/' candidate with hc1
  set c2 := (if strStarts c1 "/" then c1 else "/" ++ c1) with hc2
  set c3 := collapseSlashes c2 with hc3
  set c4 := (if 1 < c3.length && strEndsChar c3 '/' then pyRstrip '/' c3 else c3) with hc4
  by_cases h4 : c4 = ""
  · rw [if_pos h4]; decide
  · rw [if_neg h4, strStarts_slash_iff]
    have h2 : c2.data.head? = some '/' := by rw [hc2]; exact sftpPipe_c2_head c1
    have h3 : c3.data.head? = some '/' := by
      rw [hc3, collapseSlashes_data, collapseFuel_head?]; exact h2
    rw [hc4]
    by_cases hb : (1 < c3.length && strEndsChar c3 '/') = true
    · rw [if_pos hb]
      have hne : (pyRstrip '/' c3).data ≠ [] := by
        apply data_ne_nil_of_ne_empty
        rw [hc4, if_pos hb] at h4; exact h4
      rw [head?_of_isPre (pyRstrip_data_isPre '/' c3) hne]; exact h3
    · rw [if_neg hb]; exact h3

theorem sftpPipe_no_ds (candidate : String) :
    hasDoubleSlash (sftpPipe candidate).data = false := by
  simp only [sftpPipe]
  set c1 := replaceChar '\\' '/' candidate with hc1
  set c2 := (if strStarts c1 "/" then c1 else "/" ++ c1) with hc2
  set c3 := collapseSlashes c2 with hc3
  set c4 := (if 1 < c3.length && strEndsChar c3 '/' then pyRstrip '/' c3 else c3) with hc4
  have h3 : hasDoubleSlash c3.data = false := by
    rw [hc3, collapseSlashes_data]
    exact collapseFuel_no_ds _ _ (Nat.le_refl _)
  by_cases h4 : c4 = ""
  · rw [if_pos h4]; rfl
  · rw [if_neg h4, hc4]
    by_cases hb : (1 < c3.length && strEndsChar c3 '/') = true
    · rw [if_pos hb]; exact no_ds_of_isPre (pyRstrip_data_isPre '/' c3) h3
    · rw [if_neg hb]; exact h3

theorem sftpPipe_trailing (candidate : String) :
    strEndsChar (sftpPipe candidate) '/' = true → sftpPipe candidate = "/" := by
  simp only [sftpPipe]
  set c1 := replaceChar '\\' '/' candidate with hc1
  set c2 := (if strStarts c1 "/" then c1 else "/" ++ c1) with hc2
  set c3 := collapseSlashes c2 with hc3
  set c4 := (if 1 < c3.length && strEndsChar c3 '/' then pyRstrip '/' c3 else c3) with hc4
  by_cases h4 : c4 = ""
  · rw [if_pos h4]; intro _; rfl
  · rw [if_neg h4]
    intro hend
    rw [hc4] at hend ⊢
    by_cases hb : (decide (1 < c3.length) && strEndsChar c3 '/') = true
    · exfalso
      rw [if_pos hb] at hend
      have hl : (pyRstrip '/' c3).data.getLast? = some '/' := by
        unfold strEndsChar at hend; exact of_decide_eq_true hend
      exact pyRstrip_getLast? '/' c3 '/' hl rfl
    · rw [if_neg hb] at hend ⊢
      rw [hc4, if_neg hb] at h4
      have hends : c3.data.getLast? = some '/' := by
        unfold strEndsChar at hend; exact of_decide_eq_true hend
      have hnlt : ¬ 1 < c3.length := by
        intro hlt
        apply hb
        simp only [Bool.and_eq_true, decide_eq_true_eq]
        exact ⟨hlt, by unfold strEndsChar; exact decide_eq_true hends⟩
      have hne : c3.data ≠ [] := data_ne_nil_of_ne_empty h4
      have hlen : c3.data.length = 1 := by
        have h0 : 0 < c3.data.length := List.length_pos.mpr hne
        have h1 : c3.length = c3.data.length := rfl
        omega
      obtain ⟨x, hx⟩ := List.length_eq_one.mp hlen
      have hxe : x = '/' := by rw [hx] at hends; simpa using hends
      apply String.ext
      rw [hx, hxe]


theorem sftpPipe_mem (candidate : String) (x : Char)
    (hx : x ∈ (sftpPipe candidate).data) :
    x ∈ (replaceChar '\\' '/' candidate).data ∨ x = '/' := by
  simp only [sftpPipe] at hx
  set c1 := replaceChar '\\' '/' candidate with hc1
  set c2 := (if strStarts c1 "/" then c1 else "/" ++ c1) with hc2
  set c3 := collapseSlashes c2 with hc3
  set c4 := (if 1 < c3.length && strEndsChar c3 '/' then pyRstrip '/' c3 else c3) with hc4
  by_cases h4 : c4 = ""
  · rw [if_pos h4] at hx
    right
    simpa using hx
  · rw [if_neg h4] at hx
    have hx3 : x ∈ c3.data := by
      rw [hc4] at hx
      by_cases hb : (1 < c3.length && strEndsChar c3 '/') = true
      · rw [if_pos hb] at hx
        exact (pyRstrip_data_isPre '/' c3).subset hx
      · rwa [if_neg hb] at hx
    have hx2 : x ∈ c2.data := by
      rw [hc3, collapseSlashes_data] at hx3
      exact mem_collapseFuel x _ _ hx3
    rw [hc2] at hx2
    by_cases hs : strStarts c1 "/" = true
    · rw [if_pos hs] at hx2; exact Or.inl hx2
    · rw [if_neg hs, String.data_append] at hx2
      rcases List.mem_append.mp hx2 with h | h
      · right; simpa using h
      · exact Or.inl h

theorem normalizeSftpBasePath_props (v : Option String) :
    strStarts (normalizeSftpBasePath v) "/" = true ∧
      hasDoubleSlash (normalizeSftpBasePath v).data = false ∧
      '\\' ∉ (normalizeSftpBasePath v).data ∧
      (strEndsChar (normalizeSftpBasePath v) '/' = true → normalizeSftpBasePath v = "/") := by
  simp only [normalizeSftpBasePath]
  set candidate := pyStrip (if v.getD "" = "" then "/" else v.getD "") with hcand
  by_cases h : candidate = "" ∨ candidate = "." ∨ candidate = "./"
  · rw [if_pos h]
    exact ⟨by decide, rfl, by decide, fun _ => rfl⟩
  · rw [if_neg h]
    refine ⟨sftpPipe_starts candidate, sftpPipe_no_ds candidate, ?_, sftpPipe_trailing candidate⟩
    intro hbs
    rcases sftpPipe_mem candidate '\\' hbs with h1 | h1
    · exact replaceChar_not_mem candidate h1
    · exact absurd h1 (by decide)

theorem mem_normalizeSftpBasePath (v : Option String) (x : Char)
    (hx : x ∈ (normalizeSftpBasePath v).data) :
    x ∈ (v.getD "").data ∨ x = '/' := by
  simp only [normalizeSftpBasePath] at hx
  set candidate := pyStrip (if v.getD "" = "" then "/" else v.getD "") with hcand
  by_cases h : candidate = "" ∨ candidate = "." ∨ candidate = "./"
  · rw [if_pos h] at hx
    right; simpa using hx
  · rw [if_neg h] at hx
    rcases sftpPipe_mem candidate x hx with h1 | h1
    · rcases mem_replaceChar '\\' '/' candidate x h1 with h2 | h2
      · have h3 : x ∈ (if v.getD "" = "" then "/" else v.getD "").data := by
          rw [hcand] at h2
          exact mem_dropEdges _ _ _ h2
        by_cases hraw : v.getD "" = ""
        · rw [if_pos hraw] at h3
          right; simpa using h3
        · rw [if_neg hraw] at h3
          exact Or.inl h3
      · exact Or.inr h2
    · exact Or.inr h1

theorem normalizeSftpBasePath_fixed (r : String)
    (h1 : strStarts r "/" = true) (h2 : hasDoubleSlash r.data = false)
    (h3 : '\\' ∉ r.data) (h4 : strEndsChar r '/' = true → r = "/")
    (h5 : ∀ x ∈ r.data, pyWsChar x = false) :
    normalizeSftpBasePath (some r) = r := by
  have hhead : r.data.head? = some '/' := (strStarts_slash_iff r).mp h1
  have hne : r ≠ "" := by
    intro he; rw [he] at hhead; exact absurd hhead (by decide)
  have hstrip : pyStrip r = r := String.ext (dropEdges_eq_self _ _ h5)
  simp only [normalizeSftpBasePath, Option.getD_some]
  rw [if_neg hne, hstrip]
  have hcond : ¬(r = "" ∨ r = "." ∨ r = "./") := by
    rintro (he | he | he)
    · exact hne he
    · rw [he] at hhead; exact absurd hhead (by decide)
    · rw [he] at hhead; exact absurd hhead (by decide)
  rw [if_neg hcond]
  simp only [sftpPipe]
  have hc1 : replaceChar '\\' '/' r = r := String.ext (map_replace_eq_self _ _ _ h3)
  rw [hc1, if_pos h1]
  have hc3 : collapseSlashes r = r :=
    String.ext (by rw [collapseSlashes_data]; exact collapseFuel_eq_of_no_ds _ _ h2)
  rw [hc3]
  have hb : ¬(1 < r.length && strEndsChar r '/') = true := by
    intro hb
    rcases (Bool.and_eq_true _ _).mp hb with ⟨hlt, hend⟩
    have hr : r = "/" := h4 hend
    rw [hr] at hlt
    exact absurd (of_decide_eq_true hlt) (by decide)
  rw [if_neg hb, if_neg hne]

theorem normalizeSftpBasePath_idem (v : Option String)
    (h : ∀ x ∈ (v.getD "").data, pyWsChar x = false) :
    normalizeSftpBasePath (some (normalizeSftpBasePath v)) = normalizeSftpBasePath v := by
  obtain ⟨p1, p2, p3, p4⟩ := normalizeSftpBasePath_props v
  apply normalizeSftpBasePath_fixed _ p1 p2 p3 p4
  intro x hx
  rcases mem_normalizeSftpBasePath v x hx with h1 | h1
  · exact h x h1
  · rw [h1]; decide

theorem joinSftpFolder_formula (basePath f : String) (hne : f ≠ "")
    (h1 : pyStrip f = f) (h2 : pyStripChar '/' f = f) :
    joinSftpFolder basePath (some f) =
      some (if normalizeSftpBasePath (some basePath) = "/" then "/" ++ f
        else normalizeSftpBasePath (some basePath) ++ "/" ++ f) := by
  simp only [joinSftpFolder, Option.getD_some]
  rw [h1, h2, if_neg hne]
  by_cases hb : normalizeSftpBasePath (some basePath) = "/"
  · rw [if_pos hb, if_pos hb]
  · rw [if_neg hb, if_neg hb]



theorem localExistingAndMode_snd (pe : PathEnv) (ct cr : Option String) (nt nb : String) :
    (localExistingAndMode pe ct cr nt nb).2 =
      (if pyLower (pyStrip (ct.getD "")) = "local" ∧ cr.getD "" ≠ "" then
        match ensureAbsolutePath pe (some (cr.getD "")) with
        | some ce =>
            let ne := normalizeFilesystemPath pe (some ce)
            if ne = nt then none
            else if ne = nb then some "move_contents"
            else some "rename"
        | none => none
      else none) := by
  unfold localExistingAndMode
  split
  · split
    · simp only []
      split
      · rfl
      · split <;> rfl
    · rfl
  · rfl

/-! ### Structure of `normpath` on clean components -/

theorem splitChar_ne_nil (c : Char) (l : List Char) : splitChar c l ≠ [] := by
  induction l with
  | nil => simp [splitChar]
  | cons x xs ih =>
      by_cases hx : x = c
      · simp [splitChar, hx]
      · simp only [splitChar, if_neg hx]
        cases hsp : splitChar c xs with
        | nil => simp
        | cons h t => simp

theorem splitChar_cons_ne (c x : Char) (hx : ¬ x = c) (L : List Char) :
    splitChar c (x :: L) =
      (match splitChar c L with
        | [] => [[x]]
        | h :: t => (x :: h) :: t) := by
  simp [splitChar, hx]

theorem splitChar_append_sep (c : Char) (l₁ l₂ : List Char) :
    splitChar c (l₁ ++ c :: l₂) = splitChar c l₁ ++ splitChar c l₂ := by
  induction l₁ with
  | nil => simp [splitChar]
  | cons x xs ih =>
      by_cases hx : x = c
      · subst hx
        show splitChar x (x :: (xs ++ x :: l₂)) = splitChar x (x :: xs) ++ splitChar x l₂
        rw [show splitChar x (x :: (xs ++ x :: l₂)) = [] :: splitChar x (xs ++ x :: l₂) by
              simp [splitChar],
          show splitChar x (x :: xs) = [] :: splitChar x xs by simp [splitChar], ih]
        rfl
      · show splitChar c (x :: (xs ++ c :: l₂)) = splitChar c (x :: xs) ++ splitChar c l₂
        rw [splitChar_cons_ne c x hx, splitChar_cons_ne c x hx, ih]
        cases hsp : splitChar c xs with
        | nil => exact absurd hsp (splitChar_ne_nil c xs)
        | cons h t => rfl

theorem splitChar_of_not_mem (c : Char) (l : List Char) (h : c ∉ l) :
    splitChar c l = [l] := by
  induction l with
  | nil => rfl
  | cons x xs ih =>
      have hx : ¬ x = c := fun he => h (he ▸ List.mem_cons_self x xs)
      have ih2 := ih (fun hm => h (List.mem_cons_of_mem x hm))
      simp [splitChar, hx, ih2]

theorem not_mem_of_mem_splitChar (c : Char) :
    ∀ (l : List Char) (p : List Char), p ∈ splitChar c l → c ∉ p := by
  intro l
  induction l with
  | nil =>
      intro p hp hc
      simp [splitChar] at hp
      subst hp
      simp at hc
  | cons x xs ih =>
      intro p hp hc
      by_cases hx : x = c
      · simp only [splitChar, if_pos hx] at hp
        rcases List.mem_cons.mp hp with rfl | hp2
        · simp at hc
        · exact ih p hp2 hc
      · simp only [splitChar, if_neg hx] at hp
        cases hsp : splitChar c xs with
        | nil => exact absurd hsp (splitChar_ne_nil c xs)
        | cons h t =>
            rw [hsp] at hp
            rcases List.mem_cons.mp hp with rfl | hp2
            · rcases List.mem_cons.mp hc with hcx | hc2
              · exact hx hcx.symm
              · exact ih h (hsp ▸ List.mem_cons_self h t) hc2
            · exact ih p (hsp ▸ List.mem_cons_of_mem h hp2) hc

theorem joinComps_head (c : String) (rest : List String) :
    ∃ t, (joinComps (c :: rest)).data = c.data ++ t := by
  cases rest with
  | nil => exact ⟨[], by simp [joinComps]⟩
  | cons d r2 =>
      refine ⟨'/' :: (joinComps (d :: r2)).data, ?_⟩
      show (c ++ "/" ++ joinComps (d :: r2)).data = _
      simp [String.data_append, List.append_assoc]

theorem joinComps_data_ne_nil (comps : List String) (hg : goodComps comps)
    (hne : comps ≠ []) : (joinComps comps).data ≠ [] := by
  cases comps with
  | nil => exact absurd rfl hne
  | cons c rest =>
      obtain ⟨t, ht⟩ := joinComps_head c rest
      rw [ht]
      intro happ
      rw [List.append_eq_nil] at happ
      have hc : c ≠ "" := (hg c (List.mem_cons_self c rest)).1
      exact hc (by cases c; simp_all)

theorem joinComps_last_not_slash :
    ∀ (comps : List String), goodComps comps → comps ≠ [] →
      (joinComps comps).data.getLast? ≠ some '/' := by
  intro comps
  induction comps with
  | nil => intro _ h; exact absurd rfl h
  | cons c rest ih =>
      intro hg _
      cases rest with
      | nil =>
          simp only [joinComps]
          intro hz
          exact (hg c (List.mem_cons_self c [])).2.2.2 (List.mem_of_mem_getLast? hz)
      | cons d r2 =>
          have hgr : goodComps (d :: r2) := fun x hx => hg x (List.mem_cons_of_mem c hx)
          have hne2 : (joinComps (d :: r2)).data ≠ [] :=
            joinComps_data_ne_nil (d :: r2) hgr (by simp)
          show ((c ++ "/" ++ joinComps (d :: r2)).data).getLast? ≠ some '/'
          rw [String.data_append, List.getLast?_append_of_ne_nil _ hne2]
          exact ih hgr (by simp)

theorem splitChar_joinComps :
    ∀ (comps : List String), goodComps comps → comps ≠ [] →
      splitChar '/' (joinComps comps).data = comps.map String.data := by
  intro comps
  induction comps with
  | nil => intro _ h; exact absurd rfl h
  | cons c rest ih =>
      intro hg _
      cases rest with
      | nil =>
          simp only [joinComps, List.map]
          exact splitChar_of_not_mem '/' c.data (hg c (List.mem_cons_self c [])).2.2.2
      | cons d r2 =>
          have hgr : goodComps (d :: r2) := fun x hx => hg x (List.mem_cons_of_mem c hx)
          have hdata : (c ++ "/" ++ joinComps (d :: r2)).data =
              c.data ++ '/' :: (joinComps (d :: r2)).data := by
            simp [String.data_append, List.append_assoc]
          show splitChar '/' (c ++ "/" ++ joinComps (d :: r2)).data = _
          rw [hdata, splitChar_append_sep,
            splitChar_of_not_mem '/' c.data (hg c (List.mem_cons_self c (d :: r2))).2.2.2,
            ih hgr (by simp)]
          rfl

theorem joinComps_append_single (comps : List String) (s : String) (h : comps ≠ []) :
    joinComps (comps ++ [s]) = joinComps comps ++ "/" ++ s := by
  induction comps with
  | nil => exact absurd rfl h
  | cons c rest ih =>
      cases rest with
      | nil => rfl
      | cons d r2 =>
          show c ++ "/" ++ joinComps ((d :: r2) ++ [s]) = c ++ "/" ++ joinComps (d :: r2) ++ "/" ++ s
          rw [ih (by simp)]
          simp [String.append_assoc]

theorem foldl_normStep_replicate (slashes : Nat) :
    ∀ (n : Nat) (acc : List String),
      List.foldl (normStep slashes) acc (List.replicate n "") = acc := by
  intro n
  induction n with
  | zero => intro acc; rfl
  | succ m ih =>
      intro acc
      rw [List.replicate_succ, List.foldl_cons]
      have hstep : normStep slashes acc "" = acc := by simp [normStep]
      rw [hstep, ih]

theorem foldl_normStep_good (slashes : Nat) :
    ∀ (goods : List String) (acc : List String),
      (∀ g ∈ goods, goodComp g) →
      List.foldl (normStep slashes) acc goods = acc ++ goods := by
  intro goods
  induction goods with
  | nil => intro acc _; simp
  | cons g rest ih =>
      intro acc hg
      have hgg := hg g (List.mem_cons_self g rest)
      have hA : ¬ (g = "" ∨ g = ".") := by
        rintro (he | he)
        · exact hgg.1 he
        · exact hgg.2.1 he
      have hstep : normStep slashes acc g = acc ++ [g] := by
        unfold normStep
        rw [if_neg hA, if_pos (Or.inl hgg.2.2.1)]
      rw [List.foldl_cons, hstep, ih _ (fun x hx => hg x (List.mem_cons_of_mem g hx))]
      simp

theorem foldl_normStep_good_inv (slashes : Nat) (h1 : slashes ≠ 0) :
    ∀ (pieces : List String) (acc : List String),
      (∀ p ∈ pieces, '/' ∉ p.data) → goodComps acc →
      goodComps (List.foldl (normStep slashes) acc pieces) := by
  intro pieces
  induction pieces with
  | nil => intro acc _ ha; exact ha
  | cons p rest ih =>
      intro acc hp ha
      rw [List.foldl_cons]
      apply ih _ (fun x hx => hp x (List.mem_cons_of_mem p hx))
      unfold normStep
      by_cases h0 : p = "" ∨ p = "."
      · rw [if_pos h0]; exact ha
      · rw [if_neg h0]
        by_cases h2 : p ≠ ".." ∨ (slashes = 0 ∧ acc = []) ∨ (acc ≠ [] ∧ acc.getLast? = some "..")
        · rw [if_pos h2]
          have hpd : p ≠ ".." := by
            rcases h2 with h | h | h
            · exact h
            · exact absurd h.1 h1
            · exact absurd rfl (ha _ (List.mem_of_mem_getLast? h.2)).2.2.1
          intro x hx
          rcases List.mem_append.mp hx with hx2 | hx2
          · exact ha x hx2
          · have hxp : x = p := by simpa using hx2
            subst hxp
            exact ⟨fun he => h0 (Or.inl he), fun he => h0 (Or.inr he), hpd,
              hp x (List.mem_cons_self x rest)⟩
        · rw [if_neg h2]
          by_cases h3 : acc ≠ []
          · rw [if_pos h3]
            intro x hx
            exact ha x (List.dropLast_subset acc hx)
          · rw [if_neg h3]; exact ha

theorem leadSlashCount_pos (q : String) (h : strStarts q "/" = true) :
    leadSlashCount q = 1 ∨ leadSlashCount q = 2 := by
  unfold leadSlashCount
  rw [if_pos h]
  by_cases h2 : strStarts q "//" = true ∧ ¬ strStarts q "///" = true
  · rw [if_pos h2]; right; rfl
  · rw [if_neg h2]; left; rfl

theorem leadSlashCount_one (x : Char) (hx : x ≠ '/') (r : List Char) :
    leadSlashCount ⟨'/' :: x :: r⟩ = 1 := by
  have h1 : strStarts ⟨'/' :: x :: r⟩ "/" = true := rfl
  have h2 : strStarts ⟨'/' :: x :: r⟩ "//" = false := by
    show List.isPrefixOf ['/', '/'] ('/' :: x :: r) = false
    simp [List.isPrefixOf]
    exact fun he => hx he.symm
  unfold leadSlashCount
  rw [if_pos h1, if_neg]
  intro hc
  rw [h2] at hc
  exact absurd hc.1 (by simp)

theorem leadSlashCount_two (x : Char) (hx : x ≠ '/') (r : List Char) :
    leadSlashCount ⟨'/' :: '/' :: x :: r⟩ = 2 := by
  have h2 : strStarts ⟨'/' :: '/' :: x :: r⟩ "//" = true := rfl
  have h3 : strStarts ⟨'/' :: '/' :: x :: r⟩ "///" = false := by
    show List.isPrefixOf ['/', '/', '/'] ('/' :: '/' :: x :: r) = false
    simp [List.isPrefixOf]
    exact fun he => hx he.symm
  unfold leadSlashCount
  rw [if_pos (show strStarts ⟨'/' :: '/' :: x :: r⟩ "/" = true from rfl), if_pos]
  exact ⟨h2, by rw [h3]; simp⟩

theorem shape_ne_empty (sl : Nat) (hsl : sl = 1 ∨ sl = 2) (j : String) :
    mkSlashes sl ++ j ≠ "" := by
  intro he
  have hd : (mkSlashes sl ++ j).data = [] := by rw [he]
  rw [String.data_append, List.append_eq_nil] at hd
  rcases hsl with rfl | rfl
  · exact absurd hd.1 (by decide)
  · exact absurd hd.1 (by decide)

theorem shape_not_ends_slash (sl : Nat) (comps : List String) (hg : goodComps comps)
    (hne : comps ≠ []) :
    strEndsChar (mkSlashes sl ++ joinComps comps) '/' = false := by
  have hj : (joinComps comps).data ≠ [] := joinComps_data_ne_nil comps hg hne
  unfold strEndsChar
  rw [String.data_append, List.getLast?_append_of_ne_nil _ hj]
  exact decide_eq_false (joinComps_last_not_slash comps hg hne)

theorem strStarts_slash_false (s : String) (y : Char) (ys : List Char)
    (hys : s.data = y :: ys) (hy : y ≠ '/') : strStarts s "/" = false := by
  show List.isPrefixOf ['/'] s.data = false
  rw [hys]
  simp [List.isPrefixOf]
  exact fun he => hy he.symm

theorem strStarts_slash_true (s : String) (ys : List Char) (hys : s.data = '/' :: ys) :
    strStarts s "/" = true := by
  rw [strStarts_slash_iff, hys]
  rfl

theorem string_append_empty (a : String) : a ++ "" = a := by
  cases a with
  | mk l => exact congrArg String.mk (List.append_nil l)

theorem map_mk_data (l : List String) :
    (l.map String.data).map (fun d => (⟨d⟩ : String)) = l := by
  induction l with
  | nil => rfl
  | cons a t ih => simp [ih]

theorem normpath_concrete (t : String) (sl : Nat) (hsl : sl = 1 ∨ sl = 2)
    (hlead : leadSlashCount t = sl)
    (goods : List String) (hg : ∀ g ∈ goods, goodComp g)
    (hsplit : pySplit '/' t = List.replicate sl "" ++ goods)
    (hne : t ≠ "") :
    normpath t = mkSlashes sl ++ joinComps goods := by
  unfold normpath
  rw [if_neg hne]
  simp only []
  rw [hlead, hsplit]
  unfold normpathComps
  rw [List.foldl_append, foldl_normStep_replicate, foldl_normStep_good sl goods [] hg,
    if_neg (shape_ne_empty sl hsl _), List.nil_append]

theorem mk_data (s : String) : (⟨s.data⟩ : String) = s := rfl

theorem mkSlashes_data (sl : Nat) (hsl : sl = 1 ∨ sl = 2) :
    (mkSlashes sl).data = List.replicate sl '/' := by
  rcases hsl with rfl | rfl
  · decide
  · decide

theorem str_ne_empty_of_data_replicate (t : String) (sl : Nat) (hsl : sl = 1 ∨ sl = 2)
    (l : List Char) (hd : t.data = List.replicate sl '/' ++ l) : t ≠ "" := by
  intro he
  rw [he] at hd
  have hd2 : ([] : List Char) = List.replicate sl '/' ++ l := hd
  rcases hsl with rfl | rfl <;> simp at hd2

theorem splitChar_replicate_sep (n : Nat) (L : List Char) :
    splitChar '/' (List.replicate n '/' ++ L) = List.replicate n [] ++ splitChar '/' L := by
  induction n with
  | zero => rfl
  | succ m ih =>
      rw [List.replicate_succ, List.cons_append,
        show splitChar '/' ('/' :: (List.replicate m '/' ++ L)) =
            [] :: splitChar '/' (List.replicate m '/' ++ L) by simp [splitChar],
        ih, List.replicate_succ]
      rfl

theorem leadSlashCount_shape (t : String) (sl : Nat) (hsl : sl = 1 ∨ sl = 2)
    (z : Char) (hz : z ≠ '/') (zs : List Char)
    (hd : t.data = List.replicate sl '/' ++ z :: zs) :
    leadSlashCount t = sl := by
  have hmk : t = ⟨List.replicate sl '/' ++ z :: zs⟩ := by rw [← hd]
  rcases hsl with rfl | rfl
  · rw [hmk]; exact leadSlashCount_one z hz zs
  · rw [hmk]; exact leadSlashCount_two z hz zs

theorem pySplit_shape (t : String) (sl : Nat)
    (comps : List String) (hg : goodComps comps) (hne : comps ≠ [])
    (s : String) (hs : '/' ∉ s.data)
    (hd : t.data = List.replicate sl '/' ++ ((joinComps comps).data ++ '/' :: s.data)) :
    pySplit '/' t = List.replicate sl "" ++ (comps ++ [s]) := by
  unfold pySplit
  rw [hd, splitChar_replicate_sep, splitChar_append_sep, splitChar_joinComps comps hg hne,
    splitChar_of_not_mem '/' s.data hs]
  simp [List.map_append, List.map_replicate, mk_data]
  rw [show ((fun l => (⟨l⟩ : String)) ∘ String.data) = id from funext (fun x => rfl),
    List.map_id]

theorem pySplit_shape_nil (t : String) (sl : Nat)
    (s : String) (hs : '/' ∉ s.data)
    (hd : t.data = List.replicate sl '/' ++ s.data) :
    pySplit '/' t = List.replicate sl "" ++ [s] := by
  unfold pySplit
  rw [hd, splitChar_replicate_sep, splitChar_of_not_mem '/' s.data hs]
  simp [List.map_replicate, mk_data]

theorem normpath_shape_child (sl : Nat) (hsl : sl = 1 ∨ sl = 2) (comps : List String)
    (hg : goodComps comps) (s : String) (hs : goodComp s) :
    normpath (pjoin (mkSlashes sl ++ joinComps comps) s) =
      mkSlashes sl ++ joinComps (comps ++ [s]) := by
  obtain ⟨y, ys, hys⟩ : ∃ y ys, s.data = y :: ys := by
    cases hdc : s.data with
    | nil => exact absurd (by cases s; simp_all) hs.1
    | cons y ys => exact ⟨y, ys, rfl⟩
  have hy : y ≠ '/' := by
    intro he
    exact hs.2.2.2 (by rw [hys, he]; exact List.mem_cons_self '/' ys)
  have hsF : strStarts s "/" = false := strStarts_slash_false s y ys hys hy
  have hsd : ("/" : String).data = ['/'] := rfl
  cases comps with
  | nil =>
      have hbase : mkSlashes sl ++ joinComps ([] : List String) = mkSlashes sl :=
        string_append_empty _
      rw [hbase]
      have hpj : pjoin (mkSlashes sl) s = mkSlashes sl ++ s := by
        unfold pjoin
        rw [hsF, if_neg (by simp), if_pos]
        right
        rcases hsl with rfl | rfl
        · decide
        · decide
      rw [hpj]
      have hd : (mkSlashes sl ++ s).data = List.replicate sl '/' ++ s.data := by
        rw [String.data_append, mkSlashes_data sl hsl]
      have hd2 : (mkSlashes sl ++ s).data = List.replicate sl '/' ++ y :: ys := by
        rw [hd, hys]
      exact normpath_concrete (mkSlashes sl ++ s) sl hsl
        (leadSlashCount_shape _ sl hsl y hy ys hd2) [s]
        (fun g hgmem => by rw [List.mem_singleton.mp hgmem]; exact hs)
        (pySplit_shape_nil _ sl s hs.2.2.2 hd)
        (shape_ne_empty sl hsl s)
  | cons c rest =>
      have hcg : goodComp c := hg c (List.mem_cons_self c rest)
      obtain ⟨z, zs, hzc⟩ : ∃ z zs, c.data = z :: zs := by
        cases hdc : c.data with
        | nil => exact absurd (by cases c; simp_all) hcg.1
        | cons z zs => exact ⟨z, zs, rfl⟩
      have hz : z ≠ '/' := by
        intro he
        exact hcg.2.2.2 (by rw [hzc, he]; exact List.mem_cons_self '/' zs)
      obtain ⟨tl, htl⟩ := joinComps_head c rest
      have hpj : pjoin (mkSlashes sl ++ joinComps (c :: rest)) s =
          mkSlashes sl ++ joinComps (c :: rest) ++ "/" ++ s := by
        unfold pjoin
        rw [hsF, if_neg (by simp), if_neg]
        rintro (he | he)
        · exact shape_ne_empty sl hsl _ he
        · rw [shape_not_ends_slash sl (c :: rest) hg (by simp)] at he
          exact absurd he (by simp)
      rw [hpj]
      have hd : (mkSlashes sl ++ joinComps (c :: rest) ++ "/" ++ s).data =
          List.replicate sl '/' ++ ((joinComps (c :: rest)).data ++ '/' :: s.data) := by
        simp [String.data_append, mkSlashes_data sl hsl, hsd, List.append_assoc]
      have hd2 : (mkSlashes sl ++ joinComps (c :: rest) ++ "/" ++ s).data =
          List.replicate sl '/' ++ z :: (zs ++ (tl ++ '/' :: s.data)) := by
        rw [hd, htl, hzc]
        simp [List.append_assoc]
      exact normpath_concrete _ sl hsl
        (leadSlashCount_shape _ sl hsl z hz _ hd2) ((c :: rest) ++ [s])
        (fun g hgmem => by
          rcases List.mem_append.mp hgmem with hm | hm
          · exact hg g hm
          · rw [List.mem_singleton.mp hm]; exact hs)
        (pySplit_shape _ sl (c :: rest) hg (by simp) s hs.2.2.2 hd)
        (str_ne_empty_of_data_replicate _ sl hsl _ hd)

theorem normpath_abs_shape (q : String) (hq : strStarts q "/" = true) :
    ∃ sl comps, (sl = 1 ∨ sl = 2) ∧ goodComps comps ∧
      normpath q = mkSlashes sl ++ joinComps comps := by
  have hqne : q ≠ "" := by
    intro he; subst he; exact absurd hq (by decide)
  refine ⟨leadSlashCount q, normpathComps (leadSlashCount q) (pySplit '/' q),
    leadSlashCount_pos q hq, ?_, ?_⟩
  · unfold normpathComps
    exact foldl_normStep_good_inv (leadSlashCount q)
      (by rcases leadSlashCount_pos q hq with h | h <;> simp [h])
      (pySplit '/' q) []
      (fun p hp => by
        unfold pySplit at hp
        rcases List.mem_map.mp hp with ⟨l, hl, hpe⟩
        rw [← hpe]
        exact not_mem_of_mem_splitChar '/' q.data l hl)
      (fun x hx => absurd hx (List.not_mem_nil x))
  · unfold normpath
    rw [if_neg hqne]
    simp only []
    rw [if_neg (shape_ne_empty _ (leadSlashCount_pos q hq) _)]

theorem head?_append_left {l₁ l₂ : List Char} (h : l₁ ≠ []) :
    (l₁ ++ l₂).head? = l₁.head? := by
  cases l₁ with
  | nil => exact absurd rfl h
  | cons a t => rfl

theorem pjoin_starts_slash (cwd x : String) (hcwd : strStarts cwd "/" = true)
    (hx : strStarts x "/" = false) :
    strStarts (pjoin cwd x) "/" = true := by
  have hc : cwd.data.head? = some '/' := (strStarts_slash_iff cwd).mp hcwd
  have hcne : cwd.data ≠ [] := by intro he; rw [he] at hc; exact absurd hc (by simp)
  unfold pjoin
  rw [hx, if_neg (by simp)]
  by_cases h4 : cwd = "" ∨ strEndsChar cwd '/' = true
  · rw [if_pos h4, strStarts_slash_iff, String.data_append, head?_append_left hcne, hc]
  · rw [if_neg h4, strStarts_slash_iff, String.data_append, String.data_append,
      head?_append_left (fun he => hcne (List.append_eq_nil.mp he).1),
      head?_append_left hcne, hc]

theorem shape_starts_slash (sl : Nat) (hsl : sl = 1 ∨ sl = 2) (j : String) :
    strStarts (mkSlashes sl ++ j) "/" = true := by
  rw [strStarts_slash_iff, String.data_append, mkSlashes_data sl hsl]
  rcases hsl with rfl | rfl <;> rfl

theorem goodComp_data_cons (s : String) (hs : goodComp s) :
    ∃ y ys, s.data = y :: ys ∧ y ≠ '/' := by
  obtain ⟨y, ys, hys⟩ : ∃ y ys, s.data = y :: ys := by
    cases hdc : s.data with
    | nil => exact absurd (by cases s; simp_all) hs.1
    | cons y ys => exact ⟨y, ys, rfl⟩
  refine ⟨y, ys, hys, fun he => ?_⟩
  exact hs.2.2.2 (by rw [hys, he]; exact List.mem_cons_self '/' ys)

theorem abspath_join_shape (pe : PathEnv) (bp : String) (sl : Nat)
    (hsl : sl = 1 ∨ sl = 2) (comps : List String)
    (hg : goodComps comps) (hbp : bp = mkSlashes sl ++ joinComps comps)
    (s : String) (hs : goodComp s) :
    abspath pe.cwd (pjoin bp s) =
      (if strEndsChar bp '/' = true then bp ++ s else bp ++ "/" ++ s) := by
  obtain ⟨y, ys, hys, hy⟩ := goodComp_data_cons s hs
  have hsF : strStarts s "/" = false := strStarts_slash_false s y ys hys hy
  subst hbp
  unfold abspath
  rw [if_pos (pjoin_starts_slash _ s (shape_starts_slash sl hsl _) hsF),
    normpath_shape_child sl hsl comps hg s hs]
  cases comps with
  | nil =>
      rw [if_pos]
      · show mkSlashes sl ++ s = (mkSlashes sl ++ "") ++ s
        rw [string_append_empty]
      · show strEndsChar (mkSlashes sl ++ "") '/' = true
        rw [string_append_empty]
        rcases hsl with rfl | rfl
        · decide
        · decide
  | cons c rest =>
      rw [if_neg]
      · rw [joinComps_append_single (c :: rest) s (by simp)]
        simp [String.append_assoc]
      · rw [shape_not_ends_slash sl (c :: rest) hg (by simp)]
        simp

theorem append_tail_ne (bp s : String) (hs : s ≠ "") :
    bp ++ s ≠ bp ∧ bp ++ "/" ++ s ≠ bp := by
  have hsd : s.data ≠ [] := by intro he; exact hs (by cases s; simp_all)
  have hpos : 0 < s.data.length := List.length_pos.mpr hsd
  constructor
  · intro he
    have hlen := congrArg (fun t => t.data.length) he
    simp [String.data_append, hsd] at hlen
    exact hsd (List.length_eq_zero.mp hlen)
  · intro he
    have hlen := congrArg (fun t => t.data.length) he
    simp [String.data_append] at hlen

theorem ensureAbs_shape (pe : PathEnv) (hcwd : strStarts pe.cwd "/" = true)
    (x : Option String) (bp : String) (h : ensureAbsolutePath pe x = some bp) :
    ∃ sl comps, (sl = 1 ∨ sl = 2) ∧ goodComps comps ∧
      bp = mkSlashes sl ++ joinComps comps := by
  unfold ensureAbsolutePath at h
  cases x with
  | none => simp at h
  | some v =>
      simp only [] at h
      by_cases h1 : stripEnclosingQuotes (some v) = ""
      · rw [if_pos h1] at h; simp at h
      · rw [if_neg h1] at h
        by_cases h2 : expanduser pe.userhome (stripEnclosingQuotes (some v)) = ""
        · rw [if_pos h2] at h; simp at h
        · rw [if_neg h2] at h
          have hb : bp =
              abspath pe.cwd (expanduser pe.userhome (stripEnclosingQuotes (some v))) :=
            (Option.some.inj h).symm
          rw [hb]
          unfold abspath
          by_cases h3 :
              strStarts (expanduser pe.userhome (stripEnclosingQuotes (some v))) "/" = true
          · rw [if_pos h3]
            exact normpath_abs_shape _ h3
          · rw [if_neg h3]
            exact normpath_abs_shape _
              (pjoin_starts_slash pe.cwd _ hcwd (Bool.eq_false_iff.mpr h3))

theorem localBaseAndTarget_ok_inv (env : Env) (name : String) (settings : LocalSettings)
    (basePath targetPath : String)
    (h : localBaseAndTarget env name settings = .ok (basePath, targetPath)) :
    stripEnclosingQuotes settings.path ∈
      (parseLocalDirectoryConfig env.localDirsRaw).map
        (fun e => stripEnclosingQuotes (some e.path)) ∧
    ensureAbsolutePath env.pathEnv (some (stripEnclosingQuotes settings.path)) =
      some basePath ∧
    pyStrip name ≠ "" ∧ strHasChar '/' (pyStrip name) = false ∧
    pyStrip name ≠ "." ∧ pyStrip name ≠ ".." ∧
    targetPath = abspath env.pathEnv.cwd (pjoin basePath (pyStrip name)) ∧
    commonpath2 basePath targetPath = some basePath := by
  unfold localBaseAndTarget at h
  simp only [] at h
  repeat' split at h
  any_goals simp at h
  rename_i hdir hpath hmem xA base hens hisdir hname hsep hdots xB common hcp hroot
  obtain ⟨hb, ht⟩ := h
  subst hb
  subst ht
  refine ⟨not_not.mp hmem, hens, hname, Bool.eq_false_iff.mpr hsep,
    fun he => hdots (Or.inl he), fun he => hdots (Or.inr he), rfl, ?_⟩
  rw [hcp, not_not.mp hroot]

theorem not_mem_of_contains_false (c : Char) (l : List Char)
    (h : l.contains c = false) : c ∉ l := by
  intro hm
  have h2 : l.contains c = true := List.elem_eq_true_of_mem hm
  rw [h] at h2
  exact absurd h2 (by simp)

theorem buildRemotePlanLocal_error (env : Env) (name : String) (settings : LocalSettings)
    (ct cr : Option String) (e : RemoteErr)
    (h : localBaseAndTarget env name settings = .error e) :
    buildRemotePlanLocal env name settings ct cr = .error e := by
  unfold buildRemotePlanLocal
  rw [h]

theorem localBaseAndTarget_badname (env : Env) (name : String) (settings : LocalSettings)
    (hbad : strHasChar '/' (pyStrip name) = true ∨ pyStrip name = "." ∨ pyStrip name = "..") :
    ∃ e, localBaseAndTarget env name settings = .error e := by
  cases hB : localBaseAndTarget env name settings with
  | error e => exact ⟨e, rfl⟩
  | ok bt =>
      obtain ⟨bp, tp⟩ := bt
      obtain ⟨-, -, -, hsep, hdot, hddot, -, -⟩ :=
        localBaseAndTarget_ok_inv env name settings bp tp hB
      rcases hbad with hb | hb | hb
      · rw [hsep] at hb; exact absurd hb (by simp)
      · exact absurd hb hdot
      · exact absurd hb hddot

theorem localBaseAndTarget_error_status (env : Env) (name : String)
    (settings : LocalSettings) (e : RemoteErr)
    (h : localBaseAndTarget env name settings = .error e)
    (hd : (parseLocalDirectoryConfig env.localDirsRaw).isEmpty = false) :
    e.status = 400 := by
  unfold localBaseAndTarget at h
  simp only [] at h
  repeat' split at h
  · rename_i hc
    rw [hc] at hd
    exact absurd hd (by simp)
  all_goals first
    | (injection h with h2; subst h2; rfl)
    | injection h

theorem fetchConfiguredRemotes_events (env : Env) :
    (fetchConfiguredRemotes env).2 = [Event.rclone ["listremotes"]] := by
  unfold fetchConfiguredRemotes
  cases env.run ["listremotes"] <;> rfl

/-! ### Claim C5 -/

/-- Claim C5: the local branch of `_build_remote_plan` rejects, with a
validation error, every remote name containing a path separator or equal
to `.` or `..` (with HTTP status 400 whenever local directories are
configured); every accepted pair has a common path equal to the chosen
base itself; every accepted target path is the base joined with the
stripped name — a path strictly inside a configured root directory; and
on such a rejected name the create route issues no external command
beyond the `listremotes` probe and leaves the store unchanged. -/
theorem c5_theorem :
    (∀ (env : Env) (name : String) (settings : LocalSettings) (ct cr : Option String),
      (strHasChar '/' (pyStrip name) = true ∨ pyStrip name = "." ∨ pyStrip name = "..") →
      ∃ e, buildRemotePlanLocal env name settings ct cr = Except.error e ∧
        ((parseLocalDirectoryConfig env.localDirsRaw).isEmpty = false → e.status = 400)) ∧
    (∀ (env : Env) (name : String) (settings : LocalSettings) (bp tp : String),
      localBaseAndTarget env name settings = Except.ok (bp, tp) →
      commonpath2 bp tp = some bp) ∧
    (∀ (env : Env) (name : String) (settings : LocalSettings) (ct cr : Option String)
        (p : RemotePlan),
      strStarts env.pathEnv.cwd "/" = true →
      buildRemotePlanLocal env name settings ct cr = Except.ok p →
      ∃ bp, p.localBasePath = some bp ∧
        bp ∈ (parseLocalDirectoryConfig env.localDirsRaw).filterMap
          (fun en => ensureAbsolutePath env.pathEnv
            (some (stripEnclosingQuotes (some en.path)))) ∧
        p.localTargetPath = some (if strEndsChar bp '/' = true then bp ++ pyStrip name
          else bp ++ "/" ++ pyStrip name) ∧
        pyStrip name ≠ "" ∧ strHasChar '/' (pyStrip name) = false ∧
        p.localTargetPath ≠ some bp) ∧
    (∀ (env : Env) (db : DB) (payload : CreatePayload),
      (strHasChar '/' (pyStrip (normalizeRemoteName payload.name)) = true ∨
        pyStrip (normalizeRemoteName payload.name) = "." ∨
        pyStrip (normalizeRemoteName payload.name) = "..") →
      (createRcloneRemote env (localBuilder env) db payload).2.1 = db ∧
      ∀ args, Event.rclone args ∈ (createRcloneRemote env (localBuilder env) db payload).2.2 →
        args = ["listremotes"]) := by
  refine ⟨?_, ?_, ?_, ?_⟩
  · intro env name settings ct cr hbad
    obtain ⟨e, he⟩ := localBaseAndTarget_badname env name settings hbad
    exact ⟨e, buildRemotePlanLocal_error env name settings ct cr e he,
      fun hd => localBaseAndTarget_error_status env name settings e he hd⟩
  · intro env name settings bp tp h
    exact (localBaseAndTarget_ok_inv env name settings bp tp h).2.2.2.2.2.2.2
  · intro env name settings ct cr p hcwd h
    unfold buildRemotePlanLocal at h
    cases hB : localBaseAndTarget env name settings with
    | error e => rw [hB] at h; exact absurd h (by simp)
    | ok bt =>
        obtain ⟨basePath, targetPath⟩ := bt
        simp only [hB] at h
        split at h
        · exact absurd h (by simp)
        · injection h with h2
          subst h2
          obtain ⟨hmem, hens, hname, hsep, hdot, hddot, htp, hcp⟩ :=
            localBaseAndTarget_ok_inv env name settings basePath targetPath hB
          have hsafe : goodComp (pyStrip name) :=
            ⟨hname, hdot, hddot, not_mem_of_contains_false '/' (pyStrip name).data hsep⟩
          obtain ⟨sl, comps, hsl, hgc, hbp⟩ :=
            ensureAbs_shape env.pathEnv hcwd _ basePath hens
          have htp2 : targetPath =
              (if strEndsChar basePath '/' = true then basePath ++ pyStrip name
                else basePath ++ "/" ++ pyStrip name) := by
            rw [htp, abspath_join_shape env.pathEnv basePath sl hsl comps hgc hbp
              (pyStrip name) hsafe]
          refine ⟨basePath, rfl, ?_, congrArg some htp2, hname, hsep, ?_⟩
          · rcases List.mem_map.mp hmem with ⟨en, hen, heq⟩
            exact List.mem_filterMap.mpr ⟨en, hen, by rw [heq]; exact hens⟩
          · intro hc
            have hc2 : targetPath = basePath := Option.some.inj hc
            rw [htp2] at hc2
            by_cases hE : strEndsChar basePath '/' = true
            · rw [if_pos hE] at hc2
              exact (append_tail_ne basePath (pyStrip name) hname).1 hc2
            · rw [if_neg hE] at hc2
              exact (append_tail_ne basePath (pyStrip name) hname).2 hc2
  · intro env db payload hbad
    have hout : ∃ resp evs,
        createRcloneRemote env (localBuilder env) db payload = (resp, db, evs) ∧
        ∀ args, Event.rclone args ∈ evs → args = ["listremotes"] := by
      unfold createRcloneRemote
      simp only []
      by_cases h1 : normalizeRemoteName payload.name = "" ∨
          pyLower (pyStrip (payload.rtype.getD "")) = ""
      · rw [if_pos h1]
        exact ⟨_, [], rfl, fun args hm => absurd hm (List.not_mem_nil _)⟩
      · rw [if_neg h1]
        by_cases h2 : ¬(pyLower (pyStrip (payload.rtype.getD "")) = "drive" ∨
            pyLower (pyStrip (payload.rtype.getD "")) = "onedrive" ∨
            pyLower (pyStrip (payload.rtype.getD "")) = "sftp" ∨
            pyLower (pyStrip (payload.rtype.getD "")) = "local")
        · rw [if_pos h2]
          exact ⟨_, [], rfl, fun args hm => absurd hm (List.not_mem_nil _)⟩
        · rw [if_neg h2]
          rcases hfe : fetchConfiguredRemotes env with ⟨res, evs⟩
          have hevs : evs = [Event.rclone ["listremotes"]] := by
            rw [← fetchConfiguredRemotes_events env, hfe]
          subst hevs
          cases res with
          | error exc =>
              cases exc with
              | op m st => exact ⟨_, _, rfl, fun args hm => by simpa using hm⟩
              | cpe a b => exact ⟨_, _, rfl, fun args hm => by simpa using hm⟩
              | runtime => exact ⟨_, _, rfl, fun args hm => by simpa using hm⟩
              | uncaught => exact ⟨_, _, rfl, fun args hm => by simpa using hm⟩
          | ok configured =>
              simp only []
              by_cases h3 : normalizeRemoteName payload.name ∈ configured
              · rw [if_pos h3]
                exact ⟨_, _, rfl, fun args hm => by simpa using hm⟩
              · rw [if_neg h3]
                by_cases h4 : (db.remotes.find? (fun r =>
                    r.name == normalizeRemoteName payload.name)).isSome = true
                · rw [if_pos h4]
                  exact ⟨_, _, rfl, fun args hm => by simpa using hm⟩
                · rw [if_neg h4]
                  by_cases hrt : pyLower (pyStrip (payload.rtype.getD "")) = "local"
                  · obtain ⟨e, he⟩ := localBaseAndTarget_badname env
                      (normalizeRemoteName payload.name) payload.settings hbad
                    have hlb : localBuilder env (normalizeRemoteName payload.name)
                        (pyLower (pyStrip (payload.rtype.getD ""))) payload.settings
                        none none = (Except.error e, []) := by
                      unfold localBuilder
                      rw [if_pos hrt,
                        buildRemotePlanLocal_error env (normalizeRemoteName payload.name)
                          payload.settings none none e he]
                    rw [hlb]
                    exact ⟨_, _, rfl, fun args hm => by simpa using hm⟩
                  · have hlb : localBuilder env (normalizeRemoteName payload.name)
                        (pyLower (pyStrip (payload.rtype.getD ""))) payload.settings
                        none none =
                        (Except.error ⟨"unsupported remote type", 400⟩, []) := by
                      unfold localBuilder
                      rw [if_neg hrt]
                    rw [hlb]
                    exact ⟨_, _, rfl, fun args hm => by simpa using hm⟩
    obtain ⟨resp, evs, he, hargs⟩ := hout
    rw [he]
    exact ⟨rfl, hargs⟩

/-- Witness for claim C5: the theorem applied at concrete inputs — the
rejected name `"a/b"`, the accepted name `"bar"` with base `/data`, and
the create route on the rejected name — discharging each hypothesis by
evaluation. -/
theorem c5_witness :
    (∃ e, buildRemotePlanLocal testEnv "a/b" ⟨some "/data"⟩ none none = Except.error e ∧
      ((parseLocalDirectoryConfig testEnv.localDirsRaw).isEmpty = false → e.status = 400)) ∧
    commonpath2 "/data" "/data/bar" = some "/data" ∧
    (∃ bp,
      (exceptOkD (buildRemotePlanLocal testEnv "bar" ⟨some "/data"⟩ none none)
        {}).localBasePath = some bp ∧
      bp ∈ (parseLocalDirectoryConfig testEnv.localDirsRaw).filterMap
        (fun en => ensureAbsolutePath testEnv.pathEnv
          (some (stripEnclosingQuotes (some en.path)))) ∧
      (exceptOkD (buildRemotePlanLocal testEnv "bar" ⟨some "/data"⟩ none none)
        {}).localTargetPath =
        some (if strEndsChar bp '/' = true then bp ++ pyStrip "bar"
          else bp ++ "/" ++ pyStrip "bar") ∧
      pyStrip "bar" ≠ "" ∧ strHasChar '/' (pyStrip "bar") = false ∧
      (exceptOkD (buildRemotePlanLocal testEnv "bar" ⟨some "/data"⟩ none none)
        {}).localTargetPath ≠ some bp) ∧
    ((createRcloneRemote testEnv (localBuilder testEnv) ⟨[], [], 1⟩
        ⟨some "a/b", some "local", ⟨some "/data"⟩⟩).2.1 = (⟨[], [], 1⟩ : DB) ∧
      ∀ args, Event.rclone args ∈ (createRcloneRemote testEnv (localBuilder testEnv)
        ⟨[], [], 1⟩ ⟨some "a/b", some "local", ⟨some "/data"⟩⟩).2.2 →
        args = ["listremotes"]) := by
  refine ⟨c5_theorem.1 testEnv "a/b" ⟨some "/data"⟩ none none (Or.inl (by decide)),
    c5_theorem.2.1 testEnv "bar" ⟨some "/data"⟩ "/data" "/data/bar" (by rfl),
    c5_theorem.2.2.1 testEnv "bar" ⟨some "/data"⟩ none none _ (by decide) (by rfl),
    c5_theorem.2.2.2 testEnv ⟨[], [], 1⟩ ⟨some "a/b", some "local", ⟨some "/data"⟩⟩
      (Or.inl (by decide))⟩

/-! ### Claim C2 -/

/-- Claim C2, counterexample: with `cleanup_on_error` set, a failure of
the main creation command raises the translated error with no
best-effort delete — no `config delete` command is issued (lines
610-615 have no cleanup block, unlike lines 620-630). -/
theorem c2_counterexample :
    executeRemotePlan mainFailEnv "x"
        { command := ["config", "create", "x"], cleanupOnError := true } =
      (Except.error (ExcE.op "failed to create remote" 400),
        [Event.rclone ["config", "create", "x"]]) ∧
    Event.rclone ["config", "delete", "x"] ∉
      (executeRemotePlan mainFailEnv "x"
        { command := ["config", "create", "x"], cleanupOnError := true }).2 := by
  constructor
  · rfl
  · decide

/-- Claim C2 (amended): a failure of the main creation command raises the
translated error directly, with no best-effort delete even when
`cleanup_on_error` is set; each post-step failure with
`cleanup_on_error` set issues the best-effort `config delete` before its
translated error; and the executor surfaces the post-step error with the
delete attempt in its trace. -/
theorem c2_theorem :
    (∀ (env : Env) (name : String) (plan : RemotePlan) (a b : String) (evs1 : List Event),
      runPre env plan.preCommands = (.ok (), evs1) →
      env.run plan.command = .err a b →
      executeRemotePlan env name plan =
        (.error (.op (translateMsg plan.errorTranslator
            (if errDetail a b ≠ "" then errDetail a b else "failed to create remote")) 400),
          evs1 ++ [Event.rclone plan.command])) ∧
    (∀ (env : Env) (name : String) (plan : RemotePlan) (c : List String)
        (rest : List (List String)) (a b : String),
      plan.cleanupOnError = true →
      env.run c = .err a b →
      runPost env name plan (c :: rest) =
        (.error (.op (translateMsg plan.errorTranslator
            (if errDetail a b ≠ "" then errDetail a b else "failed to create remote")) 400),
          Event.rclone c :: deleteRemoteSafely name)) ∧
    (∀ (env : Env) (name : String) (plan : RemotePlan) (o : String) (evs1 : List Event)
        (e : ExcE) (evs2 : List Event),
      runPre env plan.preCommands = (.ok (), evs1) →
      env.run plan.command = .ok o →
      runPost env name plan plan.postCommands = (.error e, evs2) →
      executeRemotePlan env name plan =
        (.error e, evs1 ++ [Event.rclone plan.command] ++ evs2)) := by
  refine ⟨?_, ?_, ?_⟩
  · intro env name plan a b evs1 h1 h2
    unfold executeRemotePlan
    rw [h1, h2]
  · intro env name plan c rest a b hcl h2
    unfold runPost
    rw [h2, hcl]
    simp
  · intro env name plan o evs1 e evs2 h1 h2 h3
    unfold executeRemotePlan
    rw [h1, h2, h3]

/-- Witness for claim C2: the amended theorem applied at concrete
environments — every command failing, and exactly the post command
failing — discharging each hypothesis by evaluation. -/
theorem c2_witness :
    executeRemotePlan mainFailEnv "y" { command := ["c"], cleanupOnError := true } =
      (Except.error (ExcE.op "failed to create remote" 400), [Event.rclone ["c"]]) ∧
    runPost postFailEnv "y"
        { command := ["c"], postCommands := [["post"]], cleanupOnError := true }
        [["post"]] =
      (Except.error (ExcE.op "boom" 400),
        [Event.rclone ["post"], Event.rclone ["config", "delete", "y"]]) ∧
    executeRemotePlan postFailEnv "y"
        { command := ["c"], postCommands := [["post"]], cleanupOnError := true } =
      (Except.error (ExcE.op "boom" 400),
        [Event.rclone ["c"], Event.rclone ["post"],
          Event.rclone ["config", "delete", "y"]]) := by
  refine ⟨?_, ?_, ?_⟩
  · have h := c2_theorem.1 mainFailEnv "y"
      { command := ["c"], cleanupOnError := true } "" "" [] (by rfl) (by rfl)
    rw [h]
    rfl
  · have h := c2_theorem.2.1 postFailEnv "y"
      { command := ["c"], postCommands := [["post"]], cleanupOnError := true }
      ["post"] [] "boom" "" (by rfl) (by rfl)
    rw [h]
    rfl
  · have h := c2_theorem.2.2 postFailEnv "y"
      { command := ["c"], postCommands := [["post"]], cleanupOnError := true }
      "" [] (ExcE.op "boom" 400)
      [Event.rclone ["post"], Event.rclone ["config", "delete", "y"]]
      (by rfl) (by rfl) (by rfl)
    rw [h]
    rfl

/-! ### Claim C3 -/

theorem restore_char (env : Env) (db : DB) (rn bn : String) :
    (restoreRemoteBackup env db rn bn).1 =
      (match (loadRemoteConfiguration env db bn).1 with
        | .error .uncaught => .error .uncaught
        | .error _ => .ok false
        | .ok none => .ok false
        | .ok (some cfg) =>
            if cfg = [] then .ok false
            else
              match env.run ["config", "delete", rn] with
              | .missing => .ok false
              | _ =>
                  match (applyRemoteConfiguration env rn cfg).1 with
                  | .ok _ => .ok true
                  | .error _ => .ok false) := by
  unfold restoreRemoteBackup
  rcases hL : loadRemoteConfiguration env db bn with ⟨res, evs⟩
  cases res with
  | error e => cases e <;> rfl
  | ok cfgO =>
      cases cfgO with
      | none => rfl
      | some cfg =>
          by_cases hc : cfg = []
          · simp [hc]
          · simp only [if_neg hc]
            cases hrun : env.run ["config", "delete", rn] with
            | missing => simp [hrun]
            | ok o =>
                rcases hA : applyRemoteConfiguration env rn cfg with ⟨ra, evs2⟩
                cases ra <;> simp [hrun, hA]
            | err a b =>
                rcases hA : applyRemoteConfiguration env rn cfg with ⟨ra, evs2⟩
                cases ra <;> simp [hrun, hA]

/-- Claim C3, counterexample: when the stored `config dump` output parses
to a JSON array, `payload.get` raises an `AttributeError` that
`_restore_remote_backup` does not catch — the restore operation raises
instead of returning a boolean. -/
theorem c3_counterexample :
    (restoreRemoteBackup arrDumpEnv ⟨[], [], 1⟩ "r" "b").1 = .error .uncaught := by
  rfl

/-- Claim C3 (amended): the only exception that escapes
`_restore_remote_backup` is the `AttributeError` raised inside
`_load_remote_configuration` on a non-object configuration dump; apart
from that case the operation returns a boolean, returning `True` exactly
when a non-empty backup configuration was loaded, the external tool was
present for the intermediate delete, and the recreation succeeded; an
intermediate delete failing with a `CalledProcessError` is ignored. -/
theorem c3_theorem :
    (∀ (env : Env) (db : DB) (rn bn : String) (e : ExcE),
      (restoreRemoteBackup env db rn bn).1 = .error e →
      e = .uncaught ∧ (loadRemoteConfiguration env db bn).1 = .error .uncaught) ∧
    (∀ (env : Env) (db : DB) (rn bn : String),
      (restoreRemoteBackup env db rn bn).1 = .ok true ↔
      ∃ cfg, (loadRemoteConfiguration env db bn).1 = .ok (some cfg) ∧ cfg ≠ [] ∧
        env.run ["config", "delete", rn] ≠ .missing ∧
        (applyRemoteConfiguration env rn cfg).1 = .ok ()) ∧
    (∀ (env : Env) (db : DB) (rn bn : String) (cfg : List (String × String)) (a b : String),
      (loadRemoteConfiguration env db bn).1 = .ok (some cfg) → cfg ≠ [] →
      env.run ["config", "delete", rn] = .err a b →
      (applyRemoteConfiguration env rn cfg).1 = .ok () →
      (restoreRemoteBackup env db rn bn).1 = .ok true) := by
  refine ⟨?_, ?_, ?_⟩
  · intro env db rn bn e h
    rw [restore_char] at h
    repeat' split at h
    all_goals try simp at h
    subst h
    exact ⟨rfl, by assumption⟩
  · intro env db rn bn
    constructor
    · intro h
      rw [restore_char] at h
      repeat' split at h
      all_goals try simp at h
      rename_i xA cfg hload hc xB hmiss xC u happ
      exact ⟨cfg, hload, hc, fun hm => hmiss hm, happ⟩
    · rintro ⟨cfg, hload, hc, hrun, hA⟩
      rw [restore_char, hload]
      simp only [if_neg hc]
      cases hrc : env.run ["config", "delete", rn] with
      | missing => exact absurd hrc hrun
      | ok o => simp [hA]
      | err a b => simp [hA]
  · intro env db rn bn cfg a b hload hc hrun hA
    rw [restore_char, hload]
    simp only [if_neg hc]
    rw [hrun]
    simp [hA]

/-- Witness for claim C3: the amended theorem applied at concrete
environments — the array-dump store, a successful restore, and a restore
whose intermediate delete fails — discharging each hypothesis by
evaluation. -/
theorem c3_witness :
    (ExcE.uncaught = ExcE.uncaught ∧
      (loadRemoteConfiguration arrDumpEnv ⟨[], [], 1⟩ "b").1 = .error .uncaught) ∧
    (restoreRemoteBackup snapEnv snapDb "r" "s").1 = .ok true ∧
    (restoreRemoteBackup delFailEnv snapDb "r" "s").1 = .ok true := by
  refine ⟨c3_theorem.1 arrDumpEnv ⟨[], [], 1⟩ "r" "b" ExcE.uncaught (by rfl), ?_, ?_⟩
  · exact (c3_theorem.2.1 snapEnv snapDb "r" "s").mpr
      ⟨[("type", "local"), ("remote", "/x")], by rfl, by decide, by decide, by rfl⟩
  · exact c3_theorem.2.2 delFailEnv snapDb "r" "s"
      [("type", "local"), ("remote", "/x")] "x" "" (by rfl) (by decide) (by decide) (by rfl)

/-! ### Claim C4 -/

/-- Claim C4, counterexample: remote `r` has a persisted snapshot that
parses as a JSON object and contains a `type` key — but its value is the
empty string, so `payload.get("type")` is falsy and the loader still
queries the external tool's configuration dump. -/
theorem c4_counterexample :
    (loadRemoteConfiguration snapEnv snapDb "r").2 = [Event.rclone ["config", "dump"]] ∧
    (jGet [("type", JVal.str "")] "type").isSome = true ∧
    (snapDb.remotes.find? (fun r => r.name == pyStrip "r")).isSome = true := by
  refine ⟨rfl, ?_, ?_⟩
  · rfl
  · rfl

/-- Claim C4 (amended): the loader prefers the persisted snapshot exactly
when it is non-empty, parses as a JSON object, and its `type` value is
truthy — a present but falsy `type` (such as the empty string) falls
through to the tool's configuration dump; and cloning a name unknown in
both sources fails with a 400 error rather than producing an empty
snapshot. -/
theorem c4_theorem :
    (∀ (env : Env) (db : DB) (rn : String) (row : RemoteRow)
        (fields : List (String × JVal)),
      pyStrip rn ≠ "" →
      db.remotes.find? (fun r => r.name == pyStrip rn) = some row →
      pyStrip (row.config.getD "") ≠ "" →
      env.parseJson (row.config.getD "") = some (.obj fields) →
      (jGet fields "type").elim false jTruthy = true →
      loadRemoteConfiguration env db rn = (.ok (some (configOfFields fields)), [])) ∧
    (∀ (env : Env) (db : DB) (rn : String) (row : RemoteRow)
        (fields : List (String × JVal)),
      pyStrip rn ≠ "" →
      db.remotes.find? (fun r => r.name == pyStrip rn) = some row →
      pyStrip (row.config.getD "") ≠ "" →
      env.parseJson (row.config.getD "") = some (.obj fields) →
      (jGet fields "type").elim false jTruthy = false →
      (loadRemoteConfiguration env db rn).2 = [Event.rclone ["config", "dump"]]) ∧
    (∀ (env : Env) (db : DB) (src tgt : String) (em : Option String) (evs : List Event),
      loadRemoteConfiguration env db src = (.ok none, evs) →
      cloneRemoteConfiguration env db src tgt em =
        (.error (.op (em.getD "No se pudo replicar la configuración del remote.") 400),
          evs)) := by
  refine ⟨?_, ?_, ?_⟩
  · intro env db rn row fields h1 hfind h3 h4 h5
    unfold loadRemoteConfiguration
    simp only []
    rw [if_neg h1]
    simp [hfind, h3, h4, h5]
  · intro env db rn row fields h1 hfind h3 h4 h5
    unfold loadRemoteConfiguration
    simp only []
    rw [if_neg h1]
    simp only [hfind, h3, h4, h5]
    rw [if_pos h3,
      show (if false = true then some (configOfFields fields) else none) = none from rfl]
    repeat' split
    all_goals try rfl
    all_goals simp_all
  · intro env db src tgt em evs h
    unfold cloneRemoteConfiguration
    rw [h]

/-- Witness for claim C4: the theorem applied at `snapEnv`/`snapDb` —
remote `s` with a truthy snapshot type, remote `r` with a falsy one, and
the unknown name `u` — discharging each hypothesis by evaluation. -/
theorem c4_witness :
    loadRemoteConfiguration snapEnv snapDb "s" =
      (.ok (some [("type", "local"), ("remote", "/x")]), []) ∧
    (loadRemoteConfiguration snapEnv snapDb "r").2 =
      [Event.rclone ["config", "dump"]] ∧
    cloneRemoteConfiguration snapEnv snapDb "u" "t" none =
      (.error (.op "No se pudo replicar la configuración del remote." 400),
        [Event.rclone ["config", "dump"]]) := by
  refine ⟨?_, ?_, ?_⟩
  · have h := c4_theorem.1 snapEnv snapDb "s" ⟨2, "s", some "local", none, none, some "cfg-local"⟩
      [("type", JVal.str "local"), ("remote", JVal.str "/x")]
      (by decide) (by rfl) (by decide) (by rfl) (by rfl)
    rw [h]
    rfl
  · exact c4_theorem.2.1 snapEnv snapDb "r" ⟨1, "r", some "local", none, none, some "cfg-empty-type"⟩
      [("type", JVal.str "")]
      (by decide) (by rfl) (by decide) (by rfl) (by rfl)
  · exact c4_theorem.2.2 snapEnv snapDb "u" "t" none [Event.rclone ["config", "dump"]] (by rfl)

/-! ### Claim C6 -/

theorem updatePersist_apps (db : DB) (nn tn rt : String) (rv su cp : Option String) :
    (updatePersist db nn tn rt rv su cp).apps =
      (if tn ≠ nn then
          db.apps.map (fun a =>
            if a.rcloneRemote = some (normalizeRemote nn) then
              { a with rcloneRemote := some (normalizeRemote tn) }
            else a)
        else db.apps) := rfl

/-- Claim C6: a successful update renaming `nn` to `tn` rewrites, in the
same store transaction that persists the descriptor change, exactly the
app rows whose `rclone_remote` equals the normalized old remote to the
normalized new remote, leaving all other app rows unchanged. -/
theorem c6_theorem :
    (∀ (db : DB) (nn tn rt : String) (rv su cp : Option String),
      (tn ≠ nn →
        (updatePersist db nn tn rt rv su cp).apps =
          db.apps.map (fun a =>
            if a.rcloneRemote = some (normalizeRemote nn) then
              { a with rcloneRemote := some (normalizeRemote tn) }
            else a)) ∧
      (tn = nn → (updatePersist db nn tn rt rv su cp).apps = db.apps)) ∧
    (∀ (db : DB) (nn tn rt : String) (rv su cp : Option String) (i : Nat),
      (updatePersist db nn tn rt rv su cp).apps[i]? =
        (db.apps[i]?).map (fun a =>
          if tn ≠ nn ∧ a.rcloneRemote = some (normalizeRemote nn) then
            { a with rcloneRemote := some (normalizeRemote tn) }
          else a)) ∧
    (∀ (env : Env) (db : DB) (nn tn rt : String) (sr : Option String) (plan : RemotePlan)
        (r : Resp) (d : DB) (tr : List Event),
      updateCore env db nn tn rt sr plan = (r, d, tr) → d ≠ db →
      r.status = 200 ∧ ∃ rv su cp, d = updatePersist db nn tn rt rv su cp) := by
  refine ⟨?_, ?_, ?_⟩
  · intro db nn tn rt rv su cp
    refine ⟨fun h => ?_, fun h => ?_⟩
    · rw [updatePersist_apps, if_pos h]
    · rw [updatePersist_apps, if_neg (fun hc => hc h)]
  · intro db nn tn rt rv su cp i
    rw [updatePersist_apps]
    by_cases h : tn ≠ nn
    · rw [if_pos h, List.getElem?_map]
      cases db.apps[i]? with
      | none => rfl
      | some a =>
          by_cases h2 : a.rcloneRemote = some (normalizeRemote nn)
          · simp [h, h2]
          · simp [h, h2]
    · rw [if_neg h]
      cases db.apps[i]? with
      | none => rfl
      | some a => simp [h]
  · intro env db nn tn rt sr plan r d tr h hd
    unfold updateCore updateExecutePhase at h
    simp only [] at h
    repeat' split at h
    all_goals injection h with hR hDT
    all_goals injection hDT with hD hT
    all_goals first
      | exact absurd hD.symm hd
      | exact ⟨by rw [← hR], _, _, _, hD.symm⟩

/-- Witness for claim C6: the theorem applied at a store with app rows
`foo:` and `x:` and at a concrete successful rename from `foo` to `bar`,
discharging each hypothesis by evaluation. -/
theorem c6_witness :
    (updatePersist renameDb "foo" "bar" "local" (some "/data/bar") none (some "snap")).apps =
      renameDb.apps.map (fun a =>
        if a.rcloneRemote = some (normalizeRemote "foo") then
          { a with rcloneRemote := some (normalizeRemote "bar") }
        else a) ∧
    ((updateCore snapEnv renameDb "foo" "bar" "local" (some "/data/foo") renamePlan).1.status
        = 200 ∧
      ∃ rv su cp,
        (updateCore snapEnv renameDb "foo" "bar" "local" (some "/data/foo") renamePlan).2.1 =
          updatePersist renameDb "foo" "bar" "local" rv su cp) := by
  refine ⟨(c6_theorem.1 renameDb "foo" "bar" "local" (some "/data/bar") none
    (some "snap")).1 (by decide), ?_⟩
  exact c6_theorem.2.2 snapEnv renameDb "foo" "bar" "local" (some "/data/foo") renamePlan
    _ _ _ (by rfl) (by decide)

/-! ### Claim C9 -/

/-- Claim C9: when the requested normalized name already exists in the
external tool's configured remote list or in the persisted store, the
create route returns the 400 conflict error, leaves the store unchanged,
and issues no command beyond the `listremotes` probe — the builder is
never consulted and no creation command is run. -/
theorem c9_theorem (env : Env) (builder : BuilderFn) (db : DB) (payload : CreatePayload)
    (configured : List String) (evs : List Event)
    (hnm : normalizeRemoteName payload.name ≠ "")
    (hrtv : pyLower (pyStrip (payload.rtype.getD "")) = "drive" ∨
      pyLower (pyStrip (payload.rtype.getD "")) = "onedrive" ∨
      pyLower (pyStrip (payload.rtype.getD "")) = "sftp" ∨
      pyLower (pyStrip (payload.rtype.getD "")) = "local")
    (hfetch : fetchConfiguredRemotes env = (.ok configured, evs))
    (hconf : normalizeRemoteName payload.name ∈ configured ∨
      (db.remotes.find? (fun r => r.name == normalizeRemoteName payload.name)).isSome = true) :
    createRcloneRemote env builder db payload =
      (errResp "Ya existe un remote con ese nombre." 400, db,
        [Event.rclone ["listremotes"]]) := by
  have hevs : evs = [Event.rclone ["listremotes"]] := by
    rw [← fetchConfiguredRemotes_events env, hfetch]
  subst hevs
  have hrtne : pyLower (pyStrip (payload.rtype.getD "")) ≠ "" := by
    rcases hrtv with h | h | h | h <;> rw [h] <;> decide
  unfold createRcloneRemote
  simp only []
  rw [if_neg (by rintro (hc | hc); exacts [hnm hc, hrtne hc]),
    if_neg (not_not_intro hrtv)]
  simp only [hfetch]
  rcases hconf with hmem | hfind
  · rw [if_pos hmem]
  · by_cases hmem : normalizeRemoteName payload.name ∈ configured
    · rw [if_pos hmem]
    · rw [if_neg hmem, if_pos hfind]

/-- Witness for claim C9: the theorem applied at a name conflicting with
the configured list (`dup` reported by `listremotes`) and at a name
conflicting with the persisted store, discharging each hypothesis by
evaluation. -/
theorem c9_witness :
    createRcloneRemote dupEnv (localBuilder dupEnv) ⟨[], [], 1⟩
        ⟨some "dup", some "local", ⟨none⟩⟩ =
      (errResp "Ya existe un remote con ese nombre." 400, (⟨[], [], 1⟩ : DB),
        [Event.rclone ["listremotes"]]) ∧
    createRcloneRemote testEnv (localBuilder testEnv)
        ⟨[⟨1, "dup2", some "local", none, none, none⟩], [], 2⟩
        ⟨some "dup2", some "local", ⟨none⟩⟩ =
      (errResp "Ya existe un remote con ese nombre." 400,
        (⟨[⟨1, "dup2", some "local", none, none, none⟩], [], 2⟩ : DB),
        [Event.rclone ["listremotes"]]) := by
  constructor
  · exact c9_theorem dupEnv (localBuilder dupEnv) ⟨[], [], 1⟩
      ⟨some "dup", some "local", ⟨none⟩⟩ ["dup"] [Event.rclone ["listremotes"]]
      (by decide) (Or.inr (Or.inr (Or.inr (by decide)))) (by rfl) (Or.inl (by decide))
  · exact c9_theorem testEnv (localBuilder testEnv)
      ⟨[⟨1, "dup2", some "local", none, none, none⟩], [], 2⟩
      ⟨some "dup2", some "local", ⟨none⟩⟩ [] [Event.rclone ["listremotes"]]
      (by decide) (Or.inr (Or.inr (Or.inr (by decide)))) (by rfl) (Or.inr (by decide))

/-! ### Claim C7 -/

/-- Claim C7: when the purge of the quarantine path fails after the
external entry was deleted, the delete route moves the quarantine folder
back to its original path, attempts to restore the configuration from
the pre-delete backup, leaves the persisted store unchanged, and answers
400 with a restored-configuration message when the restore succeeded and
500 otherwise; and a successful quarantine move followed by a successful
external-entry deletion hands off to exactly this purge phase. -/
theorem c7_theorem :
    (∀ (env : Env) (db : DB) (nn tp dc : String) (lp : Option String) (b : String)
        (evsPre evsP evsR evsB : List Event) (purgeError : String) (st : Nat)
        (restoreError : Option String) (restored : Bool),
      tp ≠ "" → dc ≠ "" →
      purgeDrivePath env tp = (.error (.op purgeError st), evsP) →
      restoreDrivePath env tp dc = (.ok restoreError, evsR) →
      restoreRemoteBackup env db nn b = (.ok restored, evsB) →
      deletePurgeAndFinish env db nn true (some tp) dc lp (some b) evsPre =
        (errResp
          ((match restoreError with
            | some re => pyStrip (purgeError ++ " " ++ re)
            | none => purgeError) ++
            (if restored then " La configuración original del remote se restauró."
              else " No se pudo restaurar la configuración original."))
          (if restored then 400 else 500),
          db, evsPre ++ evsP ++ evsR ++ evsB ++ deleteRemoteSafely b)) ∧
    (∀ (env : Env) (db : DB) (nn dc : String) (lp : Option String) (bn : Option String)
        (evsPre : List Event) (tp : String) (evsM : List Event) (o : String),
      dc ≠ "" →
      buildDriveTempPath env dc = some tp →
      moveDrivePath env dc tp = (.ok (), evsM) →
      env.run ["config", "delete", nn] = .ok o →
      deleteMainPhase env db nn (some "drive") dc lp bn evsPre =
        deletePurgeAndFinish env db nn true (some tp) dc lp bn
          (evsPre ++ evsM ++ [Event.rclone ["config", "delete", nn]])) := by
  constructor
  · intro env db nn tp dc lp b evsPre evsP evsR evsB purgeError st restoreError restored
      htp hdc hpurge hrestore hrb
    unfold deletePurgeAndFinish
    rw [if_pos ⟨rfl, htp, hdc⟩]
    simp only [Option.getD_some]
    rw [hpurge]
    simp only [hrestore, hrb]
    cases restored <;> simp
  · intro env db nn dc lp bn evsPre tp evsM o hdc hbuild hmove hdel
    unfold deleteMainPhase
    simp only []
    rw [if_pos ⟨trivial, hdc⟩]
    simp only [hbuild, hmove, hdel]

/-- Witness for claim C7: the theorem applied at a concrete drive-folder
deletion whose purge fails, with the backup restore succeeding,
discharging each hypothesis by evaluation. -/
theorem c7_witness :
    deletePurgeAndFinish purgeFailEnv backupDb "nn" true (some "gdrive:tmp") "gdrive:folder"
        none (some "__delete__x") [] =
      (errResp ("purge boom" ++ " La configuración original del remote se restauró.") 400,
        backupDb,
        [Event.rclone ["purge", "gdrive:tmp"],
          Event.rclone ["moveto", "gdrive:tmp", "gdrive:folder"],
          Event.rclone ["config", "delete", "nn"],
          Event.rclone ["config", "create", "--non-interactive", "nn", "local", "remote", "/x"],
          Event.rclone ["config", "delete", "__delete__x"]]) ∧
    deleteMainPhase purgeFailEnv backupDb "nn" (some "drive") "gdrive:folder" none
        (some "__delete__x") [] =
      deletePurgeAndFinish purgeFailEnv backupDb "nn" true
        (some "gdrive:__rollback__bbbbbbbb") "gdrive:folder" none (some "__delete__x")
        ([] ++ [Event.rclone ["moveto", "gdrive:folder", "gdrive:__rollback__bbbbbbbb"]] ++
          [Event.rclone ["config", "delete", "nn"]]) := by
  constructor
  · have h := c7_theorem.1 purgeFailEnv backupDb "nn" "gdrive:tmp" "gdrive:folder" none
      "__delete__x" [] [Event.rclone ["purge", "gdrive:tmp"]]
      [Event.rclone ["moveto", "gdrive:tmp", "gdrive:folder"]]
      [Event.rclone ["config", "delete", "nn"],
        Event.rclone ["config", "create", "--non-interactive", "nn", "local", "remote", "/x"]]
      "purge boom" 400 none true (by decide) (by decide) (by rfl) (by rfl) (by rfl)
    rw [h]
    rfl
  · exact c7_theorem.2 purgeFailEnv backupDb "nn" "gdrive:folder" none (some "__delete__x")
      [] "gdrive:__rollback__bbbbbbbb"
      [Event.rclone ["moveto", "gdrive:folder", "gdrive:__rollback__bbbbbbbb"]] "dump-out"
      (by decide) (by rfl) (by rfl) (by rfl)

/-! ### Claim C8 -/

theorem any_deleteRemoteSafely (bn : String) :
    (deleteRemoteSafely bn).any (deletesEntry bn) = true := by
  simp [deleteRemoteSafely, deletesEntry]

theorem load_no_create (env : Env) (db : DB) (rn bn : String) :
    ((loadRemoteConfiguration env db rn).2).any (createdEntry env bn) = false := by
  unfold loadRemoteConfiguration
  simp only []
  repeat' split
  all_goals simp [createdEntry]

theorem createdEntry_run_not_ok (env : Env) (bn : String) (args : List String)
    (h : ∀ o, env.run args ≠ .ok o) : createdEntry env bn (Event.rclone args) = false := by
  unfold createdEntry
  cases hr : env.run args with
  | ok o => exact absurd hr (h o)
  | err a b => simp
  | missing => simp

theorem apply_runtime_no_create (env : Env) (tgt : String) (cfg : List (String × String))
    (evs : List Event) (bn : String)
    (h : applyRemoteConfiguration env tgt cfg = (.error .runtime, evs)) :
    evs.any (createdEntry env bn) = false := by
  unfold applyRemoteConfiguration at h
  simp only [] at h
  split at h
  · simp at h
  · split at h
    · simp at h
    · simp at h
    · rename_i heq
      simp only [Prod.mk.injEq] at h
      rw [← h.2]
      simp only [List.any_cons, List.any_nil]
      rw [createdEntry_run_not_ok env bn _
        (fun o ho => by rw [heq] at ho; exact absurd ho (by simp))]
      rfl

theorem clone_runtime_no_create (env : Env) (db : DB) (src tgt : String)
    (em : Option String) (evs : List Event) (bn : String)
    (h : cloneRemoteConfiguration env db src tgt em = (.error .runtime, evs)) :
    evs.any (createdEntry env bn) = false := by
  have hload := load_no_create env db src bn
  unfold cloneRemoteConfiguration at h
  split at h
  · rename_i e evsL heq
    simp only [Prod.mk.injEq] at h
    rw [heq] at hload
    have hl2 : evsL.any (createdEntry env bn) = false := hload
    rw [← h.2]
    exact hl2
  · simp at h
  · rename_i config evsL heq
    rcases hA : applyRemoteConfiguration env tgt config with ⟨ra, evs2⟩
    rw [hA] at h
    simp only [Prod.mk.injEq] at h
    rw [heq] at hload
    have hl2 : evsL.any (createdEntry env bn) = false := hload
    cases ra with
    | ok u => exact absurd h.1 (by simp)
    | error e2 =>
        have he2 : e2 = ExcE.runtime := by simpa using h.1
        subst he2
        rw [← h.2, List.any_append, hl2,
          apply_runtime_no_create env tgt config evs2 bn hA]
        rfl

theorem updateLocalMovePhase_deletes (env : Env) (bn : String) (ltp lsp mm : Option String)
    (r : Resp) (evs : List Event)
    (h : updateLocalMovePhase env bn ltp lsp mm = .error (r, evs)) :
    evs.any (deletesEntry bn) = true := by
  unfold updateLocalMovePhase at h
  simp only [] at h
  repeat' split at h
  all_goals first
    | (injection h with h2; injection h2 with hR hE; rw [← hE];
       simp [List.any_append, deletesEntry, deleteRemoteSafely])
    | simp at h

theorem updateDrivePhase_deletes (env : Env) (bn rt : String) (plan : RemotePlan)
    (dtp dcp0 : String) (mm : Option String) (ltp : Option String) (lms : LocalMoveState)
    (r : Resp) (evs : List Event)
    (h : updateDrivePhase env bn rt plan dtp dcp0 mm ltp lms = .error (r, evs)) :
    evs.any (deletesEntry bn) = true := by
  unfold updateDrivePhase at h
  simp only [] at h
  repeat' split at h
  all_goals first
    | (injection h with h2; injection h2 with hR hE; rw [← hE];
       simp [List.any_append, deletesEntry, deleteRemoteSafely])
    | simp at h

theorem updateDeleteOldPhase_deletes (env : Env) (bn nn : String) (mm : Option String)
    (ltp : Option String) (lms : LocalMoveState) (dr : Bool) (dcp : String)
    (dopfr : Option String) (r : Resp) (evs : List Event)
    (h : updateDeleteOldPhase env bn nn mm ltp lms dr dcp dopfr = .error (r, evs)) :
    evs.any (deletesEntry bn) = true := by
  unfold updateDeleteOldPhase at h
  simp only [] at h
  repeat' split at h
  all_goals first
    | (injection h with h2; injection h2 with hR hE; rw [← hE];
       simp [List.any_append, deletesEntry, deleteRemoteSafely])
    | simp at h

theorem updateFailureRecovery_deletes (env : Env) (db : DB) (nn bn : String)
    (mm : Option String) (ltp : Option String) (lms : LocalMoveState) (dr : Bool)
    (dcp : String) (dopfr : Option String) (bm : String) (st : Nat) (nrm : String)
    (r : Resp) (evs : List Event)
    (h : updateFailureRecovery env db nn bn mm ltp lms dr dcp dopfr bm st nrm = (r, evs))
    (hr : r ≠ uncaughtResp) :
    evs.any (deletesEntry bn) = true := by
  unfold updateFailureRecovery at h
  simp only [] at h
  repeat' split at h
  all_goals first
    | (injection h with hR hE; exact absurd hR.symm hr)
    | (injection h with hR hE; rw [← hE];
       simp [List.any_append, deletesEntry, deleteRemoteSafely])

theorem updateFailureRecovery_deletes2 (env : Env) (db : DB) (nn bn : String)
    (mm : Option String) (ltp : Option String) (lms : LocalMoveState) (dr : Bool)
    (dcp : String) (dopfr : Option String) (bm : String) (st : Nat) (nrm : String)
    (hr : (updateFailureRecovery env db nn bn mm ltp lms dr dcp dopfr bm st nrm).1 ≠
      uncaughtResp) :
    ((updateFailureRecovery env db nn bn mm ltp lms dr dcp dopfr bm st nrm).2).any
      (deletesEntry bn) = true :=
  updateFailureRecovery_deletes env db nn bn mm ltp lms dr dcp dopfr bm st nrm
    ((updateFailureRecovery env db nn bn mm ltp lms dr dcp dopfr bm st nrm).1)
    ((updateFailureRecovery env db nn bn mm ltp lms dr dcp dopfr bm st nrm).2) rfl hr

theorem deleteLocalAndFinish_deletes (env : Env) (db : DB) (nn : String)
    (lp : Option String) (bn : String) (evsPre : List Event)
    (r : Resp) (d : DB) (tr : List Event)
    (h : deleteLocalAndFinish env db nn lp (some bn) evsPre = (r, d, tr))
    (hr : r ≠ uncaughtResp) :
    tr.any (deletesEntry bn) = true := by
  unfold deleteLocalAndFinish at h
  simp only [] at h
  repeat' split at h
  all_goals first
    | (injection h with hR hDT; exact absurd hR.symm hr)
    | (injection h with hR hDT; injection hDT with hD hT; rw [← hT];
       simp [List.any_append, deletesEntry, deleteRemoteSafely])

theorem deletePurgeAndFinish_deletes (env : Env) (db : DB) (nn : String) (dr : Bool)
    (dtp : Option String) (dcp : String) (lp : Option String) (bn : String)
    (evsPre : List Event) (r : Resp) (d : DB) (tr : List Event)
    (h : deletePurgeAndFinish env db nn dr dtp dcp lp (some bn) evsPre = (r, d, tr))
    (hr : r ≠ uncaughtResp) :
    tr.any (deletesEntry bn) = true := by
  unfold deletePurgeAndFinish at h
  repeat' split at h
  all_goals first
    | (exact deleteLocalAndFinish_deletes env db nn lp bn _ r d tr h hr)
    | (injection h with hR hDT; exact absurd hR.symm hr)
    | (injection h with hR hDT; injection hDT with hD hT; rw [← hT];
       simp [List.any_append, deletesEntry, deleteRemoteSafely])

theorem deleteMainPhase_deletes (env : Env) (db : DB) (nn : String)
    (st : Option String) (dcp : String) (lp : Option String) (bn : String)
    (evsPre : List Event) (r : Resp) (d : DB) (tr : List Event)
    (h : deleteMainPhase env db nn st dcp lp (some bn) evsPre = (r, d, tr))
    (hr : r ≠ uncaughtResp) :
    tr.any (deletesEntry bn) = true := by
  unfold deleteMainPhase at h
  simp only [] at h
  split at h
  next r0 evs0 heq =>
    injection h with hR hDT
    injection hDT with hD hT
    rw [← hT]
    repeat' split at heq
    all_goals first
      | (injection heq with heq2; injection heq2 with hR0 hE0;
         exact absurd (hR0.trans hR).symm hr)
      | (injection heq with heq2; injection heq2 with hR0 hE0;
         rw [← hE0]; simp [List.any_append, deletesEntry, deleteRemoteSafely])
      | simp at heq
  next trip heq =>
    repeat' split at h
    all_goals first
      | (exact deletePurgeAndFinish_deletes env db nn _ _ dcp lp bn _ r d tr h hr)
      | (injection h with hR hDT; exact absurd hR.symm hr)
      | (injection h with hR hDT; injection hDT with hD hT; rw [← hT];
         simp [List.any_append, deletesEntry, deleteRemoteSafely])

theorem updateCore_backup_deleted (env : Env) (db : DB) (nn tn rt : String)
    (sr : Option String) (plan : RemotePlan) (r : Resp) (d : DB) (tr : List Event)
    (h : updateCore env db nn tn rt sr plan = (r, d, tr))
    (hr : r ≠ uncaughtResp)
    (hc : tr.any (createdEntry env ("__backup__" ++ env.freshA)) = true) :
    tr.any (deletesEntry ("__backup__" ++ env.freshA)) = true := by
  unfold updateCore at h
  simp only [] at h
  split at h
  next rc heqc =>
    injection h with hR hDT
    injection hDT with hD hT
    rw [← hT] at hc
    simp at hc
  next heqc =>
    split at h
    next evsC heq =>
      injection h with hR hDT
      injection hDT with hD hT
      rw [← hT] at hc
      rw [clone_runtime_no_create env db nn _ _ evsC ("__backup__" ++ env.freshA) heq] at hc
      exact absurd hc (by simp)
    next m st evsC heq =>
      injection h with hR hDT
      injection hDT with hD hT
      rw [← hT]
      simp [List.any_append, deletesEntry, deleteRemoteSafely]
    next a b evsC heq =>
      injection h with hR hDT
      injection hDT with hD hT
      rw [← hT]
      simp [List.any_append, deletesEntry, deleteRemoteSafely]
    next evsC heq =>
      injection h with hR hDT
      exact absurd hR.symm hr
    next u evsC heq =>
      split at h
      next r0 evs0 heq2 =>
        injection h with hR hDT
        injection hDT with hD hT
        rw [← hT]
        have hdel := updateLocalMovePhase_deletes env _ _ _ _ r0 evs0 heq2
        simp [List.any_append, hdel]
      next lms evsL heq2 =>
        split at h
        next r0 evs0 heq3 =>
          injection h with hR hDT
          injection hDT with hD hT
          rw [← hT]
          have hdel := updateDrivePhase_deletes env _ _ _ _ _ _ _ _ r0 evs0 heq3
          simp [List.any_append, hdel]
        next plan2 dR dCP evsD heq3 =>
          split at h
          next r0 evs0 heq4 =>
            injection h with hR hDT
            injection hDT with hD hT
            rw [← hT]
            have hdel := updateDeleteOldPhase_deletes env _ _ _ _ _ _ _ _ r0 evs0 heq4
            simp [List.any_append, hdel]
          next evsX heq4 =>
            unfold updateExecutePhase at h
            simp only [] at h
            repeat' split at h
            all_goals injection h with hR hDT
            all_goals injection hDT with hD hT
            all_goals rw [← hT]
            any_goals (rw [← hR] at hr; exact absurd rfl hr)
            any_goals (simp [List.any_append, deletesEntry, deleteRemoteSafely]; done)
            all_goals have hrec := updateFailureRecovery_deletes2 _ _ _ _ _ _ _ _ _ _ _ _ _ (fun hq => hr (hR ▸ hq))
            all_goals rw [List.any_append, hrec, Bool.or_true]

/-- Claim C8, counterexample: after the quarantine purge fails during
deletion of a drive remote, the backup restore hits the `config dump`
`AttributeError` path; the `AttributeError` escapes, and the
`__delete__`-prefixed backup entry — created earlier in the same
operation — is never removed: its `config delete` appears nowhere in the
trace. -/
theorem c8_counterexample :
    (deleteRcloneRemote leakEnv leakDb "nn").1 = uncaughtResp ∧
    Event.rclone ["config", "create", "--non-interactive", "__delete__aaaaaaaa", "local",
      "remote", "/x"] ∈ (deleteRcloneRemote leakEnv leakDb "nn").2.2 ∧
    Event.rclone ["config", "delete", "__delete__aaaaaaaa"] ∉
      (deleteRcloneRemote leakEnv leakDb "nn").2.2 := by
  refine ⟨rfl, by decide, by decide⟩

set_option maxHeartbeats 1600000 in
/-- Claim C8 (amended): the temporary probe configuration files of SFTP
browsing and drive token validation are removed on every exit path that
created them; the `__backup__` entry of the update and the `__delete__`
entry of the delete main phase are removed on every exit path whose
response is not the unhandled-exception 500.  On the unhandled-exception
paths — the uncaught `AttributeError` of `_restore_remote_backup` on a
non-object configuration dump, and the uncaught `RuntimeError` of
`_restore_drive_path` inside a recovery handler, both reached before the
backup delete runs — the throwaway entry leaks, as the counterexample
shows for the first of them. -/
theorem c8_theorem :
    (∀ (env : Env) (payload : SftpBrowsePayload) (r : Resp) (evs : List Event),
      browseSftpDirectories env payload = (r, evs) → evs ≠ [] →
      ∃ pre, evs = pre ++ probeUnlinkEvs env env.tempName) ∧
    (∀ (env : Env) (payload : DriveValidatePayload) (r : Resp) (evs : List Event),
      validateDriveToken env payload = (r, evs) → evs ≠ [] →
      ∃ pre, evs = pre ++ probeUnlinkEvs env env.tempName) ∧
    (∀ (env : Env) (db : DB) (nn tn rt : String) (sr : Option String) (plan : RemotePlan)
        (r : Resp) (d : DB) (tr : List Event),
      updateCore env db nn tn rt sr plan = (r, d, tr) → r ≠ uncaughtResp →
      tr.any (createdEntry env ("__backup__" ++ env.freshA)) = true →
      tr.any (deletesEntry ("__backup__" ++ env.freshA)) = true) ∧
    (∀ (env : Env) (db : DB) (nn : String) (st : Option String) (dcp : String)
        (lp : Option String) (bn : String) (evsPre : List Event)
        (r : Resp) (d : DB) (tr : List Event),
      deleteMainPhase env db nn st dcp lp (some bn) evsPre = (r, d, tr) →
      r ≠ uncaughtResp → tr.any (deletesEntry bn) = true) := by
  refine ⟨?_, ?_, ?_, ?_⟩
  · intro env payload r evs h hne
    unfold browseSftpDirectories at h
    simp only [] at h
    repeat' split at h
    all_goals injection h with hR hE
    any_goals exact ⟨_, hE.symm⟩
    all_goals rw [← hE] at hne
    all_goals exact absurd rfl hne
  · intro env payload r evs h hne
    unfold validateDriveToken at h
    simp only [] at h
    repeat' split at h
    all_goals injection h with hR hE
    any_goals exact ⟨_, hE.symm⟩
    all_goals rw [← hE] at hne
    all_goals exact absurd rfl hne
  · intro env db nn tn rt sr plan r d tr h hr hc
    exact updateCore_backup_deleted env db nn tn rt sr plan r d tr h hr hc
  · intro env db nn st dcp lp bn evsPre r d tr h hr
    exact deleteMainPhase_deletes env db nn st dcp lp bn evsPre r d tr h hr

/-- Witness for claim C8: the theorem applied at a successful SFTP
browse, a successful token validation, the successful rename update, and
a drive deletion whose purge fails but whose backup restore succeeds,
discharging each hypothesis by evaluation. -/
theorem c8_witness :
    (∃ pre, (browseSftpDirectories testEnv
        ⟨some "h", some "u", none, some "p", none, none⟩).2 =
      pre ++ probeUnlinkEvs testEnv testEnv.tempName) ∧
    (∃ pre, (validateDriveToken testEnv ⟨some "t", none, none⟩).2 =
      pre ++ probeUnlinkEvs testEnv testEnv.tempName) ∧
    ((updateCore snapEnv renameDb "foo" "bar" "local" (some "/data/foo") renamePlan).2.2.any
      (deletesEntry ("__backup__" ++ snapEnv.freshA)) = true) ∧
    ((deleteMainPhase purgeFailEnv backupDb "nn" (some "drive") "gdrive:folder" none
        (some "__delete__x") []).2.2.any (deletesEntry "__delete__x") = true) := by
  refine ⟨?_, ?_, ?_, ?_⟩
  · exact c8_theorem.1 testEnv ⟨some "h", some "u", none, some "p", none, none⟩ _ _
      (by rfl) (by decide)
  · exact c8_theorem.2.1 testEnv ⟨some "t", none, none⟩ _ _ (by rfl) (by decide)
  · exact c8_theorem.2.2.1 snapEnv renameDb "foo" "bar" "local" (some "/data/foo")
      renamePlan _ _ _ (by rfl) (by decide) (by decide)
  · exact c8_theorem.2.2.2 purgeFailEnv backupDb "nn" (some "drive") "gdrive:folder" none
      "__delete__x" [] _ _ _ (by rfl) (by decide)

/-! ### Claim C10 -/

/-- Claim C10, counterexample: `_normalize_sftp_base_path` is not
idempotent.  On `"/a /"` it returns `"/a "` — the `rstrip("/")` exposes a
trailing space — and renormalizing strips that space, giving `"/a"`. -/
theorem c10_counterexample :
    normalizeSftpBasePath (some (normalizeSftpBasePath (some "/a /"))) ≠
      normalizeSftpBasePath (some "/a /") := by decide

/-- Claim C10 (amended): for every input, `_normalize_sftp_base_path`
returns a string that starts with `'/'`, contains no backslash and no
`"//"`, and ends with `'/'` only when it is exactly `"/"`; the function
is idempotent on every input containing no whitespace characters (the
original claim asserted idempotence unconditionally); and
`_join_sftp_folder` of a base and a name that is non-empty and equal to
its own cleaned form (no surrounding whitespace or slashes, which the
original claim did not require) prepends the normalized base: `"/" ++
name` when the normalized base is `"/"`, and base `++ "/" ++ name`
otherwise. -/
theorem c10_theorem :
    (∀ v : Option String,
        strStarts (normalizeSftpBasePath v) "/" = true ∧
          hasDoubleSlash (normalizeSftpBasePath v).data = false ∧
          '\\' ∉ (normalizeSftpBasePath v).data ∧
          (strEndsChar (normalizeSftpBasePath v) '/' = true →
            normalizeSftpBasePath v = "/")) ∧
      (∀ v : Option String, (∀ x ∈ (v.getD "").data, pyWsChar x = false) →
        normalizeSftpBasePath (some (normalizeSftpBasePath v)) =
          normalizeSftpBasePath v) ∧
      (∀ basePath f : String, f ≠ "" → pyStrip f = f → pyStripChar '/' f = f →
        joinSftpFolder basePath (some f) =
          some (if normalizeSftpBasePath (some basePath) = "/" then "/" ++ f
            else normalizeSftpBasePath (some basePath) ++ "/" ++ f)) :=
  ⟨normalizeSftpBasePath_props, normalizeSftpBasePath_idem, joinSftpFolder_formula⟩

/-- Witness for claim C10: the amended theorem applied at concrete
inputs, with each hypothesis discharged by evaluation. -/
theorem c10_witness :
    normalizeSftpBasePath none = "/" ∧
      normalizeSftpBasePath (some (normalizeSftpBasePath (some "/abc"))) =
        normalizeSftpBasePath (some "/abc") ∧
      joinSftpFolder "/base" (some "x") =
        some (if normalizeSftpBasePath (some "/base") = "/" then "/" ++ "x"
          else normalizeSftpBasePath (some "/base") ++ "/" ++ "x") :=
  ⟨(c10_theorem.1 none).2.2.2 (by decide),
   c10_theorem.2.1 (some "/abc") (by decide),
   c10_theorem.2.2 "/base" "x" (by decide) (by decide) (by decide)⟩


/-! ### Claim C1 -/

/-- Claim C1, counterexample: for a local update whose current route
`/other/thing` has parent `/other` — not the base `/data` — the plan
builder still selects `rename`; the claim requires `None` whenever the
current route’s parent is not the base. -/
theorem c1_counterexample :
    planMoveMode (buildRemotePlanLocal testEnv "bar" ⟨some "/data"⟩
        (some "local") (some "/other/thing")) = some (some "rename") ∧
      dirnameP "/other/thing" ≠ "/data" := by
  constructor
  · decide
  · decide

/-- Claim C1 (amended): during an update of a local-directory remote, the
plan builder selects `move_contents` exactly when the normalized current
route equals the normalized base (and differs from the target), leaves
the mode empty when the normalized current route equals the normalized
target (or the current route is absent or unresolvable), and selects
`rename` in every other case — whether or not the current route’s
parent is the base. -/
theorem c1_theorem (env : Env) (name : String) (settings : LocalSettings)
    (ct cr : Option String) (p : RemotePlan)
    (h : buildRemotePlanLocal env name settings ct cr = .ok p) :
    p.localMoveMode =
      (if pyLower (pyStrip (ct.getD "")) = "local" ∧ cr.getD "" ≠ "" then
        match ensureAbsolutePath env.pathEnv (some (cr.getD "")) with
        | some ce =>
            let ne := normalizeFilesystemPath env.pathEnv (some ce)
            let nt := normalizeFilesystemPath env.pathEnv p.localTargetPath
            let nb := normalizeFilesystemPath env.pathEnv p.localBasePath
            if ne = nt then none
            else if ne = nb then some "move_contents"
            else some "rename"
        | none => none
      else none) := by
  unfold buildRemotePlanLocal at h
  cases hB : localBaseAndTarget env name settings with
  | error e => rw [hB] at h; exact absurd h (by simp)
  | ok bt =>
      obtain ⟨basePath, targetPath⟩ := bt
      simp only [hB] at h
      split at h
      · exact absurd h (by simp)
      · injection h with h2
        subst h2
        simp [localExistingAndMode_snd]

/-- Witness for claim C1: the amended theorem applied at a concrete
input (current route `/data/foo`, base `/data`, target `/data/bar`),
discharging the hypothesis by evaluation. -/
theorem c1_witness :
    (exceptOkD (buildRemotePlanLocal testEnv "bar" ⟨some "/data"⟩
        (some "local") (some "/data/foo")) {}).localMoveMode = some "rename" := by
  have h := c1_theorem testEnv "bar" ⟨some "/data"⟩ (some "local") (some "/data/foo")
    (exceptOkD (buildRemotePlanLocal testEnv "bar" ⟨some "/data"⟩
      (some "local") (some "/data/foo")) {}) (by rfl)
  rw [h]
  decide

end Backuper
